import Mathlib

/-!
# Resource-state protocol of `Terrain` (Tutorial23_AsyncQueues)

`Terrain.cpp` is a call site of a rendering engine: it creates buffers and
textures, submits state-transition barriers and records dispatch and draw
commands.  The development below embeds

* the engine side that the calls rely on (tracked resource state, the
  command log), and
* every member function of `Terrain` that touches resource state,
  statement by statement,

and proves properties of the barrier protocol on that embedding.
-/

namespace Diligent

/-- Identity of an engine object (what a `RefCntAutoPtr` member points to). -/
abbrev Handle := Nat

/-- Modelled from the spec: the enumeration `RESOURCE_STATE` is declared in the
engine headers, which are not part of the sources.  The constructors are the
states named in `Terrain.cpp` (`UNKNOWN`, `COPY_DEST`, `VERTEX_BUFFER`,
`INDEX_BUFFER`, `UNORDERED_ACCESS`, `SHADER_RESOURCE`) together with the other
states of the enumerated set of the data model; `CONSTANT_BUFFER` is the state
a uniform buffer is bound in. -/
inductive RESOURCE_STATE
  | UNKNOWN
  | VERTEX_BUFFER
  | CONSTANT_BUFFER
  | INDEX_BUFFER
  | RENDER_TARGET
  | UNORDERED_ACCESS
  | DEPTH_WRITE
  | SHADER_RESOURCE
  | COPY_DEST
  deriving DecidableEq, Repr

/-- The three transition modes a command can be recorded with. -/
inductive RESOURCE_STATE_TRANSITION_MODE
  | NONE
  | TRANSITION
  | VERIFY
  deriving DecidableEq, Repr

/-- Bind flags used by `Terrain::CreateResources`. -/
inductive BIND_FLAGS
  | BIND_VERTEX_BUFFER
  | BIND_INDEX_BUFFER
  | BIND_UNIFORM_BUFFER
  deriving DecidableEq, Repr

/-- Usage classes used by `Terrain::CreateResources`. -/
inductive USAGE
  | USAGE_IMMUTABLE
  | USAGE_DEFAULT
  deriving DecidableEq, Repr

/-- Texture view kinds requested through `GetDefaultView`. -/
inductive TEXTURE_VIEW_TYPE
  | TEXTURE_VIEW_SHADER_RESOURCE
  | TEXTURE_VIEW_UNORDERED_ACCESS
  deriving DecidableEq, Repr

/-- Shader stages named in `GetVariableByName`. -/
inductive SHADER_TYPE
  | SHADER_TYPE_VERTEX
  | SHADER_TYPE_PIXEL
  | SHADER_TYPE_COMPUTE
  deriving DecidableEq, Repr

/-- Shader variables named in `GetVariableByName`. -/
inductive ShaderVariable
  | TerrainConstantsCB
  | g_HeightMapUAV
  | g_NormalMapUAV
  | DrawConstantsCB
  | g_TerrainHeightMap
  | g_TerrainNormalMap
  | g_TerrainDiffuseMap
  deriving DecidableEq, Repr

/-- One element of a `Barriers[]` array as the call site writes it.
`pResource` is the value of the pointer member at that moment (`none` for
`nullptr`).  `UpdateResourceState` is `some b` when the initializer has the
fourth argument `b` and `none` when the initializer has three arguments only
(the constructor that fills the flag in is declared in the engine headers). -/
structure StateTransitionDesc where
  pResource : Option Handle
  OldState : RESOURCE_STATE
  NewState : RESOURCE_STATE
  UpdateResourceState : Option Bool
  deriving DecidableEq, Repr

/-- A submitted barrier as it appears in the command log: the descriptor and
the tracked state its resource had at the moment of submission (`none` when
the descriptor names no resource). -/
structure BarrierRecord where
  desc : StateTransitionDesc
  tracked : Option RESOURCE_STATE
  deriving DecidableEq, Repr

/-- What `Set` binds to a shader variable: a buffer, or a default view of a
texture. -/
inductive BoundObject
  | buffer (pBuffer : Option Handle)
  | textureView (pTexture : Handle) (view : TEXTURE_VIEW_TYPE)
  deriving DecidableEq, Repr

/-- One `GetVariableByName(stage, name)->Set(object)` of a shader resource
binding. -/
structure Binding where
  stage : SHADER_TYPE
  name : ShaderVariable
  object : BoundObject
  deriving DecidableEq, Repr

/-- A shader resource binding object: the pipeline it was created from and the
variables set on it, in program order. -/
structure SRB where
  pso : Handle
  vars : List Binding
  deriving DecidableEq, Repr

/-- Calls that reach the device, a device context or a resource, in program
order. -/
inductive Event
  | CreateBuffer (h : Handle) (bind : BIND_FLAGS) (usage : USAGE) (withData : Bool)
  | CreateTexture (h : Handle)
  | CreateTextureFromFile (h : Handle)
  | CreateShaderResourceBinding (pso : Handle)
  | TransitionResourceStates (Barriers : List BarrierRecord)
  | SetState (h : Handle) (s : RESOURCE_STATE)
  | EngineBarrier (h : Handle) (old new : RESOURCE_STATE)
  | BeginDebugGroup
  | EndDebugGroup
  | UpdateBuffer (h : Option Handle) (mode : RESOURCE_STATE_TRANSITION_MODE)
  | SetPipelineState (pso : Option Handle)
  | CommitShaderResources (srb : Option SRB) (mode : RESOURCE_STATE_TRANSITION_MODE)
  | DispatchCompute
  | MapBuffer (h : Option Handle)
  | UnmapBuffer (h : Option Handle)
  | SetVertexBuffers (vb : Option Handle) (mode : RESOURCE_STATE_TRANSITION_MODE)
  | SetIndexBuffer (ib : Option Handle) (mode : RESOURCE_STATE_TRANSITION_MODE)
  | DrawIndexed
  | IdleGPU
  | Flush
  deriving DecidableEq, Repr

/-- Tracked state that the engine gives a resource when it creates it.  The
engine decides these; the embedding takes them as parameters. -/
structure EngineCfg where
  bufferWithData : RESOURCE_STATE
  bufferNoData : RESOURCE_STATE
  texture : RESOURCE_STATE
  textureFromFile : RESOURCE_STATE

/-- Engine side of the protocol: the next free object identity, the tracked
state of every object and the calls received so far (oldest first). -/
structure Engine where
  nextHandle : Handle
  state : Handle → RESOURCE_STATE
  log : List Event

/-- Append a call to the log. -/
def Engine.record (e : Engine) (ev : Event) : Engine :=
  { e with log := e.log ++ [ev] }

/-- Overwrite the tracked state of one object. -/
def Engine.setTracked (e : Engine) (h : Handle) (s : RESOURCE_STATE) : Engine :=
  { e with state := fun k => if k = h then s else e.state k }

/-- Creation of an engine object: a fresh identity with tracked state `init`;
the creating call `ev` is logged. -/
def Engine.create (e : Engine) (init : RESOURCE_STATE) (ev : Handle → Event) :
    Handle × Engine :=
  (e.nextHandle,
   { nextHandle := e.nextHandle + 1
     state := fun k => if k = e.nextHandle then init else e.state k
     log := e.log ++ [ev e.nextHandle] })

/-- Modelled from the spec: `ITexture::SetState` / `IBuffer::SetState` belong to
the engine.  The call forces the tracked state of the object
(operation MarkSharedAcrossContexts when the state is `UNKNOWN`). -/
def Engine.SetState (e : Engine) (h : Handle) (s : RESOURCE_STATE) : Engine :=
  (e.setTracked h s).record (Event.SetState h s)

/-- Modelled from the spec: effect of one explicit barrier on the tracked state
(RequestTransition, step 4): when the update flag is true the record of the
resource becomes the new state, otherwise the record is left unchanged. -/
def Engine.applyBarrier (e : Engine) (b : StateTransitionDesc) : Engine :=
  match b.pResource, b.UpdateResourceState with
  | some h, some true => e.setTracked h b.NewState
  | _, _ => e

/-- Barriers of one array are processed in array order; each record keeps the
tracked state found at submission. -/
def Engine.submit : Engine → List StateTransitionDesc → Engine × List BarrierRecord
  | e, [] => (e, [])
  | e, b :: bs =>
    let r := (e.applyBarrier b).submit bs
    (r.1, { desc := b, tracked := b.pResource.map e.state } :: r.2)

/-- Modelled from the spec: `IDeviceContext::TransitionResourceStates` belongs to
the engine.  All barriers of the array are submitted as one grouped request. -/
def Engine.TransitionResourceStates (e : Engine) (Barriers : List StateTransitionDesc) :
    Engine :=
  let r := e.submit Barriers
  r.1.record (Event.TransitionResourceStates r.2)

/-- Modelled from the spec: automatic transition performed by the engine for a
command recorded with mode `TRANSITION` (RequestTransition with
updateInternalState = true).  A resource whose tracked state is `UNKNOWN` is
never touched; a resource already in the required state needs no barrier;
otherwise one barrier is emitted and the record is updated. -/
def Engine.autoTransition (e : Engine) (res : Option Handle) (required : RESOURCE_STATE) :
    Engine :=
  match res with
  | none => e
  | some h =>
    if e.state h = RESOURCE_STATE.UNKNOWN then e
    else if e.state h = required then e
    else (e.setTracked h required).record (Event.EngineBarrier h (e.state h) required)

/-- Resource named by a bound object. -/
def BoundObject.resource : BoundObject → Option Handle
  | BoundObject.buffer pBuffer => pBuffer
  | BoundObject.textureView pTexture _ => some pTexture

/-- Modelled from the spec: state in which the bound object is used by the
shader (uniform buffer, unordered-access view, shader-resource view). -/
def BoundObject.requiredState : BoundObject → RESOURCE_STATE
  | BoundObject.buffer _ => RESOURCE_STATE.CONSTANT_BUFFER
  | BoundObject.textureView _ TEXTURE_VIEW_TYPE.TEXTURE_VIEW_UNORDERED_ACCESS =>
    RESOURCE_STATE.UNORDERED_ACCESS
  | BoundObject.textureView _ TEXTURE_VIEW_TYPE.TEXTURE_VIEW_SHADER_RESOURCE =>
    RESOURCE_STATE.SHADER_RESOURCE

/-- Automatic transitions of all variables of a binding, in order. -/
def Engine.autoTransitionAll : Engine → List Binding → Engine
  | e, [] => e
  | e, v :: vs => (e.autoTransition v.object.resource v.object.requiredState).autoTransitionAll vs

/-- Modelled from the spec: `IDeviceContext::CommitShaderResources`.  The call
is logged; with mode `TRANSITION` the engine transitions the bound
resources. -/
def Engine.CommitShaderResources (e : Engine) (srb : Option SRB)
    (mode : RESOURCE_STATE_TRANSITION_MODE) : Engine :=
  let e1 := e.record (Event.CommitShaderResources srb mode)
  match mode, srb with
  | RESOURCE_STATE_TRANSITION_MODE.TRANSITION, some b => e1.autoTransitionAll b.vars
  | _, _ => e1

/-- Modelled from the spec: `IDeviceContext::UpdateBuffer`.  The call is logged;
with mode `TRANSITION` the engine transitions the buffer to `COPY_DEST`. -/
def Engine.UpdateBuffer (e : Engine) (pBuffer : Option Handle)
    (mode : RESOURCE_STATE_TRANSITION_MODE) : Engine :=
  let e1 := e.record (Event.UpdateBuffer pBuffer mode)
  match mode with
  | RESOURCE_STATE_TRANSITION_MODE.TRANSITION => e1.autoTransition pBuffer RESOURCE_STATE.COPY_DEST
  | _ => e1

/-- Modelled from the spec: `IDeviceContext::SetVertexBuffers` with one buffer. -/
def Engine.SetVertexBuffers (e : Engine) (vb : Option Handle)
    (mode : RESOURCE_STATE_TRANSITION_MODE) : Engine :=
  let e1 := e.record (Event.SetVertexBuffers vb mode)
  match mode with
  | RESOURCE_STATE_TRANSITION_MODE.TRANSITION => e1.autoTransition vb RESOURCE_STATE.VERTEX_BUFFER
  | _ => e1

/-- Modelled from the spec: `IDeviceContext::SetIndexBuffer`. -/
def Engine.SetIndexBuffer (e : Engine) (ib : Option Handle)
    (mode : RESOURCE_STATE_TRANSITION_MODE) : Engine :=
  let e1 := e.record (Event.SetIndexBuffer ib mode)
  match mode with
  | RESOURCE_STATE_TRANSITION_MODE.TRANSITION => e1.autoTransition ib RESOURCE_STATE.INDEX_BUFFER
  | _ => e1

/-- The pointer members of `Terrain` that the resource protocol uses. -/
structure Terrain where
  m_DrawConstants : Option Handle
  m_GenPSO : Option Handle
  m_DrawPSO : Option Handle
  m_VB : Option Handle
  m_IB : Option Handle
  m_HeightMap : Option Handle
  m_NormalMap : Option Handle
  m_DiffuseMap : Option Handle
  m_TerrainConstants : Option Handle
  m_GenSRB : Option SRB
  m_DrawSRB : Option SRB

/-- Embedding of `Terrain::BeforeDraw` (Terrain.cpp:367-378). -/
def Terrain.BeforeDraw (t : Terrain) (e : Engine) : Terrain × Engine :=
  let Barriers : List StateTransitionDesc :=
    [ { pResource := t.m_HeightMap, OldState := RESOURCE_STATE.UNORDERED_ACCESS,
        NewState := RESOURCE_STATE.SHADER_RESOURCE, UpdateResourceState := some false },
      { pResource := t.m_NormalMap, OldState := RESOURCE_STATE.UNORDERED_ACCESS,
        NewState := RESOURCE_STATE.SHADER_RESOURCE, UpdateResourceState := some false } ]
  (t, e.TransitionResourceStates Barriers)

/-- Embedding of `Terrain::AfterDraw` (Terrain.cpp:380-388). -/
def Terrain.AfterDraw (t : Terrain) (e : Engine) : Terrain × Engine :=
  let Barriers : List StateTransitionDesc :=
    [ { pResource := t.m_HeightMap, OldState := RESOURCE_STATE.SHADER_RESOURCE,
        NewState := RESOURCE_STATE.UNORDERED_ACCESS, UpdateResourceState := none },
      { pResource := t.m_NormalMap, OldState := RESOURCE_STATE.SHADER_RESOURCE,
        NewState := RESOURCE_STATE.UNORDERED_ACCESS, UpdateResourceState := none } ]
  (t, e.TransitionResourceStates Barriers)

/-- Embedding of `Terrain::CreateResources`, block "Create vertex & index buffers"
(Terrain.cpp:92-112). -/
def Terrain.createBuffers (cfg : EngineCfg) (t : Terrain) (e : Engine) : Terrain × Engine :=
  let c1 := e.create cfg.bufferWithData
    (fun h => Event.CreateBuffer h BIND_FLAGS.BIND_VERTEX_BUFFER USAGE.USAGE_IMMUTABLE true)
  let t1 := { t with m_VB := some c1.1 }
  let c2 := c1.2.create cfg.bufferWithData
    (fun h => Event.CreateBuffer h BIND_FLAGS.BIND_INDEX_BUFFER USAGE.USAGE_IMMUTABLE true)
  let t2 := { t1 with m_IB := some c2.1 }
  let Barriers : List StateTransitionDesc :=
    [ { pResource := t2.m_VB, OldState := RESOURCE_STATE.COPY_DEST,
        NewState := RESOURCE_STATE.VERTEX_BUFFER, UpdateResourceState := some true },
      { pResource := t2.m_IB, OldState := RESOURCE_STATE.COPY_DEST,
        NewState := RESOURCE_STATE.INDEX_BUFFER, UpdateResourceState := some true } ]
  (t2, c2.2.TransitionResourceStates Barriers)

/-- Embedding of `Terrain::CreateResources`, block "Create height & normal maps"
(Terrain.cpp:114-140). -/
def Terrain.createMaps (cfg : EngineCfg) (t : Terrain) (e : Engine) : Terrain × Engine :=
  let c1 := e.create cfg.texture Event.CreateTexture
  let t1 := { t with m_HeightMap := some c1.1 }
  let c2 := c1.2.create cfg.texture Event.CreateTexture
  let t2 := { t1 with m_NormalMap := some c2.1 }
  let Barriers : List StateTransitionDesc :=
    [ { pResource := t2.m_HeightMap, OldState := RESOURCE_STATE.UNKNOWN,
        NewState := RESOURCE_STATE.UNORDERED_ACCESS, UpdateResourceState := none },
      { pResource := t2.m_NormalMap, OldState := RESOURCE_STATE.UNKNOWN,
        NewState := RESOURCE_STATE.UNORDERED_ACCESS, UpdateResourceState := none } ]
  let e1 := c2.2.TransitionResourceStates Barriers
  -- Resources are used in multiple contexts, so disable automatic resource transitions.
  let e2 := e1.SetState c1.1 RESOURCE_STATE.UNKNOWN
  let e3 := e2.SetState c2.1 RESOURCE_STATE.UNKNOWN
  (t2, e3)

/-- Embedding of `Terrain::CreateResources`, block `if (m_DiffuseMap == nullptr)`
(Terrain.cpp:142-154). -/
def Terrain.createDiffuseMap (cfg : EngineCfg) (t : Terrain) (e : Engine) : Terrain × Engine :=
  match t.m_DiffuseMap with
  | some _ => (t, e)
  | none =>
    let c1 := e.create cfg.textureFromFile Event.CreateTextureFromFile
    let t1 := { t with m_DiffuseMap := some c1.1 }
    let Barriers : List StateTransitionDesc :=
      [ { pResource := t1.m_DiffuseMap, OldState := RESOURCE_STATE.COPY_DEST,
          NewState := RESOURCE_STATE.SHADER_RESOURCE, UpdateResourceState := none } ]
    (t1, c1.2.TransitionResourceStates Barriers)

/-- Embedding of `Terrain::CreateResources`, block `if (m_TerrainConstants == nullptr)`
(Terrain.cpp:156-165). -/
def Terrain.createConstants (cfg : EngineCfg) (t : Terrain) (e : Engine) : Terrain × Engine :=
  match t.m_TerrainConstants with
  | some _ => (t, e)
  | none =>
    let c1 := e.create cfg.bufferNoData
      (fun h => Event.CreateBuffer h BIND_FLAGS.BIND_UNIFORM_BUFFER USAGE.USAGE_DEFAULT false)
    ({ t with m_TerrainConstants := some c1.1 }, c1.2)

/-- Outcome of a member function: it returns with the new state of the object
and of the engine, or it dereferences a null pointer member after the calls
recorded in the engine. -/
inductive Result
  | ok (t : Terrain) (e : Engine)
  | crash (e : Engine)

/-- Engine state at the end of a call, whether it returned or not. -/
def Result.engine : Result → Engine
  | Result.ok _ e => e
  | Result.crash e => e

/-- Embedding of `Terrain::CreateResources`, block "Set terrain generator shader resources"
(Terrain.cpp:167-173). -/
def Terrain.createGenSRB (t : Terrain) (e : Engine) : Result :=
  match t.m_GenPSO with
  | none => Result.crash e
  | some genPSO =>
    let e1 := e.record (Event.CreateShaderResourceBinding genPSO)
    match t.m_HeightMap, t.m_NormalMap with
    | some heightMap, some normalMap =>
      let genSRB : SRB :=
        { pso := genPSO
          vars :=
            [ ⟨SHADER_TYPE.SHADER_TYPE_COMPUTE, ShaderVariable.TerrainConstantsCB,
                BoundObject.buffer t.m_TerrainConstants⟩,
              ⟨SHADER_TYPE.SHADER_TYPE_COMPUTE, ShaderVariable.g_HeightMapUAV,
                BoundObject.textureView heightMap
                  TEXTURE_VIEW_TYPE.TEXTURE_VIEW_UNORDERED_ACCESS⟩,
              ⟨SHADER_TYPE.SHADER_TYPE_COMPUTE, ShaderVariable.g_NormalMapUAV,
                BoundObject.textureView normalMap
                  TEXTURE_VIEW_TYPE.TEXTURE_VIEW_UNORDERED_ACCESS⟩ ] }
      Result.ok { t with m_GenSRB := some genSRB } e1
    | _, _ => Result.crash e1

/-- Embedding of `Terrain::CreateResources`, block "Set draw terrain shader resources"
(Terrain.cpp:175-185). -/
def Terrain.createDrawSRB (t : Terrain) (e : Engine) : Result :=
  match t.m_DrawPSO with
  | none => Result.crash e
  | some drawPSO =>
    let e1 := e.record (Event.CreateShaderResourceBinding drawPSO)
    match t.m_HeightMap, t.m_NormalMap, t.m_DiffuseMap with
    | some heightMap, some normalMap, some diffuseMap =>
      let drawSRB : SRB :=
        { pso := drawPSO
          vars :=
            [ ⟨SHADER_TYPE.SHADER_TYPE_VERTEX, ShaderVariable.DrawConstantsCB,
                BoundObject.buffer t.m_DrawConstants⟩,
              ⟨SHADER_TYPE.SHADER_TYPE_VERTEX, ShaderVariable.TerrainConstantsCB,
                BoundObject.buffer t.m_TerrainConstants⟩,
              ⟨SHADER_TYPE.SHADER_TYPE_VERTEX, ShaderVariable.g_TerrainHeightMap,
                BoundObject.textureView heightMap
                  TEXTURE_VIEW_TYPE.TEXTURE_VIEW_SHADER_RESOURCE⟩,
              ⟨SHADER_TYPE.SHADER_TYPE_PIXEL, ShaderVariable.DrawConstantsCB,
                BoundObject.buffer t.m_DrawConstants⟩,
              ⟨SHADER_TYPE.SHADER_TYPE_PIXEL, ShaderVariable.TerrainConstantsCB,
                BoundObject.buffer t.m_TerrainConstants⟩,
              ⟨SHADER_TYPE.SHADER_TYPE_PIXEL, ShaderVariable.g_TerrainNormalMap,
                BoundObject.textureView normalMap
                  TEXTURE_VIEW_TYPE.TEXTURE_VIEW_SHADER_RESOURCE⟩,
              ⟨SHADER_TYPE.SHADER_TYPE_PIXEL, ShaderVariable.g_TerrainDiffuseMap,
                BoundObject.textureView diffuseMap
                  TEXTURE_VIEW_TYPE.TEXTURE_VIEW_SHADER_RESOURCE⟩ ] }
      Result.ok { t with m_DrawSRB := some drawSRB } e1
    | _, _, _ => Result.crash e1

/-- Embedding of `Terrain::CreateResources` (Terrain.cpp:48-186): the blocks in source
order.  The vertex and index data are generated before the first block and do
not touch resource state. -/
def Terrain.CreateResources (cfg : EngineCfg) (t : Terrain) (e : Engine) : Result :=
  let r1 := t.createBuffers cfg e
  let r2 := r1.1.createMaps cfg r1.2
  let r3 := r2.1.createDiffuseMap cfg r2.2
  let r4 := r3.1.createConstants cfg r3.2
  match r4.1.createGenSRB r4.2 with
  | Result.crash e5 => Result.crash e5
  | Result.ok t5 e5 => t5.createDrawSRB e5

/-- Embedding of `Terrain::Update` (Terrain.cpp:295-329).  `m_HeightMap->GetDesc()`
dereferences the height map. -/
def Terrain.Update (t : Terrain) (e : Engine) : Result :=
  let e1 := e.record Event.BeginDebugGroup
  match t.m_HeightMap with
  | none => Result.crash e1
  | some _ =>
    let e2 := e1.UpdateBuffer t.m_TerrainConstants RESOURCE_STATE_TRANSITION_MODE.TRANSITION
    let e3 := e2.record (Event.SetPipelineState t.m_GenPSO)
    -- m_TerrainHeightMap and m_TerrainNormalMap can not be transitioned here
    -- because has UNKNOWN state.
    let e4 := e3.CommitShaderResources t.m_GenSRB RESOURCE_STATE_TRANSITION_MODE.TRANSITION
    let e5 := e4.record Event.DispatchCompute
    Result.ok t (e5.record Event.EndDebugGroup)

/-- Embedding of `Terrain::Draw` (Terrain.cpp:331-365).  `m_IB->GetDesc()` dereferences the
index buffer. -/
def Terrain.Draw (t : Terrain) (e : Engine) : Result :=
  let e1 := e.record Event.BeginDebugGroup
  let e2 := (e1.record (Event.MapBuffer t.m_DrawConstants)).record
    (Event.UnmapBuffer t.m_DrawConstants)
  let e3 := e2.record (Event.SetPipelineState t.m_DrawPSO)
  -- m_TerrainHeightMap and m_TerrainNormalMap can not be transitioned here
  -- because has UNKNOWN state.
  -- Other resources has constant state and does not require transitions.
  let e4 := e3.CommitShaderResources t.m_DrawSRB RESOURCE_STATE_TRANSITION_MODE.NONE
  -- Vertex and index buffers are immutable and does not require transitions.
  let e5 := e4.SetVertexBuffers t.m_VB RESOURCE_STATE_TRANSITION_MODE.NONE
  let e6 := e5.SetIndexBuffer t.m_IB RESOURCE_STATE_TRANSITION_MODE.NONE
  match t.m_IB with
  | none => Result.crash e6
  | some _ =>
    let e7 := e6.record Event.DrawIndexed
    Result.ok t (e7.record Event.EndDebugGroup)

/-- Embedding of `Terrain::Recreate`, the six assignments of `nullptr` (Terrain.cpp:393-398). -/
def Terrain.dropHandles (t : Terrain) : Terrain :=
  { t with
    m_VB := none, m_IB := none, m_HeightMap := none, m_NormalMap := none,
    m_GenSRB := none, m_DrawSRB := none }

/-- Embedding of `Terrain::Recreate` (Terrain.cpp:390-406). -/
def Terrain.Recreate (cfg : EngineCfg) (t : Terrain) (e : Engine) : Result :=
  let t1 := t.dropHandles
  let e1 := e.record Event.IdleGPU
  match t1.CreateResources cfg e1 with
  | Result.crash e2 => Result.crash e2
  | Result.ok t2 e2 =>
    let e3 := e2.record Event.Flush
    Result.ok t2 (e3.record Event.IdleGPU)

/-- The member functions of `Terrain` that a caller can invoke on a context. -/
inductive Op
  | CreateResources
  | Update
  | BeforeDraw
  | Draw
  | AfterDraw
  | Recreate
  deriving DecidableEq, Repr

/-- One call of a member function. -/
def step (cfg : EngineCfg) (op : Op) (t : Terrain) (e : Engine) : Result :=
  match op with
  | Op.CreateResources => t.CreateResources cfg e
  | Op.Update => t.Update e
  | Op.BeforeDraw => Result.ok (t.BeforeDraw e).1 (t.BeforeDraw e).2
  | Op.Draw => t.Draw e
  | Op.AfterDraw => Result.ok (t.AfterDraw e).1 (t.AfterDraw e).2
  | Op.Recreate => t.Recreate cfg e

/-- A sequence of calls, first call first; the run ends at the first call that
does not return. -/
def run (cfg : EngineCfg) : List Op → Terrain → Engine → Result
  | [], t, e => Result.ok t e
  | op :: ops, t, e =>
    match step cfg op t e with
    | Result.crash e1 => Result.crash e1
    | Result.ok t1 e1 => run cfg ops t1 e1

/-- One frame: `Update; BeforeDraw; Draw; AfterDraw`. -/
def frame : List Op := [Op.Update, Op.BeforeDraw, Op.Draw, Op.AfterDraw]

/-- The calls of `n` frames. -/
def frames : Nat → List Op
  | 0 => []
  | n + 1 => frame ++ frames n

/-- A `Terrain` after `Initialize` and `CreatePSO`: the constants buffer of the
scene and both pipelines exist, no resource has been created yet. -/
def Terrain.initial : Terrain :=
  { m_DrawConstants := some 0, m_GenPSO := some 1, m_DrawPSO := some 2,
    m_VB := none, m_IB := none, m_HeightMap := none, m_NormalMap := none,
    m_DiffuseMap := none, m_TerrainConstants := none, m_GenSRB := none, m_DrawSRB := none }

/-- The engine before `Terrain` created anything: three objects exist (see
`Terrain.initial`), the log is empty. -/
def Engine.initial : Engine :=
  { nextHandle := 3, state := fun _ => RESOURCE_STATE.CONSTANT_BUFFER, log := [] }

/-- A concrete choice of creation states, used in the concrete instances: buffers and
file textures are left in `COPY_DEST` by the upload of their data, other
objects start in `SHADER_RESOURCE` / `CONSTANT_BUFFER`. -/
def EngineCfg.sample : EngineCfg :=
  { bufferWithData := RESOURCE_STATE.COPY_DEST, bufferNoData := RESOURCE_STATE.CONSTANT_BUFFER,
    texture := RESOURCE_STATE.SHADER_RESOURCE, textureFromFile := RESOURCE_STATE.COPY_DEST }

/-- Calls logged by `e1` that were not yet logged by `e0`. -/
def Engine.since (e0 e1 : Engine) : List Event :=
  e1.log.drop e0.log.length

/-- Explicit barriers (elements of submitted `Barriers[]` arrays) contained in
a list of calls, in order. -/
def barriersOf : List Event → List BarrierRecord
  | [] => []
  | Event.TransitionResourceStates bs :: evs => bs ++ barriersOf evs
  | _ :: evs => barriersOf evs

/-- Explicit barriers on one resource contained in a list of calls. -/
def barriersOn (h : Handle) (evs : List Event) : List BarrierRecord :=
  (barriersOf evs).filter (fun r => r.desc.pResource = some h)

/-- A terrain whose maps exist; used in the concrete instances. -/
def Terrain.sample : Terrain :=
  { m_DrawConstants := some 0, m_GenPSO := some 1, m_DrawPSO := some 2,
    m_VB := some 3, m_IB := some 4, m_HeightMap := some 5, m_NormalMap := some 6,
    m_DiffuseMap := some 7, m_TerrainConstants := some 8, m_GenSRB := none, m_DrawSRB := none }

/-- An engine in which the objects 5 and 6 have tracked state `UNKNOWN`; used
in the concrete instances. -/
def Engine.sample : Engine :=
  { nextHandle := 9
    state := fun k => if k = 5 ∨ k = 6 then RESOURCE_STATE.UNKNOWN
      else RESOURCE_STATE.CONSTANT_BUFFER
    log := [] }

/-- New state that a call gives resource `h` through a barrier (explicit or
issued by the engine), if it contains one; for a grouped request the last
barrier on `h` counts. -/
def Event.newState (h : Handle) : Event → Option RESOURCE_STATE
  | Event.TransitionResourceStates bs =>
    ((bs.filter (fun r => r.desc.pResource = some h)).getLast?).map
      (fun r => r.desc.NewState)
  | Event.EngineBarrier k _ new => if k = h then some new else none
  | _ => none

/-- Barrier-determined state of resource `h` after the calls `evs`, starting
from `init`: the new state of the last barrier on `h`. -/
def actualState (h : Handle) : Option RESOURCE_STATE → List Event → Option RESOURCE_STATE
  | init, [] => init
  | init, ev :: evs =>
    actualState h (match ev.newState h with
      | some s => some s
      | none => init) evs

/-- State that a command needs resource `h` of the terrain maps to be in:
`DispatchCompute` writes the maps through unordered-access views, `DrawIndexed`
reads them through shader-resource views. -/
def Event.needs : Event → Option RESOURCE_STATE
  | Event.DispatchCompute => some RESOURCE_STATE.UNORDERED_ACCESS
  | Event.DrawIndexed => some RESOURCE_STATE.SHADER_RESOURCE
  | _ => none

/-- Check that at every dispatch and every draw of `evs` the barrier-determined
state of `h` is the one the command needs. -/
def protocolOK (h : Handle) : Option RESOURCE_STATE → List Event → Bool
  | _, [] => true
  | st, ev :: evs =>
    (match ev.needs with
      | some s => decide (st = some s)
      | none => true)
    && protocolOK h (match ev.newState h with
      | some s => some s
      | none => st) evs

/-- All calls of `evs` are barriers issued by the engine on resources whose
tracked state in `e` is not `UNKNOWN`. -/
def AutoOnly (e : Engine) (evs : List Event) : Prop :=
  ∀ ev ∈ evs, ∃ h o n, ev = Event.EngineBarrier h o n ∧ e.state h ≠ RESOURCE_STATE.UNKNOWN

/-- Relation between the engine before and after automatic transitions of the
resources `res`: only engine barriers are logged, no object is created, a
tracked state `UNKNOWN` stays, and other resources keep their state. -/
structure Engine.Auto (e e1 : Engine) (A : List Event) (res : List (Option Handle)) :
    Prop where
  log : e1.log = e.log ++ A
  only : AutoOnly e A
  next : e1.nextHandle = e.nextHandle
  unknown : ∀ k, e.state k = RESOURCE_STATE.UNKNOWN → e1.state k = RESOURCE_STATE.UNKNOWN
  other : ∀ k, some k ∉ res → e1.state k = e.state k

/-- Resources bound by a shader resource binding (none for a null binding). -/
def boundResources : Option SRB → List (Option Handle)
  | none => []
  | some b => b.vars.map (fun v => v.object.resource)

/-- The call is one of the four per-frame member functions. -/
def Op.isFrameOp : Op → Bool
  | Op.Update => true
  | Op.BeforeDraw => true
  | Op.Draw => true
  | Op.AfterDraw => true
  | _ => false

/-- Barrier `b` names as its old state the new state of barrier `a`. -/
def BarrierRecord.follows (a b : BarrierRecord) : Prop :=
  b.desc.OldState = a.desc.NewState

/-- Protocol facts about the calls `L` issued since the maps `hm` and `nm`
were created: every dispatch finds both maps in `UNORDERED_ACCESS`, every draw
finds them in `SHADER_RESOURCE`, after `L` both are in `UNORDERED_ACCESS`, and
on every resource each barrier follows the previous one. -/
structure Protocol (hm nm : Handle) (L : List Event) : Prop where
  okH : protocolOK hm none L = true
  okN : protocolOK nm none L = true
  stH : actualState hm none L = some RESOURCE_STATE.UNORDERED_ACCESS
  stN : actualState nm none L = some RESOURCE_STATE.UNORDERED_ACCESS
  chain : ∀ h, List.Chain' BarrierRecord.follows (barriersOn h L)
  lastH : ∀ b ∈ (barriersOn hm L).getLast?,
    b.desc.NewState = RESOURCE_STATE.UNORDERED_ACCESS
  lastN : ∀ b ∈ (barriersOn nm L).getLast?,
    b.desc.NewState = RESOURCE_STATE.UNORDERED_ACCESS

/-- The calls that `Terrain::CreateResources` issues before it creates the
shader resource bindings, written out: `n` is the first free object identity,
`newDiffuse` / `newConstants` tell whether `m_DiffuseMap` /
`m_TerrainConstants` were null on entry. -/
def createObjectCalls (cfg : EngineCfg) (n : Handle) (newDiffuse newConstants : Bool) :
    List Event :=
  [ Event.CreateBuffer n BIND_FLAGS.BIND_VERTEX_BUFFER USAGE.USAGE_IMMUTABLE true,
    Event.CreateBuffer (n + 1) BIND_FLAGS.BIND_INDEX_BUFFER USAGE.USAGE_IMMUTABLE true,
    Event.TransitionResourceStates
      [ { desc := { pResource := some n, OldState := RESOURCE_STATE.COPY_DEST,
                    NewState := RESOURCE_STATE.VERTEX_BUFFER,
                    UpdateResourceState := some true },
          tracked := some cfg.bufferWithData },
        { desc := { pResource := some (n + 1), OldState := RESOURCE_STATE.COPY_DEST,
                    NewState := RESOURCE_STATE.INDEX_BUFFER,
                    UpdateResourceState := some true },
          tracked := some cfg.bufferWithData } ],
    Event.CreateTexture (n + 2),
    Event.CreateTexture (n + 3),
    Event.TransitionResourceStates
      [ { desc := { pResource := some (n + 2), OldState := RESOURCE_STATE.UNKNOWN,
                    NewState := RESOURCE_STATE.UNORDERED_ACCESS,
                    UpdateResourceState := none },
          tracked := some cfg.texture },
        { desc := { pResource := some (n + 3), OldState := RESOURCE_STATE.UNKNOWN,
                    NewState := RESOURCE_STATE.UNORDERED_ACCESS,
                    UpdateResourceState := none },
          tracked := some cfg.texture } ],
    Event.SetState (n + 2) RESOURCE_STATE.UNKNOWN,
    Event.SetState (n + 3) RESOURCE_STATE.UNKNOWN ]
  ++ (if newDiffuse then
        [ Event.CreateTextureFromFile (n + 4),
          Event.TransitionResourceStates
            [ { desc := { pResource := some (n + 4), OldState := RESOURCE_STATE.COPY_DEST,
                          NewState := RESOURCE_STATE.SHADER_RESOURCE,
                          UpdateResourceState := none },
                tracked := some cfg.textureFromFile } ] ]
      else [])
  ++ (if newConstants then
        [ Event.CreateBuffer (if newDiffuse then n + 5 else n + 4)
            BIND_FLAGS.BIND_UNIFORM_BUFFER USAGE.USAGE_DEFAULT false ]
      else [])

/-- The calls that `Terrain::CreateResources` issues when it returns; `g` and
`d` are the two pipelines.  `Terrain.CreateResources_calls` proves that the
embedded function logs exactly these calls. -/
def createCalls (cfg : EngineCfg) (n : Handle) (newDiffuse newConstants : Bool)
    (g d : Handle) : List Event :=
  createObjectCalls cfg n newDiffuse newConstants
  ++ [ Event.CreateShaderResourceBinding g, Event.CreateShaderResourceBinding d ]

/-- Barrier arrays of the `TransitionResourceStates` calls contained in a list
of calls, one list per call. -/
def groupsOf : List Event → List (List BarrierRecord)
  | [] => []
  | Event.TransitionResourceStates bs :: evs => bs :: groupsOf evs
  | _ :: evs => groupsOf evs

/-- All barriers of a group name the same old state. -/
def sameOldState (grp : List BarrierRecord) : Prop :=
  ∀ a ∈ grp, ∀ b ∈ grp, a.desc.OldState = b.desc.OldState

/-- All barriers of a group share the same (old state, new state) pair. -/
def sameTransition (grp : List BarrierRecord) : Prop :=
  ∀ a ∈ grp, ∀ b ∈ grp,
    a.desc.OldState = b.desc.OldState ∧ a.desc.NewState = b.desc.NewState

/-- The call creates an engine object. -/
def Event.isCreation : Event → Bool
  | Event.CreateBuffer _ _ _ _ => true
  | Event.CreateTexture _ => true
  | Event.CreateTextureFromFile _ => true
  | Event.CreateShaderResourceBinding _ => true
  | _ => false

/-- The call synchronizes with the device (`IdleGPU`) or submits the recorded
commands (`Flush`). -/
def Event.isSync : Event → Bool
  | Event.IdleGPU => true
  | Event.Flush => true
  | _ => false

/-- The call is a barrier: an explicit grouped request or a barrier issued by
the engine for a command recorded with mode `TRANSITION`. -/
def Event.isBarrier : Event → Bool
  | Event.TransitionResourceStates _ => true
  | Event.EngineBarrier _ _ _ => true
  | _ => false

/-- A barrier submitted while the tracked state of its resource is `UNKNOWN`
names an old state other than `UNKNOWN`. -/
def BarrierRecord.explicitOld (b : BarrierRecord) : Prop :=
  b.tracked = some RESOURCE_STATE.UNKNOWN → b.desc.OldState ≠ RESOURCE_STATE.UNKNOWN

/-- The barrier that `BeforeDraw` submits on object 5 while its tracked state
is `UNKNOWN`; used in the concrete instances. -/
def BarrierRecord.sample : BarrierRecord :=
  { desc := { pResource := some 5, OldState := RESOURCE_STATE.UNORDERED_ACCESS,
              NewState := RESOURCE_STATE.SHADER_RESOURCE, UpdateResourceState := some false },
    tracked := some RESOURCE_STATE.UNKNOWN }

/-! ### Terrain: grid size, thread group size, vertex and index generation -/

/-- Number of values of a 32-bit unsigned machine integer (`Uint32`,
`unsigned int`). -/
def UINT32_RANGE : Nat := 2 ^ 32

/-- Arithmetic of `Terrain::CreateResources` (Terrain.cpp:55):
`((1u << TerrainSize) / m_ComputeGroupSize) * m_ComputeGroupSize`, in 32-bit
unsigned arithmetic. -/
def Terrain.GridSize (TerrainSize m_ComputeGroupSize : Nat) : Nat :=
  (((2 ^ TerrainSize) % UINT32_RANGE / m_ComputeGroupSize) * m_ComputeGroupSize) % UINT32_RANGE

/-- The fields of `TextureDesc` that `Terrain::Update` reads. -/
structure TextureDesc where
  Width : Nat
  Height : Nat
  deriving DecidableEq, Repr

/-- The description of the height map (Terrain.cpp:116-124): `GridSize` texels
in each direction. -/
def Terrain.heightMapDesc (TerrainSize m_ComputeGroupSize : Nat) : TextureDesc :=
  { Width := Terrain.GridSize TerrainSize m_ComputeGroupSize
    Height := Terrain.GridSize TerrainSize m_ComputeGroupSize }

/-- The fields of `DispatchComputeAttribs` set by `Terrain::Update`. -/
structure DispatchComputeAttribs where
  ThreadGroupCountX : Nat
  ThreadGroupCountY : Nat
  deriving DecidableEq, Repr

/-- Arithmetic of `Terrain::Update` (Terrain.cpp:319-321): the thread group
counts, by 32-bit unsigned division. -/
def Terrain.dispatchAttrs (TexDesc : TextureDesc) (m_ComputeGroupSize : Nat) :
    DispatchComputeAttribs :=
  { ThreadGroupCountX := TexDesc.Width / m_ComputeGroupSize
    ThreadGroupCountY := TexDesc.Height / m_ComputeGroupSize }

/-- The two `VERIFY_EXPR` of `Terrain::Update` (Terrain.cpp:323-324); the
products are 32-bit unsigned. -/
def Terrain.updateAssertions (TexDesc : TextureDesc) (m_ComputeGroupSize : Nat) : Bool :=
  decide ((Terrain.dispatchAttrs TexDesc m_ComputeGroupSize).ThreadGroupCountX
      * m_ComputeGroupSize % UINT32_RANGE = TexDesc.Width)
  && decide ((Terrain.dispatchAttrs TexDesc m_ComputeGroupSize).ThreadGroupCountY
      * m_ComputeGroupSize % UINT32_RANGE = TexDesc.Height)

/-- Arithmetic of `Terrain::CreatePSO` (Terrain.cpp:193):
`static_cast<int>(sqrt(static_cast<float>(MaxThreadGroupInvocations)) + 0.5f)`
with the square root and the sum taken exactly, that is the integer nearest to
the square root.  For a real `r >= 0`, `floor (r + 1/2) = (floor (2 r) + 1) / 2`
and `floor (2 sqrt M) = Nat.sqrt (4 M)`. -/
def Terrain.GroupSize (MaxThreadGroupInvocations : Nat) : Int :=
  ((Nat.sqrt (4 * MaxThreadGroupInvocations) + 1) / 2 : Nat)

/-- Arithmetic of `Terrain::CreatePSO` (Terrain.cpp:194):
`m_ComputeGroupSize = GroupSize - m_GroupBorderSize`. -/
def Terrain.ComputeGroupSize (MaxThreadGroupInvocations : Nat) (m_GroupBorderSize : Int) :
    Int :=
  Terrain.GroupSize MaxThreadGroupInvocations - m_GroupBorderSize

/-- The two `VERIFY_EXPR` of `Terrain::CreatePSO` (Terrain.cpp:196-197). -/
def Terrain.createPSOAssertions (MaxThreadGroupInvocations : Nat) (m_GroupBorderSize : Int) :
    Bool :=
  decide (Terrain.GroupSize MaxThreadGroupInvocations > 0)
  && decide (Terrain.ComputeGroupSize MaxThreadGroupInvocations m_GroupBorderSize
      * Terrain.ComputeGroupSize MaxThreadGroupInvocations m_GroupBorderSize
      ≤ MaxThreadGroupInvocations)

/-- Value of the macro `GROUP_SIZE_WITH_BORDER` passed to the compute shader
(Terrain.cpp:200). -/
def Terrain.GROUP_SIZE_WITH_BORDER (MaxThreadGroupInvocations : Nat) : Int :=
  Terrain.GroupSize MaxThreadGroupInvocations

/-- A vector being filled through a running 32-bit index (`pVertices[v++] = x`):
the index and the writes made so far as (position, value), oldest first. -/
structure Fill (α : Type) where
  next : Nat
  writes : List (Nat × α)

/-- One `p[k++] = x`. -/
def Fill.push {α : Type} (f : Fill α) (x : α) : Fill α :=
  { next := (f.next + 1) % UINT32_RANGE, writes := f.writes ++ [(f.next, x)] }

/-- Size given to `Vertices` (Terrain.cpp:58), a 32-bit product. -/
def Terrain.verticesSize (GridSize : Nat) : Nat :=
  GridSize * GridSize % UINT32_RANGE

/-- Size given to `Indices` (Terrain.cpp:59), a 32-bit expression;
`GridSize - 1` wraps around for `GridSize = 0`. -/
def Terrain.indicesSize (GridSize : Nat) : Nat :=
  ((GridSize + UINT32_RANGE - 1) % UINT32_RANGE) * ((GridSize + UINT32_RANGE - 1) % UINT32_RANGE)
    % UINT32_RANGE * 6 % UINT32_RANGE

/-- The vertex loops of `Terrain::CreateResources` (Terrain.cpp:62-70).  The
vertex written for grid position `(x, y)` is `float2{x * GridScale, y * GridScale}`;
the embedding keeps the grid position. -/
def Terrain.fillVertices (GridSize : Nat) : Fill (Nat × Nat) :=
  (List.range GridSize).foldl
    (fun f y => (List.range GridSize).foldl (fun f x => f.push (x, y)) f)
    { next := 0, writes := [] }

/-- The six index writes of one grid cell (Terrain.cpp:79-85), 32-bit
unsigned. -/
def Terrain.pushCell (GridSize : Nat) (f : Fill Nat) (x y : Nat) : Fill Nat :=
  (((((f.push (((x - 1) + y * GridSize) % UINT32_RANGE)).push
    ((x + (y - 1) * GridSize) % UINT32_RANGE)).push
    (((x - 1) + (y - 1) * GridSize) % UINT32_RANGE)).push
    (((x - 1) + y * GridSize) % UINT32_RANGE)).push
    ((x + y * GridSize) % UINT32_RANGE)).push
    ((x + (y - 1) * GridSize) % UINT32_RANGE)

/-- The index loops of `Terrain::CreateResources` (Terrain.cpp:73-87): `y` and
`x` run from 1 to `GridSize - 1`. -/
def Terrain.fillIndices (GridSize : Nat) : Fill Nat :=
  (List.range' 1 (GridSize - 1)).foldl
    (fun f y => (List.range' 1 (GridSize - 1)).foldl
      (fun f x => Terrain.pushCell GridSize f x y) f)
    { next := 0, writes := [] }

/-- The `VERIFY_EXPR` at Terrain.cpp:71 and Terrain.cpp:88. -/
def Terrain.fillAssertions (GridSize : Nat) : Bool :=
  decide ((Terrain.fillVertices GridSize).next = Terrain.verticesSize GridSize)
  && decide ((Terrain.fillIndices GridSize).next = Terrain.indicesSize GridSize)

/-! ### Tutorial11: the strip pattern generator -/

namespace Tutorial11_ResourceUpdates

/-- Memory reachable from the `Uint8* pData` argument: the byte stored at each
offset from the pointer. -/
abbrev Bytes := Nat → Nat

/-- Store `pData[offset] = value`. -/
def store (pData : Bytes) (offset value : Nat) : Bytes :=
  fun a => if a = offset then value else pData a

/-- Index expression `i*4 + c + j*Stride` of `WriteStripPattern`
(Tutorial11_ResourceUpdates.cpp line 366): `i`, `j` and `Stride` are `Uint32`
and `c` is an `int` converted to `Uint32`, so every operation is taken modulo
`2 ^ 32`. -/
def stripOffset (i c j Stride : Nat) : Nat :=
  (((i * 4) % UINT32_RANGE + c) % UINT32_RANGE + (j * Stride) % UINT32_RANGE) % UINT32_RANGE

/-- Value expression `(i * x_scale + j * y_scale + c*c_scale) & 0xFF` of
`WriteStripPattern` (line 366), every operation in `Uint32`. -/
def stripValue (x_scale y_scale c_scale i j c : Nat) : Nat :=
  ((((i * x_scale) % UINT32_RANGE + (j * y_scale) % UINT32_RANGE) % UINT32_RANGE
    + (c * c_scale) % UINT32_RANGE) % UINT32_RANGE) &&& 0xFF

/-- Function `Tutorial11_ResourceUpdates::WriteStripPattern`
(Tutorial11_ResourceUpdates.cpp lines 356-369).  The three scales drawn from
the random generator at the start of the call are parameters; the loops run
`j` over `0 .. Height - 1`, `i` over `0 .. Width - 1` and `c` over `0 .. 3`. -/
def WriteStripPattern (x_scale y_scale c_scale : Nat) (pData : Bytes)
    (Width Height Stride : Nat) : Bytes :=
  (List.range Height).foldl
    (fun m j => (List.range Width).foldl
      (fun m i => (List.range 4).foldl
        (fun m c => store m (stripOffset i c j Stride)
          (stripValue x_scale y_scale c_scale i j c)) m) m)
    pData

end Tutorial11_ResourceUpdates

/-! ### Tutorial03 and Tutorial11: vertex layout and cube geometry -/

/-- Component types of the engine named in the tutorials
(`LayoutElems[..].ValueType = VT_FLOAT32`, `DrawAttrs.IndexType = VT_UINT32`). -/
inductive VALUE_TYPE where
  | VT_FLOAT32
  | VT_UINT32
  deriving DecidableEq, Repr

/-- Size in bytes of one component of the given type: a `float` and a
`Uint32` both take four bytes. -/
def VALUE_TYPE.size : VALUE_TYPE → Nat
  | .VT_FLOAT32 => 4
  | .VT_UINT32 => 4

/-- Input element frequency of the engine: the C tutorial assigns
`INPUT_ELEMENT_FREQUENCY_PER_VERTEX`; the other value of the engine is the
per-instance frequency. -/
inductive INPUT_ELEMENT_FREQUENCY where
  | INPUT_ELEMENT_FREQUENCY_PER_VERTEX
  | INPUT_ELEMENT_FREQUENCY_PER_INSTANCE
  deriving DecidableEq, Repr

/-- The fields of the engine's `LayoutElement` that describe what an
attribute reads (the semantic name, the automatic offset and stride and the
instance step rate are not modelled). -/
structure LayoutElement where
  InputIndex : Nat
  BufferSlot : Nat
  NumComponents : Nat
  ValueType : VALUE_TYPE
  IsNormalized : Bool
  Frequency : INPUT_ELEMENT_FREQUENCY
  deriving DecidableEq, Repr

/-- Size in bytes of the data one layout element reads. -/
def LayoutElement.size (e : LayoutElement) : Nat := e.NumComponents * e.ValueType.size

/-- One member of a `Vertex` structure: its name and the number of `float`
components it holds. -/
structure VertexField where
  name : String
  floats : Nat
  deriving DecidableEq, Repr

/-- Size of a structure whose members are all arrays of `float`: members are
laid out in order without padding, four bytes per `float`. -/
def sizeofFields (fields : List VertexField) : Nat :=
  (fields.map fun f => f.floats * VALUE_TYPE.VT_FLOAT32.size).sum

/-- One entry of a cube vertex table: position and texture coordinates.  The
tables only hold the values -1, 0 and +1, which `float` represents exactly,
so the coordinates are kept as integers. -/
structure Vertex where
  pos : Int × Int × Int
  uv : Int × Int
  deriving DecidableEq, Repr

/-- Coordinate `axis` (0 = x, 1 = y, 2 = z) of a position. -/
def coord (axis : Nat) (p : Int × Int × Int) : Int :=
  match axis with
  | 0 => p.1
  | 1 => p.2.1
  | _ => p.2.2

/-- The six consecutive groups of four entries of a vertex table. -/
def cubeFaceGroups (verts : List Vertex) : List (List Vertex) :=
  (List.range 6).map fun g => (verts.drop (4 * g)).take 4

/-- All vertices of a group lie on the cube face `axis = sign`. -/
def onFace (face : Nat × Int) (group : List Vertex) : Bool :=
  group.all fun v => coord face.1 v.pos == face.2

/-- The eight corners of the cube drawn in the comment above `CubeVerts`. -/
def cubeCorners : List (Int × Int × Int) :=
  [(-1, 1, 1), (1, 1, 1), (-1, -1, 1), (1, -1, 1),
   (-1, 1, -1), (1, 1, -1), (-1, -1, -1), (1, -1, -1)]

namespace Tutorial03_Texturing

/-- Local array `LayoutElems` of `CreatePipelineState`
(Tutorial03_Texturing.c lines 159-180). -/
def LayoutElems : List LayoutElement :=
  [ { InputIndex := 0, BufferSlot := 0, NumComponents := 3, ValueType := .VT_FLOAT32,
      IsNormalized := false, Frequency := .INPUT_ELEMENT_FREQUENCY_PER_VERTEX },
    { InputIndex := 1, BufferSlot := 0, NumComponents := 2, ValueType := .VT_FLOAT32,
      IsNormalized := false, Frequency := .INPUT_ELEMENT_FREQUENCY_PER_VERTEX } ]

/-- Members of the structure `Vertex` of `CreateVertexBuffer`
(lines 243-247): `float pos[3]; float uv[2];`. -/
def VertexFields : List VertexField := [⟨"pos", 3⟩, ⟨"uv", 2⟩]

/-- Table `CubeVerts` of `CreateVertexBuffer` (lines 269-299). -/
def CubeVerts : List Vertex :=
  [ ⟨(-1, -1, -1), (0, 1)⟩, ⟨(-1, 1, -1), (0, 0)⟩, ⟨(1, 1, -1), (1, 0)⟩, ⟨(1, -1, -1), (1, 1)⟩,
    ⟨(-1, -1, -1), (0, 1)⟩, ⟨(-1, -1, 1), (0, 0)⟩, ⟨(1, -1, 1), (1, 0)⟩, ⟨(1, -1, -1), (1, 1)⟩,
    ⟨(1, -1, -1), (0, 1)⟩, ⟨(1, -1, 1), (1, 1)⟩, ⟨(1, 1, 1), (1, 0)⟩, ⟨(1, 1, -1), (0, 0)⟩,
    ⟨(1, 1, -1), (0, 1)⟩, ⟨(1, 1, 1), (0, 0)⟩, ⟨(-1, 1, 1), (1, 0)⟩, ⟨(-1, 1, -1), (1, 1)⟩,
    ⟨(-1, 1, -1), (1, 0)⟩, ⟨(-1, 1, 1), (0, 0)⟩, ⟨(-1, -1, 1), (0, 1)⟩, ⟨(-1, -1, -1), (1, 1)⟩,
    ⟨(-1, -1, 1), (1, 1)⟩, ⟨(1, -1, 1), (0, 1)⟩, ⟨(1, 1, 1), (0, 0)⟩, ⟨(-1, 1, 1), (1, 0)⟩ ]

end Tutorial03_Texturing

namespace Tutorial11_ResourceUpdates

/-- Constructor call `LayoutElement(InputIndex, BufferSlot, NumComponents,
ValueType, IsNormalized)` of the engine: the five arguments are stored and the
frequency keeps the default of the constructor, which is declared in the
engine headers and is a parameter here. -/
def LayoutElement5 (defaultFrequency : INPUT_ELEMENT_FREQUENCY)
    (InputIndex BufferSlot NumComponents : Nat) (ValueType : VALUE_TYPE)
    (IsNormalized : Bool) : LayoutElement :=
  { InputIndex := InputIndex, BufferSlot := BufferSlot, NumComponents := NumComponents,
    ValueType := ValueType, IsNormalized := IsNormalized, Frequency := defaultFrequency }

/-- Local array `LayoutElems` of `Initialize`
(Tutorial11_ResourceUpdates.cpp lines 188-194). -/
def LayoutElems (defaultFrequency : INPUT_ELEMENT_FREQUENCY) : List LayoutElement :=
  [ LayoutElement5 defaultFrequency 0 0 3 .VT_FLOAT32 false,
    LayoutElement5 defaultFrequency 1 0 2 .VT_FLOAT32 false ]

/-- Members of the structure `Vertex` (lines 41-45): `float3 pos; float2 uv;`,
three and two `float` components. -/
def VertexFields : List VertexField := [⟨"pos", 3⟩, ⟨"uv", 2⟩]

/-- Table `CubeVerts` (lines 66-97). -/
def CubeVerts : List Vertex :=
  [ ⟨(-1, -1, -1), (0, 1)⟩, ⟨(-1, 1, -1), (0, 0)⟩, ⟨(1, 1, -1), (1, 0)⟩, ⟨(1, -1, -1), (1, 1)⟩,
    ⟨(-1, -1, -1), (0, 1)⟩, ⟨(-1, -1, 1), (0, 0)⟩, ⟨(1, -1, 1), (1, 0)⟩, ⟨(1, -1, -1), (1, 1)⟩,
    ⟨(1, -1, -1), (0, 1)⟩, ⟨(1, -1, 1), (1, 1)⟩, ⟨(1, 1, 1), (1, 0)⟩, ⟨(1, 1, -1), (0, 0)⟩,
    ⟨(1, 1, -1), (0, 1)⟩, ⟨(1, 1, 1), (0, 0)⟩, ⟨(-1, 1, 1), (1, 0)⟩, ⟨(-1, 1, -1), (1, 1)⟩,
    ⟨(-1, 1, -1), (1, 0)⟩, ⟨(-1, 1, 1), (0, 0)⟩, ⟨(-1, -1, 1), (0, 1)⟩, ⟨(-1, -1, -1), (1, 1)⟩,
    ⟨(-1, -1, 1), (1, 1)⟩, ⟨(1, -1, 1), (0, 1)⟩, ⟨(1, 1, 1), (0, 0)⟩, ⟨(-1, 1, 1), (1, 0)⟩ ]

end Tutorial11_ResourceUpdates

/-! ### Tutorial03: the world-view-projection matrix -/

namespace Tutorial03_Texturing

/-- One byte of memory, a number below 256. -/
abbrev Byte := Nat

/-- Bit pattern of a 32-bit `float`, a number below `2 ^ 32`. -/
abbrev FloatBits := Nat

/-- The four bytes of the object representation of a `float`, least
significant byte first. -/
def floatBytes (f : FloatBits) : List Byte :=
  [f % 256, f / 256 % 256, f / 65536 % 256, f / 16777216 % 256]

/-- The bytes of an array of `float`. -/
def floatsBytes (fs : List FloatBits) : List Byte := fs.flatMap floatBytes

/-- Read `n` consecutive `float` values from memory. -/
def readFloats : Nat → List Byte → List FloatBits
  | n + 1, b0 :: b1 :: b2 :: b3 :: rest =>
      (b0 + 256 * b1 + 65536 * b2 + 16777216 * b3) :: readFloats n rest
  | _, _ => []

/-- Library function `memcpy(dst, src, n)`: the first `n` bytes of the memory
at `dst` become the first `n` bytes of the memory at `src`; the bytes behind
them keep their content. -/
def memcpy (dst src : List Byte) (n : Nat) : List Byte := src.take n ++ dst.drop n

/-- Value of `sizeof(g_WorldViewProj)` for `float g_WorldViewProj[16]`
(Tutorial03_Texturing.c line 46). -/
def sizeof_g_WorldViewProj : Nat := 16 * 4

/-- The memory the matrix travels through: the global array
`g_WorldViewProj` and the content of the uniform buffer `g_pVSConstants`. -/
structure MatrixState where
  g_WorldViewProj : List Byte
  VSConstants : List Byte

/-- Function `Update` (lines 452-455): copy `sizeof(g_WorldViewProj)` bytes
from the memory at `pWorldViewProjData` into the global array. -/
def Update (s : MatrixState) (pWorldViewProjData : List Byte) : MatrixState :=
  { s with g_WorldViewProj := memcpy s.g_WorldViewProj pWorldViewProjData sizeof_g_WorldViewProj }

/-- The constant-buffer block of `Render` (lines 421-427): `MapBuffer` with
`MAP_WRITE` and `MAP_FLAG_DISCARD` hands out memory `pCBData` of unspecified
content, `memcpy` copies the global array into it, and `UnmapBuffer` makes it
the content of `g_pVSConstants`.  The other commands of `Render` neither read
nor write the matrix. -/
def Render (s : MatrixState) (pCBData : List Byte) : MatrixState :=
  { s with VSConstants := memcpy pCBData s.g_WorldViewProj sizeof_g_WorldViewProj }

end Tutorial03_Texturing

/-! ### Tutorial01: pipeline description and recorded commands -/

namespace Tutorial01_HelloTriangle

/-- Texture formats: `TEX_FORMAT_UNKNOWN` and any other format of the engine,
identified by its number. -/
inductive TEXTURE_FORMAT where
  | TEX_FORMAT_UNKNOWN
  | other (id : Nat)
  deriving DecidableEq, Repr

/-- Values of the engine named by the constructor. -/
inductive PRIMITIVE_TOPOLOGY_TYPE where
  | PRIMITIVE_TOPOLOGY_TYPE_TRIANGLE
  deriving DecidableEq, Repr

/-- Values of the engine named by the constructor. -/
inductive CULL_MODE where
  | CULL_MODE_NONE
  deriving DecidableEq, Repr

/-- The fields of `PipelineStateDesc` the constructor assigns
(Tutorial01_HelloTriangle.cpp lines 81-101, 124-125). -/
structure PipelineStateDesc where
  IsComputePipeline : Bool
  NumRenderTargets : Nat
  RTVFormat0 : TEXTURE_FORMAT
  DSVFormat : TEXTURE_FORMAT
  PrimitiveTopologyType : PRIMITIVE_TOPOLOGY_TYPE
  CullMode : CULL_MODE
  DepthEnable : Bool
  deriving DecidableEq, Repr

/-- The pipeline description built by the constructor; the colour format of
the swap chain is a parameter. -/
def PSODesc (ColorBufferFormat : TEXTURE_FORMAT) : PipelineStateDesc :=
  { IsComputePipeline := false
    NumRenderTargets := 1
    RTVFormat0 := ColorBufferFormat
    DSVFormat := .TEX_FORMAT_UNKNOWN
    PrimitiveTopologyType := .PRIMITIVE_TOPOLOGY_TYPE_TRIANGLE
    CullMode := .CULL_MODE_NONE
    DepthEnable := false }

/-- Flags named by `Render`. -/
inductive CLEAR_DEPTH_STENCIL_FLAGS where
  | CLEAR_DEPTH_FLAG
  deriving DecidableEq, Repr

/-- Commands `Render` records on the device context.  A view argument of
`none` is the `nullptr` the sample passes, which selects the default view of
the swap chain; the clear colour is kept in thousandths. -/
inductive Command where
  | ClearRenderTarget (pView : Option Handle) (rgba : List Nat)
  | ClearDepthStencil (pView : Option Handle) (flags : CLEAR_DEPTH_STENCIL_FLAGS) (fDepth : Nat)
  | SetPipelineState (pso : PipelineStateDesc)
  | CommitShaderResources (pSRB : Option Handle)
  | Draw (NumVertices : Nat)
  deriving DecidableEq, Repr

/-- Function `Tutorial01_HelloTriangle::Render` (lines 131-144); `m_pPSO` is
the pipeline created by the constructor. -/
def Render (m_pPSO : PipelineStateDesc) : List Command :=
  [ .ClearRenderTarget none [350, 350, 350, 1000],
    .ClearDepthStencil none .CLEAR_DEPTH_FLAG 1,
    .SetPipelineState m_pPSO,
    .CommitShaderResources none,
    .Draw 3 ]

/-- Whether a command reads, writes or clears a depth-stencil buffer while
the pipeline `pso` is bound: `ClearDepthStencil` clears one, a draw tests and
writes depth exactly when the pipeline enables depth testing and has a
depth-stencil format, and the other commands do not touch it. -/
def Command.touchesDepth (pso : PipelineStateDesc) : Command → Bool
  | .ClearDepthStencil _ _ _ => true
  | .Draw _ => pso.DepthEnable && decide (pso.DSVFormat ≠ .TEX_FORMAT_UNKNOWN)
  | _ => false

end Tutorial01_HelloTriangle

/-! ### Tutorial11: usage classes and update strategies -/

namespace Tutorial11_ResourceUpdates

/-- Usage classes named in `Initialize`. -/
inductive USAGE where
  | USAGE_STATIC
  | USAGE_DEFAULT
  | USAGE_DYNAMIC
  deriving DecidableEq, Repr

/-- CPU access flags named in `Initialize`. -/
inductive CPU_ACCESS_FLAGS where
  | CPU_ACCESS_WRITE
  deriving DecidableEq, Repr

/-- Device types `Update` compares against; `other` stands for every
remaining device type of the engine. -/
inductive DeviceType where
  | D3D11
  | D3D12
  | Vulkan
  | other
  deriving DecidableEq, Repr

/-- The buffers and textures the sample owns. -/
inductive Resource where
  | CubeVertexBuffer (i : Nat)
  | CubeIndexBuffer
  | Texture (i : Nat)
  | TextureUpdateBuffer
  deriving DecidableEq, Repr

/-- What `Initialize` passes when it creates a resource: the usage, the CPU
access flags (`none` when the field is left at its default) and whether
initial data is supplied. -/
structure Creation where
  resource : Resource
  Usage : USAGE
  CPUAccessFlags : Option CPU_ACCESS_FLAGS
  hasInitialData : Bool
  deriving DecidableEq, Repr

/-- Body of the vertex buffer loop of `Initialize`
(Tutorial11_ResourceUpdates.cpp lines 206-230) for index `i`. -/
def createVertexBuffer (i : Nat) : Creation :=
  { resource := .CubeVertexBuffer i
    Usage := if i = 0 then .USAGE_STATIC else if i = 1 then .USAGE_DEFAULT else .USAGE_DYNAMIC
    CPUAccessFlags := if i = 0 then none else if i = 1 then none else some .CPU_ACCESS_WRITE
    hasInitialData := decide (i < 2) }

/-- Creation of the index buffer (lines 232-253). -/
def createIndexBuffer : Creation :=
  { resource := .CubeIndexBuffer, Usage := .USAGE_STATIC, CPUAccessFlags := none,
    hasInitialData := true }

/-- Body of the texture loop of `Initialize` (lines 255-288) for index `i`:
the load info handed to `CreateTextureFromFile`; the file supplies the
initial data. -/
def createTexture (i : Nat) : Creation :=
  { resource := .Texture i
    Usage := if i = 2 then .USAGE_DEFAULT else if i = 3 then .USAGE_DYNAMIC else .USAGE_STATIC
    CPUAccessFlags := if i = 2 then none else if i = 3 then some .CPU_ACCESS_WRITE else none
    hasInitialData := true }

/-- Creation of `m_TextureUpdateBuffer` (lines 290-298). -/
def createTextureUpdateBuffer : Creation :=
  { resource := .TextureUpdateBuffer, Usage := .USAGE_DYNAMIC,
    CPUAccessFlags := some .CPU_ACCESS_WRITE, hasInitialData := false }

/-- The resources created by `Initialize`, in order.  The array sizes
`_countof(m_CubeVertexBuffer)` and `m_Textures.size()` are declared in the
header of the class and are parameters. -/
def Initialize (numVertexBuffers numTextures : Nat) : List Creation :=
  (List.range numVertexBuffers).map createVertexBuffer
    ++ [createIndexBuffer]
    ++ (List.range numTextures).map createTexture
    ++ [createTextureUpdateBuffer]

/-- Operations that change the content of a resource. -/
inductive UpdateOp where
  | UpdateData (r : Resource)
  | Map (r : Resource)
  | Unmap (r : Resource)
  deriving DecidableEq, Repr

/-- Resource an operation targets. -/
def UpdateOp.target : UpdateOp → Resource
  | .UpdateData r => r
  | .Map r => r
  | .Unmap r => r

/-- Whether the operation suits a resource created as `c`: `UpdateData`
needs `USAGE_DEFAULT`, mapping for writing needs `USAGE_DYNAMIC` with
`CPU_ACCESS_WRITE`. -/
def UpdateOp.suits (c : Creation) : UpdateOp → Bool
  | .UpdateData _ => decide (c.Usage = .USAGE_DEFAULT)
  | .Map _ => decide (c.Usage = .USAGE_DYNAMIC ∧ c.CPUAccessFlags = some .CPU_ACCESS_WRITE)
  | .Unmap _ => decide (c.Usage = .USAGE_DYNAMIC ∧ c.CPUAccessFlags = some .CPU_ACCESS_WRITE)

/-- Function `UpdateBuffer` (lines 441-459): one `UpdateData` on the vertex
buffer `BufferIndex`. -/
def UpdateBuffer (BufferIndex : Nat) : List UpdateOp :=
  [.UpdateData (.CubeVertexBuffer BufferIndex)]

/-- Function `MapDynamicBuffer` (lines 461-471): the `MapHelper` maps the
vertex buffer `BufferIndex` with `MAP_WRITE`, `MAP_FLAG_DISCARD` and unmaps
it when it goes out of scope. -/
def MapDynamicBuffer (BufferIndex : Nat) : List UpdateOp :=
  [.Map (.CubeVertexBuffer BufferIndex), .Unmap (.CubeVertexBuffer BufferIndex)]

/-- Function `UpdateTexture` (lines 386-412): `NumUpdates = 3` calls of
`UpdateData` on the texture `TexIndex`. -/
def UpdateTexture (TexIndex : Nat) : List UpdateOp :=
  (List.range 3).map fun _ => .UpdateData (.Texture TexIndex)

/-- Function `MapTexture` (lines 414-439): map and unmap of the texture
`TexIndex`; the flag only selects the mapped region. -/
def MapTexture (TexIndex : Nat) (_MapEntireTexture : Bool) : List UpdateOp :=
  [.Map (.Texture TexIndex), .Unmap (.Texture TexIndex)]

/-- Function `Update` (lines 474-506).  The three comparisons of the current
time against the time of the last update are made in `double`; their outcomes
are the parameters `bufferDue`, `textureDue` and `mapDue`. -/
def Update (bufferDue textureDue mapDue : Bool) (deviceType : DeviceType) : List UpdateOp :=
  (if bufferDue then UpdateBuffer 1 else [])
    ++ MapDynamicBuffer 2
    ++ (if textureDue then UpdateTexture 2 else [])
    ++ (if mapDue then
          (if deviceType = .D3D11 ∨ deviceType = .D3D12 ∨ deviceType = .Vulkan then
            MapTexture 3 (decide (deviceType = .D3D11))
          else [])
        else [])

end Tutorial11_ResourceUpdates

/-! ### Tutorial03: manual reference counting -/

namespace Tutorial03_Texturing

/-- Reference-count operations the tutorial performs on an object.  A pointer
is `none` when it is `NULL`.  `Create` is a creation call of the engine that
succeeds: it stores a new object, holding one reference for the caller, in
the out-parameter. -/
inductive RefEvent where
  | AddRef (p : Option Handle)
  | Create (h : Handle)
  | Release (p : Option Handle)
  deriving DecidableEq, Repr

/-- The seven global pointers (Tutorial03_Texturing.c lines 38-44), the next
object the engine will create, and the reference-count operations so far. -/
structure App where
  g_pDevice : Option Handle
  g_pSwapChain : Option Handle
  g_pVSConstants : Option Handle
  g_pPSO : Option Handle
  g_pSRB : Option Handle
  g_pCubeVertexBuffer : Option Handle
  g_pCubeIndexBuffer : Option Handle
  next : Handle
  log : List RefEvent

/-- The seven globals, in the order in which `CreateResources` and the
functions it calls assign them. -/
def App.globals (a : App) : List (Option Handle) :=
  [a.g_pDevice, a.g_pSwapChain, a.g_pVSConstants, a.g_pPSO, a.g_pSRB,
    a.g_pCubeVertexBuffer, a.g_pCubeIndexBuffer]

/-- The state at program start: all seven globals are `NULL`. -/
def App.start (next : Handle) : App :=
  { g_pDevice := none, g_pSwapChain := none, g_pVSConstants := none, g_pPSO := none,
    g_pSRB := none, g_pCubeVertexBuffer := none, g_pCubeIndexBuffer := none,
    next := next, log := [] }

/-- A creation call of the engine that succeeds: the new object and the state
after the call. -/
def App.create (a : App) : Handle × App :=
  (a.next, { a with next := a.next + 1, log := a.log ++ [.Create a.next] })

/-- Call `IObject_AddRef(p)`. -/
def IObject_AddRef (a : App) (p : Option Handle) : App :=
  { a with log := a.log ++ [.AddRef p] }

/-- Call `IObject_Release(p)`. -/
def IObject_Release (a : App) (p : Option Handle) : App :=
  { a with log := a.log ++ [.Release p] }

/-- Function `CreatePipelineState` (lines 48-237): the creation calls, the
assignments to globals and the releases of the locals. -/
def CreatePipelineState (a : App) : App :=
  let (pShaderSourceFactory, a) := a.create
  let (pVS, a) := a.create
  let (vsConstants, a) := a.create
  let a := { a with g_pVSConstants := some vsConstants }
  let (pPS, a) := a.create
  let (pso, a) := a.create
  let a := { a with g_pPSO := some pso }
  let (srb, a) := a.create
  let a := { a with g_pSRB := some srb }
  let a := IObject_Release a (some pPS)
  let a := IObject_Release a (some pVS)
  IObject_Release a (some pShaderSourceFactory)

/-- Function `CreateVertexBuffer` (lines 240-318). -/
def CreateVertexBuffer (a : App) : App :=
  let (vb, a) := a.create
  { a with g_pCubeVertexBuffer := some vb }

/-- Function `CreateIndexBuffer` (lines 320-349). -/
def CreateIndexBuffer (a : App) : App :=
  let (ib, a) := a.create
  { a with g_pCubeIndexBuffer := some ib }

/-- Function `LoadTexture` (lines 351-369): the texture is created, its view
is set in the resource binding, and the local reference is released. -/
def LoadTexture (a : App) : App :=
  let (pTex, a) := a.create
  IObject_Release a (some pTex)

/-- Function `CreateResources` (lines 371-383). -/
def CreateResources (a : App) (pDevice pSwapChain : Option Handle) : App :=
  let a := { a with g_pDevice := pDevice }
  let a := IObject_AddRef a a.g_pDevice
  let a := { a with g_pSwapChain := pSwapChain }
  let a := IObject_AddRef a a.g_pSwapChain
  let a := CreatePipelineState a
  let a := CreateVertexBuffer a
  let a := CreateIndexBuffer a
  LoadTexture a

/-- One guarded release of `ReleaseResources`: `if (p) IObject_Release(p);`. -/
def releaseIfSet (a : App) (p : Option Handle) : App :=
  if p.isSome then IObject_Release a p else a

/-- Function `ReleaseResources` (lines 385-407). -/
def ReleaseResources (a : App) : App :=
  let a := releaseIfSet a a.g_pCubeIndexBuffer
  let a := releaseIfSet a a.g_pCubeVertexBuffer
  let a := releaseIfSet a a.g_pSRB
  let a := releaseIfSet a a.g_pPSO
  let a := releaseIfSet a a.g_pVSConstants
  let a := releaseIfSet a a.g_pSwapChain
  releaseIfSet a a.g_pDevice

/-- The references acquired in a log, in order: one per `AddRef` of an object
and one per creation. -/
def acquired (log : List RefEvent) : List Handle :=
  log.filterMap fun
    | .AddRef p => p
    | .Create h => some h
    | .Release _ => none

/-- The pointers released in a log, in order. -/
def released (log : List RefEvent) : List (Option Handle) :=
  log.filterMap fun
    | .Release p => some p
    | _ => none

end Tutorial03_Texturing

/-! ### Terrain: the indices of one cell and the index count drawn -/

/-- The six indices the body of the index loops of `Terrain::CreateResources`
(Terrain.cpp lines 79-85) emits for the cell `(x, y)`, in order: the values
written by `Terrain.pushCell`. -/
def Terrain.cellIndices (GridSize x y : Nat) : List Nat :=
  ((Terrain.pushCell GridSize { next := 0, writes := [] } x y).writes).map Prod.snd

/-- Grid position `(x, y)` of the vertex stored at position `k` of the vertex
vector: the vertex loops (lines 64-70) store row after row, `GridSize`
vertices per row. -/
def Terrain.gridPos (GridSize k : Nat) : Nat × Nat := (k % GridSize, k / GridSize)

/-- Twice the signed area of the triangle `p0 p1 p2` of grid positions: the
2D cross product `(p1 - p0) x (p2 - p0)`. -/
def cross2 (p0 p1 p2 : Nat × Nat) : Int :=
  ((p1.1 : Int) - p0.1) * ((p2.2 : Int) - p0.2) - ((p1.2 : Int) - p0.2) * ((p2.1 : Int) - p0.1)

/-- Value of `sizeof(IndexType)` for `using IndexType = Uint32` (line 39). -/
def Terrain.sizeofIndexType : Nat := 4

/-- Field `uiSizeInBytes` of the index buffer (Terrain.cpp line 102):
`static_cast<Uint32>(Indices.size() * sizeof(Indices[0]))`, the product taken
in `size_t` and truncated to 32 bits. -/
def Terrain.indexBufferSizeInBytes (GridSize : Nat) : Nat :=
  (Terrain.indicesSize GridSize * Terrain.sizeofIndexType) % UINT32_RANGE

/-- Field `NumIndices` set by `Terrain::Draw` (line 359):
`m_IB->GetDesc().uiSizeInBytes / sizeof(IndexType)`. -/
def Terrain.drawNumIndices (uiSizeInBytes : Nat) : Nat :=
  uiSizeInBytes / Terrain.sizeofIndexType

/-! ### Tutorial11: the diamond pattern generator and the stores of both generators -/

namespace Tutorial11_ResourceUpdates

/-- Conversion `static_cast<int>(u)` of a `Uint32` value: values from `2 ^ 31`
on become negative. -/
def toInt (u : Nat) : Int := if u < 2 ^ 31 then (u : Int) else (u : Int) - 2 ^ 32

/-- Conversion of an `int` to `Uint32`, as done when an `int` meets a `Uint32`
in an arithmetic expression. -/
def toUint32 (x : Int) : Nat := (x % 2 ^ 32).toNat

/-- Library function `abs` on `int`. -/
def absInt (x : Int) : Int := if x < 0 then -x else x

/-- Value expression of `WriteDiamondPattern`
(Tutorial11_ResourceUpdates.cpp line 381):
`(abs(int(i) - int(Width/2)) * x_scale + abs(int(j) - int(Height/2)) * y_scale
+ c*c_scale) & 0xFF`; the subtractions are made in `int`, the products and
sums in `Uint32`. -/
def diamondValue (x_scale y_scale c_scale Width Height i j c : Nat) : Nat :=
  ((((toUint32 (absInt (toInt i - toInt (Width / 2))) * x_scale) % UINT32_RANGE
      + (toUint32 (absInt (toInt j - toInt (Height / 2))) * y_scale) % UINT32_RANGE)
        % UINT32_RANGE
    + (c * c_scale) % UINT32_RANGE) % UINT32_RANGE) &&& 0xFF

/-- Function `Tutorial11_ResourceUpdates::WriteDiamondPattern`
(Tutorial11_ResourceUpdates.cpp lines 371-384), with the three scales drawn
at the start of the call as parameters; the index expression is the one of
`WriteStripPattern`. -/
def WriteDiamondPattern (x_scale y_scale c_scale : Nat) (pData : Bytes)
    (Width Height Stride : Nat) : Bytes :=
  (List.range Height).foldl
    (fun m j => (List.range Width).foldl
      (fun m i => (List.range 4).foldl
        (fun m c => store m (stripOffset i c j Stride)
          (diamondValue x_scale y_scale c_scale Width Height i j c)) m) m)
    pData

/-- The stores `pData[offset] = value` performed by the three nested loops of
a pattern generator, in order, for the value expression `val i j c`. -/
def patternStores (val : Nat → Nat → Nat → Nat) (Width Height Stride : Nat) :
    List (Nat × Nat) :=
  (List.range Height).flatMap fun j => (List.range Width).flatMap fun i =>
    (List.range 4).map fun c => (stripOffset i c j Stride, val i j c)

/-- The stores performed by `WriteStripPattern`, in order. -/
def stripStores (x_scale y_scale c_scale Width Height Stride : Nat) : List (Nat × Nat) :=
  patternStores (fun i j c => stripValue x_scale y_scale c_scale i j c) Width Height Stride

/-- The stores performed by `WriteDiamondPattern`, in order. -/
def diamondStores (x_scale y_scale c_scale Width Height Stride : Nat) : List (Nat × Nat) :=
  patternStores (fun i j c => diamondValue x_scale y_scale c_scale Width Height i j c)
    Width Height Stride

end Tutorial11_ResourceUpdates

/-! ### Tutorial11: texture update regions, vertex buffer updates, cube indices -/

namespace Tutorial11_ResourceUpdates

/-- The fields of the engine's `Box` that `UpdateTexture` assigns. -/
structure Box where
  MinX : Nat
  MaxX : Nat
  MinY : Nat
  MaxY : Nat
  deriving DecidableEq, Repr

/-- The numbers one iteration of the loop of `UpdateTexture` draws from the
random generator, in the order of the source, the three scales being drawn
inside `WriteStripPattern`. -/
structure UpdateDraw where
  Width : Nat
  Height : Nat
  x_scale : Nat
  y_scale : Nat
  c_scale : Nat
  MinX : Nat
  MinY : Nat
  deriving DecidableEq, Repr

/-- The ranges `std::uniform_int_distribution<Uint32>{a, b}` guarantees for
the numbers drawn by one iteration (Tutorial11_ResourceUpdates.cpp lines
393-394 and 400-401), the upper bounds of the box origin being computed in
`Uint32`. -/
def UpdateDraw.inRange (MaxUpdateRegionSize TexWidth TexHeight : Nat) (d : UpdateDraw) : Prop :=
  (2 ≤ d.Width ∧ d.Width ≤ MaxUpdateRegionSize)
    ∧ (2 ≤ d.Height ∧ d.Height ≤ MaxUpdateRegionSize)
    ∧ d.MinX ≤ (TexWidth + UINT32_RANGE - d.Width) % UINT32_RANGE
    ∧ d.MinY ≤ (TexHeight + UINT32_RANGE - d.Height) % UINT32_RANGE

instance (MaxUpdateRegionSize TexWidth TexHeight : Nat) (d : UpdateDraw) :
    Decidable (d.inRange MaxUpdateRegionSize TexWidth TexHeight) := by
  unfold UpdateDraw.inRange
  infer_instance

/-- What one iteration of the loop of `UpdateTexture` hands to
`Texture.UpdateData`: the box, the stride, and the vector `Data`, given by its
size and the stores `WriteStripPattern` performs on it. -/
structure TextureUpdate where
  UpdateBox : Box
  Stride : Nat
  DataSize : Nat
  stores : List (Nat × Nat)
  deriving DecidableEq, Repr

/-- Body of the loop of `UpdateTexture` (lines 392-410) for the numbers `d`
drawn in this iteration; all arithmetic is in `Uint32`. -/
def updateTextureOnce (d : UpdateDraw) : TextureUpdate :=
  { DataSize := ((d.Width * d.Height) % UINT32_RANGE * 4) % UINT32_RANGE
    stores := stripStores d.x_scale d.y_scale d.c_scale d.Width d.Height
      ((d.Width * 4) % UINT32_RANGE)
    UpdateBox :=
      { MinX := d.MinX
        MinY := d.MinY
        MaxX := (d.MinX + d.Width) % UINT32_RANGE
        MaxY := (d.MinY + d.Height) % UINT32_RANGE }
    Stride := (d.Width * 4) % UINT32_RANGE }

/-- Constant `NumUpdates` of `UpdateTexture` (line 389). -/
def NumUpdates : Nat := 3

/-- Function `UpdateTexture` (lines 386-412) in detail: the `NumUpdates`
updates it issues, `draws update` being the numbers drawn in iteration
`update`. -/
def UpdateTextureRegions (draws : Nat → UpdateDraw) : List TextureUpdate :=
  (List.range NumUpdates).map fun update => updateTextureOnce (draws update)

end Tutorial11_ResourceUpdates

namespace Tutorial11_ResourceUpdates

/-- A vertex as written to a vertex buffer at run time: the coordinates are
`float` values, kept as rational numbers. -/
structure FloatVertex where
  pos : ℚ × ℚ × ℚ
  uv : ℚ × ℚ
  deriving DecidableEq

/-- Value of `sizeof(Vertex)`: five `float` members of four bytes. -/
def sizeofVertex : Nat := sizeofFields VertexFields

/-- Value of `_countof(CubeVerts)`. -/
def countofCubeVerts : Nat := CubeVerts.length

/-- Value of `sizeof(CubeVerts)`, the size in bytes of every cube vertex
buffer (Tutorial11_ResourceUpdates.cpp line 224). -/
def sizeofCubeVerts : Nat := countofCubeVerts * sizeofVertex

/-- The two assignments of the loop body of `UpdateBuffer` (lines 449-450):
the texture coordinates are copied and the position is multiplied by the
`float` factor `s`. -/
def scaledVertex (s : ℚ) (SrcVert : Vertex) : FloatVertex :=
  { uv := ((SrcVert.uv.1 : ℚ), (SrcVert.uv.2 : ℚ))
    pos := ((SrcVert.pos.1 : ℚ) * s, (SrcVert.pos.2.1 : ℚ) * s, (SrcVert.pos.2.2 : ℚ) * s) }

/-- The arguments of the call `UpdateData(context, Offset, Size, Vertices)`:
start offset and size in bytes, and the local array `Vertices`, whose entries
are `none` until they are assigned. -/
structure UpdateDataCall where
  Offset : Nat
  Size : Nat
  Vertices : Nat → Option FloatVertex

/-- Function `UpdateBuffer` (lines 441-459) in detail, for the numbers
`NumVertsToUpdate` and `FirstVertToUpdate` drawn at its start; `scale SrcInd`
is the `float` factor `1 + 0.2 * sin(m_CurrTime * (1.0 + SrcInd * 0.2))`.  The
result is `none` when an array is indexed out of its bounds. -/
def UpdateBufferData (scale : Nat → ℚ) (NumVertsToUpdate FirstVertToUpdate : Nat) :
    Option UpdateDataCall :=
  ((List.range NumVertsToUpdate).foldl
      (fun (acc : Option (Nat → Option FloatVertex)) v =>
        acc.bind fun Vertices =>
          let SrcInd := (FirstVertToUpdate + v) % UINT32_RANGE
          match CubeVerts[SrcInd]? with
          | none => none
          | some SrcVert =>
            if v < countofCubeVerts then
              some (Function.update Vertices v (some (scaledVertex (scale SrcInd) SrcVert)))
            else none)
      (some fun _ => none)).map fun Vertices =>
    { Offset := (FirstVertToUpdate * sizeofVertex) % UINT32_RANGE
      Size := (NumVertsToUpdate * sizeofVertex) % UINT32_RANGE
      Vertices := Vertices }

/-- Table `Indices` of `Initialize` (lines 234-242). -/
def Indices : List Nat :=
  [2, 0, 1, 2, 3, 0,
   4, 6, 5, 4, 7, 6,
   8, 10, 9, 8, 11, 10,
   12, 14, 13, 12, 15, 14,
   16, 18, 17, 16, 19, 18,
   20, 21, 22, 20, 22, 23]

/-- Field `NumIndices` set by `DrawCube` (line 323). -/
def NumIndices : Nat := 36

end Tutorial11_ResourceUpdates

namespace Tutorial03_Texturing

/-- Table `Indices` of `CreateIndexBuffer` (Tutorial03_Texturing.c lines
324-332). -/
def Indices : List Nat :=
  [2, 0, 1, 2, 3, 0,
   4, 6, 5, 4, 7, 6,
   8, 10, 9, 8, 11, 10,
   12, 14, 13, 12, 15, 14,
   16, 18, 17, 16, 19, 18,
   20, 21, 22, 20, 22, 23]

/-- Field `NumIndices` set by `Render` (line 444). -/
def NumIndices : Nat := 36

end Tutorial03_Texturing

/-- The six faces of the cube in the order of the groups of the vertex
table, each given by its axis (0 = x, 1 = y, 2 = z) and the sign of the
constant coordinate. -/
def cubeFaces : List (Nat × Int) := [(2, -1), (1, -1), (0, 1), (1, 1), (0, -1), (2, 1)]

/-- Outward unit normal of a face. -/
def faceNormal (face : Nat × Int) : Int × Int × Int :=
  match face.1 with
  | 0 => (face.2, 0, 0)
  | 1 => (0, face.2, 0)
  | _ => (0, 0, face.2)

/-- Cross product `(b - a) x (c - a)` of three positions. -/
def cross3 (a b c : Int × Int × Int) : Int × Int × Int :=
  ((b.2.1 - a.2.1) * (c.2.2 - a.2.2) - (b.2.2 - a.2.2) * (c.2.1 - a.2.1),
   (b.2.2 - a.2.2) * (c.1 - a.1) - (b.1 - a.1) * (c.2.2 - a.2.2),
   (b.1 - a.1) * (c.2.1 - a.2.1) - (b.2.1 - a.2.1) * (c.1 - a.1))

/-- Position of the vertex an index selects; an index outside the table
selects the origin. -/
def vertexPos (verts : List Vertex) (i : Nat) : Int × Int × Int :=
  match verts[i]? with
  | some v => v.pos
  | none => (0, 0, 0)

/-- The six indices of face `k`: positions `6 k .. 6 k + 5` of the index
table. -/
def faceIndices (indices : List Nat) (k : Nat) : List Nat := (indices.drop (6 * k)).take 6

/-- Cross product of the triangle formed by three consecutive indices. -/
def triangleCross (verts : List Vertex) (tri : List Nat) : Int × Int × Int :=
  match tri with
  | [a, b, c] => cross3 (vertexPos verts a) (vertexPos verts b) (vertexPos verts c)
  | _ => (0, 0, 0)

/-! ## Theorems -/

theorem Engine.since_append (e0 e1 : Engine) (evs : List Event)
    (h : e1.log = e0.log ++ evs) : e0.since e1 = evs := by
  simp [Engine.since, h]

/-- C1: in every state in which `m_HeightMap` and `m_NormalMap` are two
textures with tracked state `UNKNOWN`, `Terrain::BeforeDraw` issues one
`TransitionResourceStates` call with exactly one barrier for the height map
and exactly one for the normal map, each `UNORDERED_ACCESS -> SHADER_RESOURCE`
with update flag `false`, and both tracked states are still `UNKNOWN`
afterwards. -/
theorem C1_BeforeDraw_barriers (t : Terrain) (e : Engine) (hm nm : Handle)
    (hHM : t.m_HeightMap = some hm) (hNM : t.m_NormalMap = some nm) (hne : hm ≠ nm)
    (hH : e.state hm = RESOURCE_STATE.UNKNOWN) (hN : e.state nm = RESOURCE_STATE.UNKNOWN) :
    e.since (t.BeforeDraw e).2 =
        [Event.TransitionResourceStates
          [ { desc := { pResource := some hm, OldState := RESOURCE_STATE.UNORDERED_ACCESS,
                        NewState := RESOURCE_STATE.SHADER_RESOURCE,
                        UpdateResourceState := some false },
              tracked := some RESOURCE_STATE.UNKNOWN },
            { desc := { pResource := some nm, OldState := RESOURCE_STATE.UNORDERED_ACCESS,
                        NewState := RESOURCE_STATE.SHADER_RESOURCE,
                        UpdateResourceState := some false },
              tracked := some RESOURCE_STATE.UNKNOWN } ]]
      ∧ (barriersOn hm (e.since (t.BeforeDraw e).2)).map BarrierRecord.desc =
          [ { pResource := some hm, OldState := RESOURCE_STATE.UNORDERED_ACCESS,
              NewState := RESOURCE_STATE.SHADER_RESOURCE, UpdateResourceState := some false } ]
      ∧ (barriersOn nm (e.since (t.BeforeDraw e).2)).map BarrierRecord.desc =
          [ { pResource := some nm, OldState := RESOURCE_STATE.UNORDERED_ACCESS,
              NewState := RESOURCE_STATE.SHADER_RESOURCE, UpdateResourceState := some false } ]
      ∧ (t.BeforeDraw e).2.state hm = RESOURCE_STATE.UNKNOWN
      ∧ (t.BeforeDraw e).2.state nm = RESOURCE_STATE.UNKNOWN := by
  have hlog : e.since (t.BeforeDraw e).2 =
        [Event.TransitionResourceStates
          [ { desc := { pResource := some hm, OldState := RESOURCE_STATE.UNORDERED_ACCESS,
                        NewState := RESOURCE_STATE.SHADER_RESOURCE,
                        UpdateResourceState := some false },
              tracked := some RESOURCE_STATE.UNKNOWN },
            { desc := { pResource := some nm, OldState := RESOURCE_STATE.UNORDERED_ACCESS,
                        NewState := RESOURCE_STATE.SHADER_RESOURCE,
                        UpdateResourceState := some false },
              tracked := some RESOURCE_STATE.UNKNOWN } ]] := by
    apply Engine.since_append
    simp [Terrain.BeforeDraw, Engine.TransitionResourceStates, Engine.submit,
      Engine.applyBarrier, Engine.record, hHM, hNM, hH, hN]
  refine ⟨hlog, ?_, ?_, ?_, ?_⟩
  · rw [hlog]
    simp [barriersOn, barriersOf, List.filter, hne.symm]
  · rw [hlog]
    simp [barriersOn, barriersOf, List.filter, hne]
  · simp [Terrain.BeforeDraw, Engine.TransitionResourceStates, Engine.submit,
      Engine.applyBarrier, Engine.record, hHM, hNM, hH]
  · simp [Terrain.BeforeDraw, Engine.TransitionResourceStates, Engine.submit,
      Engine.applyBarrier, Engine.record, hHM, hNM, hN]

/-- Witness of C1 on `Terrain.sample` and `Engine.sample`. -/
theorem C1_BeforeDraw_barriers_witness :
    (Terrain.sample.BeforeDraw Engine.sample).2.state 5 = RESOURCE_STATE.UNKNOWN
      ∧ (Terrain.sample.BeforeDraw Engine.sample).2.state 6 = RESOURCE_STATE.UNKNOWN :=
  (C1_BeforeDraw_barriers Terrain.sample Engine.sample 5 6 rfl rfl (by decide) rfl rfl).2.2.2

/-- C2: `Terrain::CreateResources` (called with both pipelines present, so that
it returns) creates the vertex buffer and the index buffer as two new objects;
among all barriers it submits, exactly one names `m_VB`, namely
`COPY_DEST -> VERTEX_BUFFER` with update flag `true`, and exactly one names
`m_IB`, namely `COPY_DEST -> INDEX_BUFFER` with update flag `true`; when the
call returns the tracked state of `m_VB` is `VERTEX_BUFFER` and that of `m_IB`
is `INDEX_BUFFER`. -/
theorem C2_CreateResources_buffers (cfg : EngineCfg) (t : Terrain) (e : Engine)
    (g d : Handle) (hG : t.m_GenPSO = some g) (hD : t.m_DrawPSO = some d) :
    ∃ t1 e1, t.CreateResources cfg e = Result.ok t1 e1
      ∧ t1.m_VB = some e.nextHandle ∧ t1.m_IB = some (e.nextHandle + 1)
      ∧ (barriersOn e.nextHandle (e.since e1)).map BarrierRecord.desc =
          [ { pResource := some e.nextHandle, OldState := RESOURCE_STATE.COPY_DEST,
              NewState := RESOURCE_STATE.VERTEX_BUFFER, UpdateResourceState := some true } ]
      ∧ (barriersOn (e.nextHandle + 1) (e.since e1)).map BarrierRecord.desc =
          [ { pResource := some (e.nextHandle + 1), OldState := RESOURCE_STATE.COPY_DEST,
              NewState := RESOURCE_STATE.INDEX_BUFFER, UpdateResourceState := some true } ]
      ∧ e1.state e.nextHandle = RESOURCE_STATE.VERTEX_BUFFER
      ∧ e1.state (e.nextHandle + 1) = RESOURCE_STATE.INDEX_BUFFER := by
  cases hDM : t.m_DiffuseMap <;> cases hTC : t.m_TerrainConstants <;>
    simp only [Terrain.CreateResources, Terrain.createBuffers, Terrain.createMaps,
      Terrain.createDiffuseMap, Terrain.createConstants, Terrain.createGenSRB,
      Terrain.createDrawSRB, Engine.create, hG, hD, hDM, hTC] <;>
    refine ⟨_, _, rfl, ?_⟩ <;>
    simp [Engine.TransitionResourceStates, Engine.submit,
      Engine.applyBarrier, Engine.SetState, Engine.setTracked, Engine.record, Engine.since,
      barriersOn, barriersOf, Nat.add_assoc]

/-- Witness of C2 on the initial terrain and engine. -/
theorem C2_CreateResources_buffers_witness :
    ∃ t1 e1, Terrain.initial.CreateResources EngineCfg.sample Engine.initial = Result.ok t1 e1
      ∧ t1.m_VB = some 3 ∧ t1.m_IB = some 4
      ∧ e1.state 3 = RESOURCE_STATE.VERTEX_BUFFER
      ∧ e1.state 4 = RESOURCE_STATE.INDEX_BUFFER := by
  obtain ⟨t1, e1, h, hvb, hib, _, _, h3, h4⟩ :=
    C2_CreateResources_buffers EngineCfg.sample Terrain.initial Engine.initial 1 2 rfl rfl
  exact ⟨t1, e1, h, hvb, hib, h3, h4⟩

/-- C4: `Terrain::CreateResources` creates the height map and the normal map
with whatever tracked state `s = cfg.texture` the engine gives new textures.
The calls it issues on them are, in this order: the two `CreateTexture`, one
grouped request `UNKNOWN -> UNORDERED_ACCESS` that carries no update flag (and
is submitted while the tracked state is still `s`), then
`SetState(RESOURCE_STATE_UNKNOWN)` on each.  No other barrier of the call names
either map, and when the call returns both tracked states are `UNKNOWN`. -/
theorem C4_CreateResources_maps_unknown (cfg : EngineCfg) (t : Terrain) (e : Engine)
    (g d : Handle) (hG : t.m_GenPSO = some g) (hD : t.m_DrawPSO = some d) :
    ∃ t1 e1, t.CreateResources cfg e = Result.ok t1 e1
      ∧ t1.m_HeightMap = some (e.nextHandle + 2) ∧ t1.m_NormalMap = some (e.nextHandle + 3)
      ∧ e1.state (e.nextHandle + 2) = RESOURCE_STATE.UNKNOWN
      ∧ e1.state (e.nextHandle + 3) = RESOURCE_STATE.UNKNOWN
      ∧ ((e.since e1).drop 3).take 5 =
          [ Event.CreateTexture (e.nextHandle + 2),
            Event.CreateTexture (e.nextHandle + 3),
            Event.TransitionResourceStates
              [ { desc := { pResource := some (e.nextHandle + 2),
                            OldState := RESOURCE_STATE.UNKNOWN,
                            NewState := RESOURCE_STATE.UNORDERED_ACCESS,
                            UpdateResourceState := none },
                  tracked := some cfg.texture },
                { desc := { pResource := some (e.nextHandle + 3),
                            OldState := RESOURCE_STATE.UNKNOWN,
                            NewState := RESOURCE_STATE.UNORDERED_ACCESS,
                            UpdateResourceState := none },
                  tracked := some cfg.texture } ],
            Event.SetState (e.nextHandle + 2) RESOURCE_STATE.UNKNOWN,
            Event.SetState (e.nextHandle + 3) RESOURCE_STATE.UNKNOWN ]
      ∧ (barriersOn (e.nextHandle + 2) (e.since e1)).map BarrierRecord.desc =
          [ { pResource := some (e.nextHandle + 2), OldState := RESOURCE_STATE.UNKNOWN,
              NewState := RESOURCE_STATE.UNORDERED_ACCESS, UpdateResourceState := none } ]
      ∧ (barriersOn (e.nextHandle + 3) (e.since e1)).map BarrierRecord.desc =
          [ { pResource := some (e.nextHandle + 3), OldState := RESOURCE_STATE.UNKNOWN,
              NewState := RESOURCE_STATE.UNORDERED_ACCESS, UpdateResourceState := none } ] := by
  cases hDM : t.m_DiffuseMap <;> cases hTC : t.m_TerrainConstants <;>
    simp only [Terrain.CreateResources, Terrain.createBuffers, Terrain.createMaps,
      Terrain.createDiffuseMap, Terrain.createConstants, Terrain.createGenSRB,
      Terrain.createDrawSRB, Engine.create, hG, hD, hDM, hTC] <;>
    refine ⟨_, _, rfl, ?_⟩ <;>
    simp [Engine.TransitionResourceStates, Engine.submit,
      Engine.applyBarrier, Engine.SetState, Engine.setTracked, Engine.record, Engine.since,
      barriersOn, barriersOf, Nat.add_assoc]

/-- Witness of C4 on the initial terrain and engine. -/
theorem C4_CreateResources_maps_unknown_witness :
    ∃ t1 e1, Terrain.initial.CreateResources EngineCfg.sample Engine.initial = Result.ok t1 e1
      ∧ t1.m_HeightMap = some 5 ∧ t1.m_NormalMap = some 6
      ∧ e1.state 5 = RESOURCE_STATE.UNKNOWN ∧ e1.state 6 = RESOURCE_STATE.UNKNOWN := by
  obtain ⟨t1, e1, h, hhm, hnm, h5, h6, _⟩ :=
    C4_CreateResources_maps_unknown EngineCfg.sample Terrain.initial Engine.initial 1 2 rfl rfl
  exact ⟨t1, e1, h, hhm, hnm, h5, h6⟩

/-! ### Engine lemmas -/

@[simp] theorem Engine.record_log (e : Engine) (ev : Event) :
    (e.record ev).log = e.log ++ [ev] := rfl

@[simp] theorem Engine.record_state (e : Engine) (ev : Event) :
    (e.record ev).state = e.state := rfl

@[simp] theorem Engine.record_nextHandle (e : Engine) (ev : Event) :
    (e.record ev).nextHandle = e.nextHandle := rfl

theorem AutoOnly.nil (e : Engine) : AutoOnly e [] := by
  intro ev hev
  simp at hev

theorem AutoOnly.append {e : Engine} {A B : List Event} (hA : AutoOnly e A)
    (hB : AutoOnly e B) : AutoOnly e (A ++ B) := by
  intro ev hev
  rcases List.mem_append.mp hev with h | h
  · exact hA ev h
  · exact hB ev h

theorem AutoOnly.mono {e e1 : Engine} {A : List Event}
    (hU : ∀ k, e.state k = RESOURCE_STATE.UNKNOWN → e1.state k = RESOURCE_STATE.UNKNOWN)
    (hA : AutoOnly e1 A) : AutoOnly e A := by
  intro ev hev
  obtain ⟨h, o, n, rfl, hne⟩ := hA ev hev
  exact ⟨h, o, n, rfl, fun hk => hne (hU h hk)⟩

theorem Engine.Auto.refl (e : Engine) (res : List (Option Handle)) : e.Auto e [] res :=
  ⟨by simp, AutoOnly.nil e, rfl, fun _ h => h, fun _ _ => rfl⟩

theorem Engine.Auto.trans {e e1 e2 : Engine} {A B : List Event}
    {res1 res2 : List (Option Handle)} (h1 : e.Auto e1 A res1) (h2 : e1.Auto e2 B res2) :
    e.Auto e2 (A ++ B) (res1 ++ res2) := by
  refine ⟨?_, ?_, ?_, ?_, ?_⟩
  · rw [h2.log, h1.log, List.append_assoc]
  · exact AutoOnly.append h1.only (AutoOnly.mono h1.unknown h2.only)
  · rw [h2.next, h1.next]
  · exact fun k hk => h2.unknown k (h1.unknown k hk)
  · intro k hk
    rw [h2.other k (fun h => hk (List.mem_append.mpr (Or.inr h))),
      h1.other k (fun h => hk (List.mem_append.mpr (Or.inl h)))]

theorem Engine.autoTransition_auto (e : Engine) (r : Option Handle) (s : RESOURCE_STATE) :
    ∃ A, e.Auto (e.autoTransition r s) A [r] := by
  cases r with
  | none => exact ⟨[], by simpa [Engine.autoTransition] using Engine.Auto.refl e [none]⟩
  | some h =>
    by_cases hU : e.state h = RESOURCE_STATE.UNKNOWN
    · exact ⟨[], by simpa [Engine.autoTransition, hU] using Engine.Auto.refl e [some h]⟩
    · by_cases hS : e.state h = s
      · exact ⟨[], by simpa [Engine.autoTransition, hU, hS] using Engine.Auto.refl e [some h]⟩
      · refine ⟨[Event.EngineBarrier h (e.state h) s], ?_, ?_, ?_, ?_, ?_⟩
        · simp [Engine.autoTransition, hU, hS, Engine.record, Engine.setTracked]
        · intro ev hev
          simp at hev
          exact ⟨h, e.state h, s, hev, hU⟩
        · simp [Engine.autoTransition, hU, hS, Engine.record, Engine.setTracked]
        · intro k hk
          have hkh : k ≠ h := fun hh => hU (hh ▸ hk)
          simp [Engine.autoTransition, hU, hS, Engine.record, Engine.setTracked, hkh, hk]
        · intro k hk
          have hkh : k ≠ h := fun hh => hk (by simp [hh])
          simp [Engine.autoTransition, hU, hS, Engine.record, Engine.setTracked, hkh]

theorem Engine.autoTransitionAll_auto (vars : List Binding) (e : Engine) :
    ∃ A, e.Auto (e.autoTransitionAll vars) A (vars.map (fun v => v.object.resource)) := by
  induction vars generalizing e with
  | nil => exact ⟨[], by simpa [Engine.autoTransitionAll] using Engine.Auto.refl e []⟩
  | cons v vs ih =>
    obtain ⟨A, hA⟩ := e.autoTransition_auto v.object.resource v.object.requiredState
    obtain ⟨B, hB⟩ := ih (e.autoTransition v.object.resource v.object.requiredState)
    exact ⟨A ++ B, by simpa [Engine.autoTransitionAll] using hA.trans hB⟩

theorem Engine.UpdateBuffer_auto (e : Engine) (h : Option Handle) :
    ∃ A, (e.record (Event.UpdateBuffer h RESOURCE_STATE_TRANSITION_MODE.TRANSITION)).Auto
      (e.UpdateBuffer h RESOURCE_STATE_TRANSITION_MODE.TRANSITION) A [h] := by
  simpa [Engine.UpdateBuffer] using Engine.autoTransition_auto _ h RESOURCE_STATE.COPY_DEST

theorem Engine.CommitShaderResources_auto (e : Engine) (srb : Option SRB) :
    ∃ A, (e.record (Event.CommitShaderResources srb
        RESOURCE_STATE_TRANSITION_MODE.TRANSITION)).Auto
      (e.CommitShaderResources srb RESOURCE_STATE_TRANSITION_MODE.TRANSITION) A
      (boundResources srb) := by
  cases srb with
  | none =>
    exact ⟨[], by simpa [Engine.CommitShaderResources, boundResources] using
      Engine.Auto.refl _ []⟩
  | some b =>
    simpa [Engine.CommitShaderResources, boundResources] using
      Engine.autoTransitionAll_auto b.vars _

/-- Function `Terrain::Update` returns when the height map exists; its calls are the
fixed commands with the engine barriers of the two automatic transitions in
between. -/
theorem Terrain.Update_ok (t : Terrain) (e : Engine) (hm : Handle)
    (hHM : t.m_HeightMap = some hm) :
    ∃ e1 A B, t.Update e = Result.ok t e1
      ∧ e1.log = e.log ++ ([Event.BeginDebugGroup,
          Event.UpdateBuffer t.m_TerrainConstants RESOURCE_STATE_TRANSITION_MODE.TRANSITION]
          ++ A ++ [Event.SetPipelineState t.m_GenPSO,
          Event.CommitShaderResources t.m_GenSRB RESOURCE_STATE_TRANSITION_MODE.TRANSITION]
          ++ B ++ [Event.DispatchCompute, Event.EndDebugGroup])
      ∧ AutoOnly e A ∧ AutoOnly e B
      ∧ e1.nextHandle = e.nextHandle
      ∧ (∀ k, e.state k = RESOURCE_STATE.UNKNOWN → e1.state k = RESOURCE_STATE.UNKNOWN)
      ∧ (∀ k, some k ∉ t.m_TerrainConstants :: boundResources t.m_GenSRB →
          e1.state k = e.state k) := by
  obtain ⟨A, hA⟩ := (e.record Event.BeginDebugGroup).UpdateBuffer_auto t.m_TerrainConstants
  obtain ⟨B, hB⟩ := Engine.CommitShaderResources_auto
    (((e.record Event.BeginDebugGroup).UpdateBuffer t.m_TerrainConstants
      RESOURCE_STATE_TRANSITION_MODE.TRANSITION).record (Event.SetPipelineState t.m_GenPSO))
    t.m_GenSRB
  refine ⟨((((e.record Event.BeginDebugGroup).UpdateBuffer t.m_TerrainConstants
      RESOURCE_STATE_TRANSITION_MODE.TRANSITION).record
      (Event.SetPipelineState t.m_GenPSO)).CommitShaderResources t.m_GenSRB
      RESOURCE_STATE_TRANSITION_MODE.TRANSITION).record Event.DispatchCompute |>.record
      Event.EndDebugGroup, A, B, by simp only [Terrain.Update, hHM], ?_, ?_, ?_, ?_, ?_, ?_⟩
  · simp [hB.log, hA.log]
  · exact AutoOnly.mono (fun _ h => h) hA.only
  · exact AutoOnly.mono (fun k hk => hA.unknown k hk) hB.only
  · simp [hB.next, hA.next]
  · intro k hk
    exact hB.unknown k (hA.unknown k hk)
  · intro k hk
    have h1 : some k ∉ [t.m_TerrainConstants] := fun h => hk (by simp at h; simp [h])
    have h2 : some k ∉ boundResources t.m_GenSRB := fun h => hk (by simp [h])
    have h3 := hB.other k h2
    have h4 := hA.other k h1
    simp only [Engine.record_state] at h3 h4 ⊢
    rw [h3, h4]

/-- Function `Terrain::Draw` returns when the index buffer exists; it records nine
commands, all with transition mode `NONE`, and changes no tracked state. -/
theorem Terrain.Draw_ok (t : Terrain) (e : Engine) (ib : Handle) (hIB : t.m_IB = some ib) :
    ∃ e1, t.Draw e = Result.ok t e1
      ∧ e1.log = e.log ++ [Event.BeginDebugGroup, Event.MapBuffer t.m_DrawConstants,
          Event.UnmapBuffer t.m_DrawConstants, Event.SetPipelineState t.m_DrawPSO,
          Event.CommitShaderResources t.m_DrawSRB RESOURCE_STATE_TRANSITION_MODE.NONE,
          Event.SetVertexBuffers t.m_VB RESOURCE_STATE_TRANSITION_MODE.NONE,
          Event.SetIndexBuffer (some ib) RESOURCE_STATE_TRANSITION_MODE.NONE,
          Event.DrawIndexed, Event.EndDebugGroup]
      ∧ e1.nextHandle = e.nextHandle ∧ e1.state = e.state := by
  simp only [Terrain.Draw, hIB]
  refine ⟨_, rfl, ?_, ?_, ?_⟩ <;>
    simp [Engine.record, Engine.CommitShaderResources, Engine.SetVertexBuffers,
      Engine.SetIndexBuffer]

/-- Function `Terrain::BeforeDraw` submits one grouped request and changes no tracked
state. -/
theorem Terrain.BeforeDraw_spec (t : Terrain) (e : Engine) :
    (t.BeforeDraw e).1 = t
      ∧ (t.BeforeDraw e).2.log = e.log ++ [Event.TransitionResourceStates
          [ { desc := { pResource := t.m_HeightMap, OldState := RESOURCE_STATE.UNORDERED_ACCESS,
                        NewState := RESOURCE_STATE.SHADER_RESOURCE,
                        UpdateResourceState := some false },
              tracked := t.m_HeightMap.map e.state },
            { desc := { pResource := t.m_NormalMap, OldState := RESOURCE_STATE.UNORDERED_ACCESS,
                        NewState := RESOURCE_STATE.SHADER_RESOURCE,
                        UpdateResourceState := some false },
              tracked := t.m_NormalMap.map e.state } ]]
      ∧ (t.BeforeDraw e).2.nextHandle = e.nextHandle
      ∧ (t.BeforeDraw e).2.state = e.state := by
  cases hH : t.m_HeightMap <;> cases hN : t.m_NormalMap <;>
    simp [Terrain.BeforeDraw, Engine.TransitionResourceStates, Engine.submit,
      Engine.applyBarrier, Engine.record, hH, hN]

/-- Function `Terrain::AfterDraw` submits one grouped request and changes no tracked
state. -/
theorem Terrain.AfterDraw_spec (t : Terrain) (e : Engine) :
    (t.AfterDraw e).1 = t
      ∧ (t.AfterDraw e).2.log = e.log ++ [Event.TransitionResourceStates
          [ { desc := { pResource := t.m_HeightMap, OldState := RESOURCE_STATE.SHADER_RESOURCE,
                        NewState := RESOURCE_STATE.UNORDERED_ACCESS,
                        UpdateResourceState := none },
              tracked := t.m_HeightMap.map e.state },
            { desc := { pResource := t.m_NormalMap, OldState := RESOURCE_STATE.SHADER_RESOURCE,
                        NewState := RESOURCE_STATE.UNORDERED_ACCESS,
                        UpdateResourceState := none },
              tracked := t.m_NormalMap.map e.state } ]]
      ∧ (t.AfterDraw e).2.nextHandle = e.nextHandle
      ∧ (t.AfterDraw e).2.state = e.state := by
  cases hH : t.m_HeightMap <;> cases hN : t.m_NormalMap <;>
    simp [Terrain.AfterDraw, Engine.TransitionResourceStates, Engine.submit,
      Engine.applyBarrier, Engine.record, hH, hN]

/-! ### Reading the log -/

theorem barriersOf_append (a b : List Event) :
    barriersOf (a ++ b) = barriersOf a ++ barriersOf b := by
  induction a with
  | nil => simp [barriersOf]
  | cons ev evs ih => cases ev <;> simp [barriersOf, ih]

theorem barriersOf_autoOnly {e : Engine} {A : List Event} (hA : AutoOnly e A) :
    barriersOf A = [] := by
  induction A with
  | nil => simp [barriersOf]
  | cons ev evs ih =>
    obtain ⟨h, o, n, rfl, _⟩ := hA ev (by simp)
    simpa [barriersOf] using ih (fun ev1 h1 => hA ev1 (by simp [h1]))

/-! ### The per-frame member functions -/

/-- One per-frame call made while the height map and the index buffer exist:
the call returns, the terrain object is unchanged, a tracked state `UNKNOWN`
stays `UNKNOWN`, no explicit barrier of the call carries update flag `true`,
and only the terrain constants and the resources bound for the generator can
change their tracked state. -/
theorem frameOp_step (cfg : EngineCfg) (t : Terrain) (hm ib : Handle)
    (hHM : t.m_HeightMap = some hm) (hIB : t.m_IB = some ib)
    (op : Op) (hop : op.isFrameOp = true) (e : Engine) :
    ∃ e1 F, step cfg op t e = Result.ok t e1 ∧ e1.log = e.log ++ F
      ∧ (∀ k, e.state k = RESOURCE_STATE.UNKNOWN → e1.state k = RESOURCE_STATE.UNKNOWN)
      ∧ e1.nextHandle = e.nextHandle
      ∧ (∀ b ∈ barriersOf F, b.desc.UpdateResourceState ≠ some true)
      ∧ (∀ k, some k ∉ t.m_TerrainConstants :: boundResources t.m_GenSRB →
          e1.state k = e.state k) := by
  cases op with
  | CreateResources => simp [Op.isFrameOp] at hop
  | Recreate => simp [Op.isFrameOp] at hop
  | Update =>
    obtain ⟨e1, A, B, hok, hlog, hA, hB, hnext, hunk, hoth⟩ := t.Update_ok e hm hHM
    refine ⟨e1, _, by simpa [step] using hok, hlog, hunk, hnext, ?_, hoth⟩
    simp [barriersOf_append, barriersOf_autoOnly hA, barriersOf_autoOnly hB, barriersOf]
  | BeforeDraw =>
    obtain ⟨h1, h2, h3, h4⟩ := t.BeforeDraw_spec e
    refine ⟨(t.BeforeDraw e).2, _, by simp [step, h1], h2, fun k hk => by rw [h4, hk],
      h3, ?_, fun k _ => by rw [h4]⟩
    simp [barriersOf]
  | Draw =>
    obtain ⟨e1, hok, hlog, hnext, hst⟩ := t.Draw_ok e ib hIB
    refine ⟨e1, _, by simpa [step] using hok, hlog, fun k hk => by rw [hst, hk],
      hnext, ?_, fun k _ => by rw [hst]⟩
    simp [barriersOf]
  | AfterDraw =>
    obtain ⟨h1, h2, h3, h4⟩ := t.AfterDraw_spec e
    refine ⟨(t.AfterDraw e).2, _, by simp [step, h1], h2, fun k hk => by rw [h4, hk],
      h3, ?_, fun k _ => by rw [h4]⟩
    simp [barriersOf]

/-- Any sequence of per-frame calls made while the height map and the index
buffer exist: the conclusions of `frameOp_step` hold for the whole run. -/
theorem frameOps_run (cfg : EngineCfg) (t : Terrain) (hm ib : Handle)
    (hHM : t.m_HeightMap = some hm) (hIB : t.m_IB = some ib)
    (ops : List Op) (hops : ∀ op ∈ ops, op.isFrameOp = true) (e : Engine) :
    ∃ e1 F, run cfg ops t e = Result.ok t e1 ∧ e1.log = e.log ++ F
      ∧ (∀ k, e.state k = RESOURCE_STATE.UNKNOWN → e1.state k = RESOURCE_STATE.UNKNOWN)
      ∧ e1.nextHandle = e.nextHandle
      ∧ (∀ b ∈ barriersOf F, b.desc.UpdateResourceState ≠ some true)
      ∧ (∀ k, some k ∉ t.m_TerrainConstants :: boundResources t.m_GenSRB →
          e1.state k = e.state k) := by
  induction ops generalizing e with
  | nil => exact ⟨e, [], by simp [run], by simp, fun _ h => h, rfl, by simp [barriersOf],
      fun _ _ => rfl⟩
  | cons op ops ih =>
    obtain ⟨e1, F, hok, hlog, hunk, hnext, hflag, hoth⟩ :=
      frameOp_step cfg t hm ib hHM hIB op (hops op (by simp)) e
    obtain ⟨e2, G, hok2, hlog2, hunk2, hnext2, hflag2, hoth2⟩ :=
      ih (fun o ho => hops o (by simp [ho])) e1
    refine ⟨e2, F ++ G, by simp [run, hok, hok2], by rw [hlog2, hlog, List.append_assoc],
      fun k hk => hunk2 k (hunk k hk), by rw [hnext2, hnext], ?_,
      fun k hk => by rw [hoth2 k hk, hoth k hk]⟩
    intro b hb
    rw [barriersOf_append] at hb
    rcases List.mem_append.mp hb with h | h
    · exact hflag b h
    · exact hflag2 b h

/-- Function `Terrain::CreateResources` with both pipelines present returns; the four
objects it always creates are new, consecutive objects and are left in the
tracked states `VERTEX_BUFFER`, `INDEX_BUFFER`, `UNKNOWN`, `UNKNOWN`. -/
theorem Terrain.CreateResources_ok (cfg : EngineCfg) (t : Terrain) (e : Engine)
    (g d : Handle) (hG : t.m_GenPSO = some g) (hD : t.m_DrawPSO = some d) :
    ∃ t1 e1, t.CreateResources cfg e = Result.ok t1 e1
      ∧ e1.log = e.log ++ e.since e1
      ∧ t1.m_VB = some e.nextHandle ∧ t1.m_IB = some (e.nextHandle + 1)
      ∧ t1.m_HeightMap = some (e.nextHandle + 2) ∧ t1.m_NormalMap = some (e.nextHandle + 3)
      ∧ e1.state e.nextHandle = RESOURCE_STATE.VERTEX_BUFFER
      ∧ e1.state (e.nextHandle + 1) = RESOURCE_STATE.INDEX_BUFFER
      ∧ e1.state (e.nextHandle + 2) = RESOURCE_STATE.UNKNOWN
      ∧ e1.state (e.nextHandle + 3) = RESOURCE_STATE.UNKNOWN
      ∧ t1.m_GenPSO = some g ∧ t1.m_DrawPSO = some d
      ∧ ((∀ k, t.m_TerrainConstants = some k → k < e.nextHandle) →
          some e.nextHandle ∉ t1.m_TerrainConstants :: boundResources t1.m_GenSRB
          ∧ some (e.nextHandle + 1) ∉ t1.m_TerrainConstants :: boundResources t1.m_GenSRB) := by
  cases hDM : t.m_DiffuseMap <;> cases hTC : t.m_TerrainConstants <;>
    simp only [Terrain.CreateResources, Terrain.createBuffers, Terrain.createMaps,
      Terrain.createDiffuseMap, Terrain.createConstants, Terrain.createGenSRB,
      Terrain.createDrawSRB, Engine.create, hG, hD, hDM, hTC] <;>
    refine ⟨_, _, rfl, ?_⟩ <;>
    simp [Engine.TransitionResourceStates, Engine.submit,
      Engine.applyBarrier, Engine.SetState, Engine.setTracked, Engine.since,
      boundResources, BoundObject.resource, Nat.add_assoc]
  all_goals (intro hlt; unfold Handle at *; constructor <;> omega)

theorem Engine.since_trans (e e1 e2 : Engine) (F : List Event)
    (h1 : e1.log = e.log ++ e.since e1) (h2 : e2.log = e1.log ++ F) :
    e2.log = e.log ++ e.since e2 ∧ e.since e2 = e.since e1 ++ F ∧ e1.since e2 = F := by
  have h3 : e2.log = e.log ++ (e.since e1 ++ F) := by rw [h2, h1, List.append_assoc]
  have h4 : e.since e2 = e.since e1 ++ F := Engine.since_append e e2 _ h3
  exact ⟨by rw [h4]; exact h3, h4, Engine.since_append e1 e2 _ h2⟩

/-- C3: after `Terrain::CreateResources` (called with both pipelines present),
every sequence of calls to `Update`, `BeforeDraw`, `Draw` and `AfterDraw`
returns, leaves the terrain object with the same height map and normal map,
and leaves the tracked state of both `UNKNOWN`; none of the barriers submitted
by these calls carries update flag `true` (`BeforeDraw` passes `false`,
`AfterDraw` passes no flag).  As the sequence is arbitrary, the statement
covers the state after every call of it. -/
theorem C3_maps_stay_unknown (cfg : EngineCfg) (t : Terrain) (e : Engine) (g d : Handle)
    (hG : t.m_GenPSO = some g) (hD : t.m_DrawPSO = some d)
    (ops : List Op) (hops : ∀ op ∈ ops, op.isFrameOp = true) :
    ∃ t1 e1 e2, t.CreateResources cfg e = Result.ok t1 e1
      ∧ run cfg ops t1 e1 = Result.ok t1 e2
      ∧ t1.m_HeightMap = some (e.nextHandle + 2) ∧ t1.m_NormalMap = some (e.nextHandle + 3)
      ∧ e1.state (e.nextHandle + 2) = RESOURCE_STATE.UNKNOWN
      ∧ e1.state (e.nextHandle + 3) = RESOURCE_STATE.UNKNOWN
      ∧ e2.state (e.nextHandle + 2) = RESOURCE_STATE.UNKNOWN
      ∧ e2.state (e.nextHandle + 3) = RESOURCE_STATE.UNKNOWN
      ∧ ∀ b ∈ barriersOf (e1.since e2), b.desc.UpdateResourceState ≠ some true := by
  obtain ⟨t1, e1, hok, _, _, hIB, hHM, hNM, _, _, hH, hN, _⟩ :=
    t.CreateResources_ok cfg e g d hG hD
  obtain ⟨e2, F, hrun, hlog, hunk, _, hflag, _⟩ :=
    frameOps_run cfg t1 _ _ hHM hIB ops hops e1
  refine ⟨t1, e1, e2, hok, hrun, hHM, hNM, hH, hN, hunk _ hH, hunk _ hN, ?_⟩
  rw [Engine.since_append e1 e2 F hlog]
  exact hflag

/-- Witness of C3: one frame after `CreateResources` on the initial terrain. -/
theorem C3_maps_stay_unknown_witness :
    ∃ t1 e1 e2, Terrain.initial.CreateResources EngineCfg.sample Engine.initial = Result.ok t1 e1
      ∧ run EngineCfg.sample frame t1 e1 = Result.ok t1 e2
      ∧ e2.state 5 = RESOURCE_STATE.UNKNOWN ∧ e2.state 6 = RESOURCE_STATE.UNKNOWN := by
  obtain ⟨t1, e1, e2, h1, h2, _, _, _, _, h5, h6, _⟩ :=
    C3_maps_stay_unknown EngineCfg.sample Terrain.initial Engine.initial 1 2 rfl rfl frame
      (by decide)
  exact ⟨t1, e1, e2, h1, h2, h5, h6⟩

/-! ### Barrier-determined state -/

theorem actualState_append (h : Handle) (st : Option RESOURCE_STATE) (a b : List Event) :
    actualState h st (a ++ b) = actualState h (actualState h st a) b := by
  induction a generalizing st with
  | nil => simp [actualState]
  | cons ev evs ih => simp [actualState, ih]

theorem protocolOK_append (h : Handle) (st : Option RESOURCE_STATE) (a b : List Event) :
    protocolOK h st (a ++ b) = (protocolOK h st a && protocolOK h (actualState h st a) b) := by
  induction a generalizing st with
  | nil => simp [protocolOK, actualState]
  | cons ev evs ih => simp [protocolOK, actualState, ih, Bool.and_assoc]

theorem actualState_autoOnly {e : Engine} {A : List Event} (hA : AutoOnly e A) (h : Handle)
    (hU : e.state h = RESOURCE_STATE.UNKNOWN) (st : Option RESOURCE_STATE) :
    actualState h st A = st := by
  induction A with
  | nil => simp [actualState]
  | cons ev evs ih =>
    obtain ⟨k, o, n, rfl, hk⟩ := hA ev (by simp)
    have hkh : k ≠ h := fun hh => hk (hh ▸ hU)
    simpa [actualState, Event.newState, hkh] using ih (fun ev1 h1 => hA ev1 (by simp [h1]))

theorem protocolOK_autoOnly {e : Engine} {A : List Event} (hA : AutoOnly e A) (h : Handle)
    (hU : e.state h = RESOURCE_STATE.UNKNOWN) (st : Option RESOURCE_STATE) :
    protocolOK h st A = true := by
  induction A with
  | nil => simp [protocolOK]
  | cons ev evs ih =>
    obtain ⟨k, o, n, rfl, hk⟩ := hA ev (by simp)
    have hkh : k ≠ h := fun hh => hk (hh ▸ hU)
    simpa [protocolOK, Event.newState, Event.needs, hkh] using
      ih (fun ev1 h1 => hA ev1 (by simp [h1]))

theorem protocolOK_split (h : Handle) (st : Option RESOURCE_STATE) (evs pre post : List Event)
    (ev : Event) (s : RESOURCE_STATE) (hok : protocolOK h st evs = true)
    (hsplit : evs = pre ++ ev :: post) (hneeds : ev.needs = some s) :
    actualState h st pre = some s := by
  subst hsplit
  rw [protocolOK_append] at hok
  simp [protocolOK, hneeds] at hok
  exact hok.2.1

theorem barriersOn_append (h : Handle) (a b : List Event) :
    barriersOn h (a ++ b) = barriersOn h a ++ barriersOn h b := by
  simp [barriersOn, barriersOf_append]

theorem run_append (cfg : EngineCfg) (a b : List Op) (t t1 : Terrain) (e e1 : Engine)
    (h : run cfg a t e = Result.ok t1 e1) : run cfg (a ++ b) t e = run cfg b t1 e1 := by
  induction a generalizing t e with
  | nil =>
    simp [run] at h
    simp [h.1, h.2]
  | cons op ops ih =>
    cases hs : step cfg op t e with
    | crash e2 => simp [run, hs] at h
    | ok t2 e2 =>
      simp only [run, hs] at h
      simpa [run, hs] using ih t2 e2 h

theorem count_autoOnly {e : Engine} {A : List Event} (hA : AutoOnly e A) (ev : Event)
    (hev : ev.isBarrier = false) : A.count ev = 0 := by
  rw [List.count_eq_zero]
  intro hmem
  obtain ⟨h, o, n, rfl, _⟩ := hA ev hmem
  simp [Event.isBarrier] at hev

/-- One frame made while the maps are two existing textures with tracked state
`UNKNOWN` and barrier-determined state `UNORDERED_ACCESS`: all four calls
return, the dispatch finds the maps in `UNORDERED_ACCESS`, the draw finds them
in `SHADER_RESOURCE`, and the frame leaves them in `UNORDERED_ACCESS`. -/
theorem frame_run (cfg : EngineCfg) (t : Terrain) (hm nm ib : Handle)
    (hHM : t.m_HeightMap = some hm) (hNM : t.m_NormalMap = some nm)
    (hIB : t.m_IB = some ib) (e : Engine)
    (hH : e.state hm = RESOURCE_STATE.UNKNOWN) (hN : e.state nm = RESOURCE_STATE.UNKNOWN) :
    ∃ e1 F, run cfg frame t e = Result.ok t e1 ∧ e1.log = e.log ++ F
      ∧ e1.state hm = RESOURCE_STATE.UNKNOWN ∧ e1.state nm = RESOURCE_STATE.UNKNOWN
      ∧ protocolOK hm (some RESOURCE_STATE.UNORDERED_ACCESS) F = true
      ∧ protocolOK nm (some RESOURCE_STATE.UNORDERED_ACCESS) F = true
      ∧ actualState hm (some RESOURCE_STATE.UNORDERED_ACCESS) F =
          some RESOURCE_STATE.UNORDERED_ACCESS
      ∧ actualState nm (some RESOURCE_STATE.UNORDERED_ACCESS) F =
          some RESOURCE_STATE.UNORDERED_ACCESS
      ∧ barriersOf F =
          [ { desc := { pResource := some hm, OldState := RESOURCE_STATE.UNORDERED_ACCESS,
                        NewState := RESOURCE_STATE.SHADER_RESOURCE,
                        UpdateResourceState := some false },
              tracked := some RESOURCE_STATE.UNKNOWN },
            { desc := { pResource := some nm, OldState := RESOURCE_STATE.UNORDERED_ACCESS,
                        NewState := RESOURCE_STATE.SHADER_RESOURCE,
                        UpdateResourceState := some false },
              tracked := some RESOURCE_STATE.UNKNOWN },
            { desc := { pResource := some hm, OldState := RESOURCE_STATE.SHADER_RESOURCE,
                        NewState := RESOURCE_STATE.UNORDERED_ACCESS,
                        UpdateResourceState := none },
              tracked := some RESOURCE_STATE.UNKNOWN },
            { desc := { pResource := some nm, OldState := RESOURCE_STATE.SHADER_RESOURCE,
                        NewState := RESOURCE_STATE.UNORDERED_ACCESS,
                        UpdateResourceState := none },
              tracked := some RESOURCE_STATE.UNKNOWN } ]
      ∧ F.count Event.DispatchCompute = 1 ∧ F.count Event.DrawIndexed = 1 := by
  obtain ⟨e1, A, B, hok1, hlog1, hA, hB, _, hunk1, _⟩ := t.Update_ok e hm hHM
  obtain ⟨ht2, hlog2, _, hst2⟩ := t.BeforeDraw_spec e1
  obtain ⟨e3, hok3, hlog3, _, hst3⟩ := t.Draw_ok (t.BeforeDraw e1).2 ib hIB
  obtain ⟨ht4, hlog4, _, hst4⟩ := t.AfterDraw_spec e3
  have hH1 := hunk1 hm hH
  have hN1 := hunk1 nm hN
  have hH3 : e3.state hm = RESOURCE_STATE.UNKNOWN := by rw [hst3, hst2, hH1]
  have hN3 : e3.state nm = RESOURCE_STATE.UNKNOWN := by rw [hst3, hst2, hN1]
  refine ⟨(t.AfterDraw e3).2, ?F, ?hrun, ?hlog, by rw [hst4, hH3], by rw [hst4, hN3],
    ?_, ?_, ?_, ?_, ?_, ?hcD, ?hcR⟩
  case hlog =>
    rw [hlog4, hlog3, hlog2, hlog1]
    simp only [List.append_assoc]
    exact rfl
  case hrun => simp [frame, run, step, hok1, ht2, hok3, ht4]
  case hcD =>
    simp [List.count_cons, count_autoOnly hA Event.DispatchCompute rfl,
      count_autoOnly hB Event.DispatchCompute rfl]
  case hcR =>
    simp [List.count_cons, count_autoOnly hA Event.DrawIndexed rfl,
      count_autoOnly hB Event.DrawIndexed rfl]
  all_goals
    have hne : nm = hm ∨ (¬ nm = hm ∧ ¬ hm = nm) := by
      by_cases h : nm = hm
      · exact Or.inl h
      · exact Or.inr ⟨h, fun h1 => h h1.symm⟩
    rcases hne with hne | ⟨hne, hne1⟩ <;>
    simp [protocolOK_append, actualState_append, barriersOf_append,
      protocolOK_autoOnly hA _ hH, protocolOK_autoOnly hB _ hH,
      protocolOK_autoOnly hA _ hN, protocolOK_autoOnly hB _ hN,
      actualState_autoOnly hA _ hH, actualState_autoOnly hB _ hH,
      actualState_autoOnly hA _ hN, actualState_autoOnly hB _ hN,
      barriersOf_autoOnly hA, barriersOf_autoOnly hB,
      protocolOK, actualState, barriersOf, Event.needs, Event.newState, List.filter,
      hHM, hNM, hH1, hN1, hH3, hN3, *]

/-- The protocol facts survive one more frame. -/
theorem Protocol.frame {hm nm : Handle} {L F : List Event} (hP : Protocol hm nm L)
    (hne : hm ≠ nm)
    (hokH : protocolOK hm (some RESOURCE_STATE.UNORDERED_ACCESS) F = true)
    (hokN : protocolOK nm (some RESOURCE_STATE.UNORDERED_ACCESS) F = true)
    (hstH : actualState hm (some RESOURCE_STATE.UNORDERED_ACCESS) F =
      some RESOURCE_STATE.UNORDERED_ACCESS)
    (hstN : actualState nm (some RESOURCE_STATE.UNORDERED_ACCESS) F =
      some RESOURCE_STATE.UNORDERED_ACCESS)
    (hF : barriersOf F =
      [ { desc := { pResource := some hm, OldState := RESOURCE_STATE.UNORDERED_ACCESS,
                    NewState := RESOURCE_STATE.SHADER_RESOURCE,
                    UpdateResourceState := some false },
          tracked := some RESOURCE_STATE.UNKNOWN },
        { desc := { pResource := some nm, OldState := RESOURCE_STATE.UNORDERED_ACCESS,
                    NewState := RESOURCE_STATE.SHADER_RESOURCE,
                    UpdateResourceState := some false },
          tracked := some RESOURCE_STATE.UNKNOWN },
        { desc := { pResource := some hm, OldState := RESOURCE_STATE.SHADER_RESOURCE,
                    NewState := RESOURCE_STATE.UNORDERED_ACCESS,
                    UpdateResourceState := none },
          tracked := some RESOURCE_STATE.UNKNOWN },
        { desc := { pResource := some nm, OldState := RESOURCE_STATE.SHADER_RESOURCE,
                    NewState := RESOURCE_STATE.UNORDERED_ACCESS,
                    UpdateResourceState := none },
          tracked := some RESOURCE_STATE.UNKNOWN } ]) :
    Protocol hm nm (L ++ F) := by
  have hne1 : nm ≠ hm := fun h => hne h.symm
  refine ⟨?_, ?_, ?_, ?_, ?_, ?_, ?_⟩
  · rw [protocolOK_append, hP.okH, hP.stH, hokH]
    rfl
  · rw [protocolOK_append, hP.okN, hP.stN, hokN]
    rfl
  · rw [actualState_append, hP.stH, hstH]
  · rw [actualState_append, hP.stN, hstN]
  · intro h
    rw [barriersOn_append]
    by_cases h1 : hm = h
    · subst h1
      refine List.Chain'.append (hP.chain hm) ?_ ?_
      · simp [barriersOn, hF, List.filter, hne1, BarrierRecord.follows]
      · intro x hx y hy
        have hx1 := hP.lastH x hx
        simp [barriersOn, hF, List.filter, hne1] at hy
        subst hy
        simp [BarrierRecord.follows, hx1]
    · by_cases h2 : nm = h
      · subst h2
        refine List.Chain'.append (hP.chain nm) ?_ ?_
        · simp [barriersOn, hF, List.filter, hne, BarrierRecord.follows]
        · intro x hx y hy
          have hx1 := hP.lastN x hx
          simp [barriersOn, hF, List.filter, hne] at hy
          subst hy
          simp [BarrierRecord.follows, hx1]
      · have : barriersOn h F = [] := by simp [barriersOn, hF, List.filter, h1, h2]
        rw [this, List.append_nil]
        exact hP.chain h
  · intro b hb
    have hFh : barriersOn hm F =
        [ { desc := { pResource := some hm, OldState := RESOURCE_STATE.UNORDERED_ACCESS,
                      NewState := RESOURCE_STATE.SHADER_RESOURCE,
                      UpdateResourceState := some false },
            tracked := some RESOURCE_STATE.UNKNOWN },
          { desc := { pResource := some hm, OldState := RESOURCE_STATE.SHADER_RESOURCE,
                      NewState := RESOURCE_STATE.UNORDERED_ACCESS,
                      UpdateResourceState := none },
            tracked := some RESOURCE_STATE.UNKNOWN } ] := by
      simp [barriersOn, hF, List.filter, hne1]
    rw [Option.mem_def, barriersOn_append, hFh, List.getLast?_append] at hb
    simp at hb
    rw [← hb]
  · intro b hb
    have hFh : barriersOn nm F =
        [ { desc := { pResource := some nm, OldState := RESOURCE_STATE.UNORDERED_ACCESS,
                      NewState := RESOURCE_STATE.SHADER_RESOURCE,
                      UpdateResourceState := some false },
            tracked := some RESOURCE_STATE.UNKNOWN },
          { desc := { pResource := some nm, OldState := RESOURCE_STATE.SHADER_RESOURCE,
                      NewState := RESOURCE_STATE.UNORDERED_ACCESS,
                      UpdateResourceState := none },
            tracked := some RESOURCE_STATE.UNKNOWN } ] := by
      simp [barriersOn, hF, List.filter, hne]
    rw [Option.mem_def, barriersOn_append, hFh, List.getLast?_append] at hb
    simp at hb
    rw [← hb]

/-- The log of `Terrain::CreateResources`, written out. -/
theorem Terrain.CreateResources_calls (cfg : EngineCfg) (t : Terrain) (e : Engine)
    (g d : Handle) (hG : t.m_GenPSO = some g) (hD : t.m_DrawPSO = some d) :
    ∃ t1 e1, t.CreateResources cfg e = Result.ok t1 e1
      ∧ e1.log = e.log ++ createCalls cfg e.nextHandle t.m_DiffuseMap.isNone
          t.m_TerrainConstants.isNone g d := by
  cases hDM : t.m_DiffuseMap <;> cases hTC : t.m_TerrainConstants <;>
    simp only [Terrain.CreateResources, Terrain.createBuffers, Terrain.createMaps,
      Terrain.createDiffuseMap, Terrain.createConstants, Terrain.createGenSRB,
      Terrain.createDrawSRB, Engine.create, hG, hD, hDM, hTC] <;>
    refine ⟨_, _, rfl, ?_⟩ <;>
    simp [Engine.TransitionResourceStates, Engine.submit, Engine.applyBarrier,
      Engine.SetState, Engine.setTracked, createCalls, createObjectCalls, Nat.add_assoc]

/-- The calls of `Terrain::CreateResources` establish the protocol facts for
the two maps it creates. -/
theorem createCalls_protocol (cfg : EngineCfg) (n : Handle) (newDiffuse newConstants : Bool)
    (g d : Handle) :
    Protocol (n + 2) (n + 3) (createCalls cfg n newDiffuse newConstants g d) := by
  refine ⟨?_, ?_, ?_, ?_, ?chain, ?_, ?_⟩
  case chain =>
    intro h
    by_cases h0 : n = h
    · subst h0
      cases newDiffuse <;> cases newConstants <;>
        simp [createCalls, createObjectCalls, barriersOn, barriersOf]
    by_cases h1 : n + 1 = h
    · subst h1
      cases newDiffuse <;> cases newConstants <;>
        simp [createCalls, createObjectCalls, barriersOn, barriersOf]
    by_cases h2 : n + 2 = h
    · subst h2
      cases newDiffuse <;> cases newConstants <;>
        simp [createCalls, createObjectCalls, barriersOn, barriersOf]
    by_cases h3 : n + 3 = h
    · subst h3
      cases newDiffuse <;> cases newConstants <;>
        simp [createCalls, createObjectCalls, barriersOn, barriersOf]
    by_cases h4 : n + 4 = h
    · subst h4
      cases newDiffuse <;> cases newConstants <;>
        simp [createCalls, createObjectCalls, barriersOn, barriersOf]
    cases newDiffuse <;> cases newConstants <;>
      simp [createCalls, createObjectCalls, barriersOn, barriersOf, h0, h1, h2, h3, h4]
  all_goals
    cases newDiffuse <;> cases newConstants <;>
      simp [createCalls, createObjectCalls, barriersOn, barriersOf, protocolOK, actualState, Event.needs,
        Event.newState]

/-- The protocol facts hold after any number of frames. -/
theorem frames_run (cfg : EngineCfg) (t : Terrain) (hm nm ib : Handle)
    (hHM : t.m_HeightMap = some hm) (hNM : t.m_NormalMap = some nm)
    (hIB : t.m_IB = some ib) (hne : hm ≠ nm) (n : Nat) (e0 e : Engine) (L : List Event)
    (hlog : e.log = e0.log ++ L) (hP : Protocol hm nm L)
    (hH : e.state hm = RESOURCE_STATE.UNKNOWN) (hN : e.state nm = RESOURCE_STATE.UNKNOWN) :
    ∃ e1 L1, run cfg (frames n) t e = Result.ok t e1 ∧ e1.log = e0.log ++ L1
      ∧ Protocol hm nm L1
      ∧ L1.count Event.DispatchCompute = L.count Event.DispatchCompute + n
      ∧ L1.count Event.DrawIndexed = L.count Event.DrawIndexed + n := by
  induction n generalizing e L with
  | zero => exact ⟨e, L, by simp [frames, run], hlog, hP, rfl, rfl⟩
  | succ n ih =>
    obtain ⟨e1, F, hrun, hlog1, hH1, hN1, hokH, hokN, hstH, hstN, hF, hcD, hcR⟩ :=
      frame_run cfg t hm nm ib hHM hNM hIB e hH hN
    obtain ⟨e2, L2, hrun2, hlog2, hP2, hcD2, hcR2⟩ :=
      ih e1 (L ++ F) (by rw [hlog1, hlog, List.append_assoc])
        (hP.frame hne hokH hokN hstH hstN hF) hH1 hN1
    refine ⟨e2, L2, ?_, hlog2, hP2, ?_, ?_⟩
    · rw [frames, run_append cfg frame (frames n) t t e e1 hrun]
      exact hrun2
    · rw [hcD2, List.count_append, hcD]
      omega
    · rw [hcR2, List.count_append, hcR]
      omega

/-- C5: in every run `CreateResources` followed by `n` frames
`Update; BeforeDraw; Draw; AfterDraw` (with both pipelines present) all calls
return, and among the calls issued since the start of the run: at every
`DispatchCompute` the barrier-determined state of `m_HeightMap` and of
`m_NormalMap` is `UNORDERED_ACCESS`, at every `DrawIndexed` it is
`SHADER_RESOURCE`, and on every resource the old state named by each explicit
barrier equals the new state of the previous explicit barrier on that
resource.  The run contains exactly `n` dispatches and `n` draws. -/
theorem C5_frames_protocol (cfg : EngineCfg) (t : Terrain) (e : Engine) (g d : Handle)
    (hG : t.m_GenPSO = some g) (hD : t.m_DrawPSO = some d) (n : Nat) :
    ∃ t1 e1 e2, t.CreateResources cfg e = Result.ok t1 e1
      ∧ run cfg (frames n) t1 e1 = Result.ok t1 e2
      ∧ t1.m_HeightMap = some (e.nextHandle + 2) ∧ t1.m_NormalMap = some (e.nextHandle + 3)
      ∧ (∀ pre post, e.since e2 = pre ++ Event.DispatchCompute :: post →
          actualState (e.nextHandle + 2) none pre = some RESOURCE_STATE.UNORDERED_ACCESS
          ∧ actualState (e.nextHandle + 3) none pre = some RESOURCE_STATE.UNORDERED_ACCESS)
      ∧ (∀ pre post, e.since e2 = pre ++ Event.DrawIndexed :: post →
          actualState (e.nextHandle + 2) none pre = some RESOURCE_STATE.SHADER_RESOURCE
          ∧ actualState (e.nextHandle + 3) none pre = some RESOURCE_STATE.SHADER_RESOURCE)
      ∧ (∀ h, List.Chain' (fun a b => b.desc.OldState = a.desc.NewState)
          (barriersOn h (e.since e2)))
      ∧ (e.since e2).count Event.DispatchCompute = n
      ∧ (e.since e2).count Event.DrawIndexed = n := by
  obtain ⟨t1, e1, hok, _, _, hIB, hHM, hNM, _, _, hH, hN, _⟩ :=
    t.CreateResources_ok cfg e g d hG hD
  obtain ⟨t1', e1', hok', hlog⟩ := t.CreateResources_calls cfg e g d hG hD
  obtain ⟨rfl, rfl⟩ := Result.ok.inj (hok.symm.trans hok')
  have hne : e.nextHandle + 2 ≠ e.nextHandle + 3 := by simp
  obtain ⟨e2, L, hrun, hlog2, hP, hcD, hcR⟩ :=
    frames_run cfg t1 _ _ _ hHM hNM hIB hne n e e1 _ hlog
      (createCalls_protocol cfg e.nextHandle _ _ g d) hH hN
  have hc0 : (createCalls cfg e.nextHandle t.m_DiffuseMap.isNone
        t.m_TerrainConstants.isNone g d).count Event.DispatchCompute = 0
      ∧ (createCalls cfg e.nextHandle t.m_DiffuseMap.isNone
        t.m_TerrainConstants.isNone g d).count Event.DrawIndexed = 0 := by
    cases t.m_DiffuseMap.isNone <;> cases t.m_TerrainConstants.isNone <;>
      simp [createCalls, createObjectCalls, List.count_cons]
  refine ⟨t1, e1, e2, hok, hrun, hHM, hNM, ?_, ?_, ?_, ?_, ?_⟩
  · intro pre post hsplit
    rw [Engine.since_append e e2 L hlog2] at hsplit
    exact ⟨protocolOK_split _ none L pre post _ _ hP.okH hsplit rfl,
      protocolOK_split _ none L pre post _ _ hP.okN hsplit rfl⟩
  · intro pre post hsplit
    rw [Engine.since_append e e2 L hlog2] at hsplit
    exact ⟨protocolOK_split _ none L pre post _ _ hP.okH hsplit rfl,
      protocolOK_split _ none L pre post _ _ hP.okN hsplit rfl⟩
  · intro h
    rw [Engine.since_append e e2 L hlog2]
    exact hP.chain h
  · rw [Engine.since_append e e2 L hlog2, hcD, hc0.1, Nat.zero_add]
  · rw [Engine.since_append e e2 L hlog2, hcR, hc0.2, Nat.zero_add]

/-- Witness of C5: two frames after `CreateResources` on the initial terrain. -/
theorem C5_frames_protocol_witness :
    ∃ t1 e1 e2, Terrain.initial.CreateResources EngineCfg.sample Engine.initial = Result.ok t1 e1
      ∧ run EngineCfg.sample (frames 2) t1 e1 = Result.ok t1 e2
      ∧ (∀ h, List.Chain' (fun a b => b.desc.OldState = a.desc.NewState)
          (barriersOn h (Engine.initial.since e2))) := by
  obtain ⟨t1, e1, e2, h1, h2, _, _, _, _, h3, _⟩ :=
    C5_frames_protocol EngineCfg.sample Terrain.initial Engine.initial 1 2 rfl rfl 2
  exact ⟨t1, e1, e2, h1, h2, h3⟩

/-! ### Recreate -/

/-- Function `Terrain::Recreate` with both pipelines present: it is `CreateResources`
run on the terrain with the six handles dropped, after an `IdleGPU`, and
followed by `Flush` and `IdleGPU`. -/
theorem Terrain.Recreate_ok (cfg : EngineCfg) (t : Terrain) (e : Engine) (g d : Handle)
    (hG : t.m_GenPSO = some g) (hD : t.m_DrawPSO = some d) :
    ∃ t1 e1, t.dropHandles.CreateResources cfg (e.record Event.IdleGPU) = Result.ok t1 e1
      ∧ t.Recreate cfg e = Result.ok t1 ((e1.record Event.Flush).record Event.IdleGPU)
      ∧ e1.log = e.log ++ Event.IdleGPU :: createCalls cfg e.nextHandle t.m_DiffuseMap.isNone
          t.m_TerrainConstants.isNone g d := by
  obtain ⟨t1, e1, hok, hlog⟩ :=
    t.dropHandles.CreateResources_calls cfg (e.record Event.IdleGPU) g d hG hD
  refine ⟨t1, e1, hok, by simp only [Terrain.Recreate, hok], ?_⟩
  rw [hlog]
  simp [Terrain.dropHandles]

/-- C6: `Terrain::Recreate` (with both pipelines present) first sets `m_VB`,
`m_IB`, `m_HeightMap`, `m_NormalMap`, `m_GenSRB` and `m_DrawSRB` to null, and
`CreateResources` runs on that terrain; the first call that `Recreate` issues
is `IdleGPU`, so that every object-creation call of the new resources is
preceded by an `IdleGPU`. -/
theorem C6_Recreate_drops_then_idles (cfg : EngineCfg) (t : Terrain) (e : Engine)
    (g d : Handle) (hG : t.m_GenPSO = some g) (hD : t.m_DrawPSO = some d) :
    t.dropHandles.m_VB = none ∧ t.dropHandles.m_IB = none
      ∧ t.dropHandles.m_HeightMap = none ∧ t.dropHandles.m_NormalMap = none
      ∧ t.dropHandles.m_GenSRB = none ∧ t.dropHandles.m_DrawSRB = none
      ∧ ∃ t1 e1 e2,
          t.dropHandles.CreateResources cfg (e.record Event.IdleGPU) = Result.ok t1 e1
          ∧ t.Recreate cfg e = Result.ok t1 e2
          ∧ e2 = (e1.record Event.Flush).record Event.IdleGPU
          ∧ (e.since e2).take 2 =
              [ Event.IdleGPU,
                Event.CreateBuffer e.nextHandle BIND_FLAGS.BIND_VERTEX_BUFFER
                  USAGE.USAGE_IMMUTABLE true ]
          ∧ ∀ pre ev post, e.since e2 = pre ++ ev :: post → ev.isCreation = true →
              Event.IdleGPU ∈ pre := by
  refine ⟨rfl, rfl, rfl, rfl, rfl, rfl, ?_⟩
  obtain ⟨t1, e1, hok, hre, hlog⟩ := t.Recreate_ok cfg e g d hG hD
  have hsince : e.since ((e1.record Event.Flush).record Event.IdleGPU) =
      Event.IdleGPU :: (createCalls cfg e.nextHandle t.m_DiffuseMap.isNone
        t.m_TerrainConstants.isNone g d ++ [Event.Flush, Event.IdleGPU]) := by
    apply Engine.since_append
    simp [hlog]
  refine ⟨t1, e1, _, hok, hre, rfl, ?_, ?_⟩
  · rw [hsince]
    simp [createCalls, createObjectCalls]
  · intro pre ev post hsplit hev
    rw [hsince] at hsplit
    cases pre with
    | nil =>
      simp at hsplit
      rw [← hsplit.1] at hev
      simp [Event.isCreation] at hev
    | cons p ps =>
      simp at hsplit
      simp [← hsplit.1]

/-- Witness of C6 on `Terrain.sample`. -/
theorem C6_Recreate_drops_then_idles_witness :
    Terrain.sample.dropHandles.m_VB = none ∧ Terrain.sample.dropHandles.m_HeightMap = none
      ∧ ∃ t1 e2, Terrain.sample.Recreate EngineCfg.sample Engine.sample = Result.ok t1 e2
          ∧ (Engine.sample.since e2).take 2 =
              [ Event.IdleGPU,
                Event.CreateBuffer 9 BIND_FLAGS.BIND_VERTEX_BUFFER USAGE.USAGE_IMMUTABLE true ] := by
  obtain ⟨h1, _, h3, _, _, _, t1, _, e2, _, hre, _, htake, _⟩ :=
    C6_Recreate_drops_then_idles EngineCfg.sample Terrain.sample Engine.sample 1 2 rfl rfl
  exact ⟨h1, h3, t1, e2, hre, htake⟩

/-- C7, counterexample: on `Terrain.sample` the calls that `Terrain::Recreate`
issues are not free of `IdleGPU` / `Flush`: it issues `IdleGPU` twice and
`Flush` once. -/
theorem C7_Recreate_syncs_counterexample :
    ¬ (∀ ev ∈ Engine.sample.since
          (Terrain.sample.Recreate EngineCfg.sample Engine.sample).engine,
        ev.isSync = false)
      ∧ (Engine.sample.since
          (Terrain.sample.Recreate EngineCfg.sample Engine.sample).engine).count
            Event.IdleGPU = 2
      ∧ (Engine.sample.since
          (Terrain.sample.Recreate EngineCfg.sample Engine.sample).engine).count
            Event.Flush = 1 := by
  obtain ⟨t1, e1, _, hre, hlog⟩ :=
    Terrain.sample.Recreate_ok EngineCfg.sample Engine.sample 1 2 rfl rfl
  have hsince : Engine.sample.since
      (Terrain.sample.Recreate EngineCfg.sample Engine.sample).engine =
      Event.IdleGPU :: (createCalls EngineCfg.sample 9 false false 1 2
        ++ [Event.Flush, Event.IdleGPU]) := by
    apply Engine.since_append
    rw [hre]
    simp only [Result.engine, Engine.record_log, hlog]
    simp [Terrain.sample, Engine.sample]
  rw [hsince]
  refine ⟨fun h => ?_, ?_, ?_⟩
  · have := h Event.IdleGPU (by simp)
    simp [Event.isSync] at this
  · simp [createCalls, createObjectCalls, List.count_cons]
  · simp [createCalls, createObjectCalls, List.count_cons]

/-- C7, amended: `Terrain::Recreate` (with both pipelines present) performs the
device synchronization itself.  After the six handles are set to null it calls
`IdleGPU`, then `CreateResources` runs (none of whose calls is `IdleGPU` or
`Flush`), then it calls `Flush` and `IdleGPU` again. -/
theorem C7_Recreate_syncs_itself (cfg : EngineCfg) (t : Terrain) (e : Engine)
    (g d : Handle) (hG : t.m_GenPSO = some g) (hD : t.m_DrawPSO = some d) :
    ∃ t1 e1 e2,
      t.dropHandles.CreateResources cfg (e.record Event.IdleGPU) = Result.ok t1 e1
      ∧ t.Recreate cfg e = Result.ok t1 e2
      ∧ e.since e2 =
          Event.IdleGPU :: ((e.record Event.IdleGPU).since e1 ++ [Event.Flush, Event.IdleGPU])
      ∧ (∀ ev ∈ (e.record Event.IdleGPU).since e1, ev.isSync = false)
      ∧ (e.since e2).count Event.IdleGPU = 2 ∧ (e.since e2).count Event.Flush = 1 := by
  obtain ⟨t1, e1, hok, hre, hlog⟩ := t.Recreate_ok cfg e g d hG hD
  have h1 : (e.record Event.IdleGPU).since e1 =
      createCalls cfg e.nextHandle t.m_DiffuseMap.isNone t.m_TerrainConstants.isNone g d := by
    apply Engine.since_append
    simp [hlog]
  have h2 : e.since ((e1.record Event.Flush).record Event.IdleGPU) =
      Event.IdleGPU :: (createCalls cfg e.nextHandle t.m_DiffuseMap.isNone
        t.m_TerrainConstants.isNone g d ++ [Event.Flush, Event.IdleGPU]) := by
    apply Engine.since_append
    simp [hlog]
  refine ⟨t1, e1, _, hok, hre, by rw [h2, h1], ?_, ?_, ?_⟩
  · rw [h1]
    cases hDM : t.m_DiffuseMap.isNone <;> cases hTC : t.m_TerrainConstants.isNone <;>
      simp [createCalls, createObjectCalls, Event.isSync]
  · rw [h2]
    cases hDM : t.m_DiffuseMap.isNone <;> cases hTC : t.m_TerrainConstants.isNone <;>
      simp [createCalls, createObjectCalls, List.count_cons]
  · rw [h2]
    cases hDM : t.m_DiffuseMap.isNone <;> cases hTC : t.m_TerrainConstants.isNone <;>
      simp [createCalls, createObjectCalls, List.count_cons]

/-- Witness of the amended C7 on `Terrain.sample`. -/
theorem C7_Recreate_syncs_itself_witness :
    ∃ t1 e2, Terrain.sample.Recreate EngineCfg.sample Engine.sample = Result.ok t1 e2
      ∧ (Engine.sample.since e2).count Event.IdleGPU = 2
      ∧ (Engine.sample.since e2).count Event.Flush = 1 := by
  obtain ⟨t1, _, e2, _, hre, _, _, h2, h3⟩ :=
    C7_Recreate_syncs_itself EngineCfg.sample Terrain.sample Engine.sample 1 2 rfl rfl
  exact ⟨t1, e2, hre, h2, h3⟩

/-! ### Grouped requests -/

/-- C8, counterexample: among the grouped requests that
`Terrain::CreateResources` submits on the initial terrain there is one whose
barriers do not share the same (old state, new state) pair: the request for
the vertex and index buffer. -/
theorem C8_groups_counterexample :
    ¬ (∀ grp ∈ groupsOf (Engine.initial.since
          (Terrain.initial.CreateResources EngineCfg.sample Engine.initial).engine),
        sameTransition grp) := by
  obtain ⟨t1, e1, hok, hlog⟩ :=
    Terrain.initial.CreateResources_calls EngineCfg.sample Engine.initial 1 2 rfl rfl
  have hsince : Engine.initial.since
      (Terrain.initial.CreateResources EngineCfg.sample Engine.initial).engine =
      createCalls EngineCfg.sample 3 true true 1 2 := by
    apply Engine.since_append
    rw [hok]
    simp only [Result.engine, hlog]
    simp [Terrain.initial, Engine.initial]
  rw [hsince]
  intro h
  have h1 := h _ (by simp [createCalls, createObjectCalls, groupsOf]; exact Or.inl rfl)
  have h2 := h1 _ (List.mem_cons_self _ _) _ (List.mem_cons_of_mem _ (List.mem_cons_self _ _))
  simp at h2

/-- C8, amended: in every grouped request that `Terrain` submits, all barriers
name the same old state.  The requests of `BeforeDraw` and `AfterDraw`, and
all requests of `CreateResources` but the first, also share the new state; the
first request of `CreateResources` consists of `COPY_DEST -> VERTEX_BUFFER` for
the vertex buffer and `COPY_DEST -> INDEX_BUFFER` for the index buffer. -/
theorem C8_groups_share_old_state (cfg : EngineCfg) (t : Terrain) (e : Engine)
    (g d : Handle) (hG : t.m_GenPSO = some g) (hD : t.m_DrawPSO = some d) :
    (∃ t1 e1, t.CreateResources cfg e = Result.ok t1 e1
        ∧ (∀ grp ∈ groupsOf (e.since e1), sameOldState grp)
        ∧ (∀ grp ∈ (groupsOf (e.since e1)).tail, sameTransition grp)
        ∧ (groupsOf (e.since e1)).head?.map (List.map BarrierRecord.desc) =
            some
              [ { pResource := some e.nextHandle, OldState := RESOURCE_STATE.COPY_DEST,
                  NewState := RESOURCE_STATE.VERTEX_BUFFER, UpdateResourceState := some true },
                { pResource := some (e.nextHandle + 1), OldState := RESOURCE_STATE.COPY_DEST,
                  NewState := RESOURCE_STATE.INDEX_BUFFER,
                  UpdateResourceState := some true } ])
      ∧ (∀ grp ∈ groupsOf (e.since (t.BeforeDraw e).2), sameTransition grp)
      ∧ (∀ grp ∈ groupsOf (e.since (t.AfterDraw e).2), sameTransition grp) := by
  refine ⟨?_, ?_, ?_⟩
  · obtain ⟨t1, e1, hok, hlog⟩ := t.CreateResources_calls cfg e g d hG hD
    refine ⟨t1, e1, hok, ?_⟩
    rw [Engine.since_append e e1 _ hlog]
    cases t.m_DiffuseMap.isNone <;> cases t.m_TerrainConstants.isNone <;>
      simp [createCalls, createObjectCalls, groupsOf, sameOldState, sameTransition]
  · rw [Engine.since_append e _ _ (t.BeforeDraw_spec e).2.1]
    simp [groupsOf, sameTransition]
  · rw [Engine.since_append e _ _ (t.AfterDraw_spec e).2.1]
    simp [groupsOf, sameTransition]

/-- Witness of the amended C8 on the initial terrain. -/
theorem C8_groups_share_old_state_witness :
    ∃ t1 e1, Terrain.initial.CreateResources EngineCfg.sample Engine.initial = Result.ok t1 e1
      ∧ (∀ grp ∈ groupsOf (Engine.initial.since e1), sameOldState grp) := by
  obtain ⟨⟨t1, e1, hok, h, _⟩, _⟩ :=
    C8_groups_share_old_state EngineCfg.sample Terrain.initial Engine.initial 1 2 rfl rfl
  exact ⟨t1, e1, hok, h⟩

/-! ### Draw -/

/-- C9: after `Terrain::CreateResources` (both pipelines present, and the
terrain constants, if they exist already, being an existing object) and any
sequence of per-frame calls, `Terrain::Draw` returns and issues exactly nine
calls, none of which is a barrier: the shader resources, the vertex buffer and
the index buffer are bound with transition mode `NONE`.  At that point the
tracked state of `m_VB` is `VERTEX_BUFFER` and that of `m_IB` is
`INDEX_BUFFER`, as `CreateResources` left them, and `Draw` changes no tracked
state.  `m_VB` and `m_IB` are exactly the resources whose tracked state the
terrain has set: the only barriers with update flag `true` submitted up to the
draw are the two of `CreateResources` on them. -/
theorem C9_Draw_no_barriers (cfg : EngineCfg) (t : Terrain) (e : Engine) (g d : Handle)
    (hG : t.m_GenPSO = some g) (hD : t.m_DrawPSO = some d)
    (hTC : ∀ k, t.m_TerrainConstants = some k → k < e.nextHandle)
    (ops : List Op) (hops : ∀ op ∈ ops, op.isFrameOp = true) :
    ∃ t1 e1 e2 e3, t.CreateResources cfg e = Result.ok t1 e1
      ∧ run cfg ops t1 e1 = Result.ok t1 e2
      ∧ t1.Draw e2 = Result.ok t1 e3
      ∧ t1.m_VB = some e.nextHandle ∧ t1.m_IB = some (e.nextHandle + 1)
      ∧ e2.since e3 =
          [ Event.BeginDebugGroup, Event.MapBuffer t1.m_DrawConstants,
            Event.UnmapBuffer t1.m_DrawConstants, Event.SetPipelineState t1.m_DrawPSO,
            Event.CommitShaderResources t1.m_DrawSRB RESOURCE_STATE_TRANSITION_MODE.NONE,
            Event.SetVertexBuffers (some e.nextHandle) RESOURCE_STATE_TRANSITION_MODE.NONE,
            Event.SetIndexBuffer (some (e.nextHandle + 1)) RESOURCE_STATE_TRANSITION_MODE.NONE,
            Event.DrawIndexed, Event.EndDebugGroup ]
      ∧ (∀ ev ∈ e2.since e3, ev.isBarrier = false)
      ∧ e1.state e.nextHandle = RESOURCE_STATE.VERTEX_BUFFER
      ∧ e1.state (e.nextHandle + 1) = RESOURCE_STATE.INDEX_BUFFER
      ∧ e2.state e.nextHandle = RESOURCE_STATE.VERTEX_BUFFER
      ∧ e2.state (e.nextHandle + 1) = RESOURCE_STATE.INDEX_BUFFER
      ∧ e3.state = e2.state
      ∧ ((barriersOf (e.since e2)).filter
            (fun b => b.desc.UpdateResourceState = some true)).map BarrierRecord.desc =
          [ { pResource := some e.nextHandle, OldState := RESOURCE_STATE.COPY_DEST,
              NewState := RESOURCE_STATE.VERTEX_BUFFER, UpdateResourceState := some true },
            { pResource := some (e.nextHandle + 1), OldState := RESOURCE_STATE.COPY_DEST,
              NewState := RESOURCE_STATE.INDEX_BUFFER, UpdateResourceState := some true } ] := by
  obtain ⟨t1, e1, hok, _, hVB, hIB, hHM, _, hsVB, hsIB, _, _, _, _, hfresh⟩ :=
    t.CreateResources_ok cfg e g d hG hD
  obtain ⟨t1', e1', hok', hlog1⟩ := t.CreateResources_calls cfg e g d hG hD
  obtain ⟨rfl, rfl⟩ := Result.ok.inj (hok.symm.trans hok')
  obtain ⟨hf1, hf2⟩ := hfresh hTC
  obtain ⟨e2, F, hrun, hlog2, _, _, hflag, hoth⟩ :=
    frameOps_run cfg t1 _ _ hHM hIB ops hops e1
  obtain ⟨e3, hdraw, hlog3, _, hst3⟩ := t1.Draw_ok e2 _ hIB
  have hsince := Engine.since_append e2 e3 _ hlog3
  have hsince2 : e.since e2 = createCalls cfg e.nextHandle t.m_DiffuseMap.isNone
      t.m_TerrainConstants.isNone g d ++ F := by
    apply Engine.since_append
    rw [hlog2, hlog1, List.append_assoc]
  have hF : (barriersOf F).filter (fun b => b.desc.UpdateResourceState = some true) = [] := by
    rw [List.filter_eq_nil_iff]
    intro b hb
    simpa using hflag b hb
  refine ⟨t1, e1, e2, e3, hok, hrun, hdraw, hVB, hIB, ?_, ?_, hsVB, hsIB,
    by rw [hoth _ hf1, hsVB], by rw [hoth _ hf2, hsIB], hst3, ?_⟩
  · rw [hsince, hVB]
  · rw [hsince]
    simp [Event.isBarrier]
  · rw [hsince2, barriersOf_append, List.filter_append, hF, List.append_nil]
    cases t.m_DiffuseMap.isNone <;> cases t.m_TerrainConstants.isNone <;>
      simp [createCalls, createObjectCalls, barriersOf]

/-- Witness of C9: `Draw` after `CreateResources` and one frame on the initial
terrain. -/
theorem C9_Draw_no_barriers_witness :
    ∃ t1 e1 e2 e3, Terrain.initial.CreateResources EngineCfg.sample Engine.initial = Result.ok t1 e1
      ∧ run EngineCfg.sample frame t1 e1 = Result.ok t1 e2
      ∧ t1.Draw e2 = Result.ok t1 e3
      ∧ (∀ ev ∈ e2.since e3, ev.isBarrier = false)
      ∧ e2.state 3 = RESOURCE_STATE.VERTEX_BUFFER
      ∧ e2.state 4 = RESOURCE_STATE.INDEX_BUFFER := by
  obtain ⟨t1, e1, e2, e3, h1, h2, h3, _, _, _, h4, _, _, h5, h6, _, _⟩ :=
    C9_Draw_no_barriers EngineCfg.sample Terrain.initial Engine.initial 1 2 rfl rfl
      (by simp [Terrain.initial]) frame (by decide)
  exact ⟨t1, e1, e2, e3, h1, h2, h3, h4, h5, h6⟩

/-! ### Old states of explicit barriers -/

/-- The log of `Terrain::CreateResources` in every case, also when a pipeline
is null and the call does not return: the object-creation calls, followed by
the bindings created before the null pointer is reached. -/
theorem Terrain.CreateResources_log (cfg : EngineCfg) (t : Terrain) (e : Engine) :
    ∃ Y, (t.CreateResources cfg e).engine.log =
        e.log ++ (createObjectCalls cfg e.nextHandle t.m_DiffuseMap.isNone
          t.m_TerrainConstants.isNone ++ Y)
      ∧ barriersOf Y = [] := by
  refine ⟨match t.m_GenPSO, t.m_DrawPSO with
    | none, _ => []
    | some g, none => [Event.CreateShaderResourceBinding g]
    | some g, some d =>
      [Event.CreateShaderResourceBinding g, Event.CreateShaderResourceBinding d], ?_, ?_⟩
  · cases hDM : t.m_DiffuseMap <;> cases hTC : t.m_TerrainConstants <;>
      cases hG : t.m_GenPSO <;> cases hD : t.m_DrawPSO <;>
      simp [Terrain.CreateResources, Terrain.createBuffers, Terrain.createMaps,
        Terrain.createDiffuseMap, Terrain.createConstants, Terrain.createGenSRB,
        Terrain.createDrawSRB, Engine.create, Result.engine, hG, hD, hDM, hTC,
        Engine.TransitionResourceStates, Engine.submit, Engine.applyBarrier,
        Engine.SetState, Engine.setTracked, createObjectCalls, Nat.add_assoc]
  · cases t.m_GenPSO <;> cases t.m_DrawPSO <;> simp [barriersOf]

theorem createObjectCalls_explicitOld (cfg : EngineCfg)
    (hcfg : cfg.texture ≠ RESOURCE_STATE.UNKNOWN) (n : Handle) (newDiffuse newConstants : Bool) :
    ∀ b ∈ barriersOf (createObjectCalls cfg n newDiffuse newConstants), b.explicitOld := by
  cases newDiffuse <;> cases newConstants <;>
    simp [createObjectCalls, barriersOf, BarrierRecord.explicitOld, hcfg]

/-- Every call of a member function, returning or not, extends the log by
calls whose explicit barriers name an old state other than `UNKNOWN` whenever
the tracked state is `UNKNOWN`. -/
theorem step_explicitOld (cfg : EngineCfg) (hcfg : cfg.texture ≠ RESOURCE_STATE.UNKNOWN)
    (op : Op) (t : Terrain) (e : Engine) :
    ∃ F, (step cfg op t e).engine.log = e.log ++ F ∧ ∀ b ∈ barriersOf F, b.explicitOld := by
  cases op with
  | CreateResources =>
    obtain ⟨Y, hlog, hY⟩ := t.CreateResources_log cfg e
    refine ⟨_, hlog, ?_⟩
    rw [barriersOf_append, hY, List.append_nil]
    exact createObjectCalls_explicitOld cfg hcfg _ _ _
  | Recreate =>
    obtain ⟨Y, hlog, hY⟩ := t.dropHandles.CreateResources_log cfg (e.record Event.IdleGPU)
    have hbar : ∀ Z, barriersOf Z = [] → ∀ b ∈ barriersOf (Event.IdleGPU ::
        (createObjectCalls cfg e.nextHandle t.m_DiffuseMap.isNone
          t.m_TerrainConstants.isNone ++ Y) ++ Z), b.explicitOld := by
      intro Z hZ
      have hcons : ∀ l, barriersOf (Event.IdleGPU :: l) = barriersOf l := fun _ => rfl
      rw [barriersOf_append, hZ, List.append_nil, hcons, barriersOf_append, hY,
        List.append_nil]
      exact createObjectCalls_explicitOld cfg hcfg _ _ _
    cases hcr : t.dropHandles.CreateResources cfg (e.record Event.IdleGPU) with
    | crash e2 =>
      refine ⟨_, ?_, hbar [] (by simp [barriersOf])⟩
      rw [hcr] at hlog
      simp only [step, Terrain.Recreate, hcr, Result.engine] at hlog ⊢
      rw [hlog]
      simp [Terrain.dropHandles]
    | ok t2 e2 =>
      refine ⟨_, ?_, hbar [Event.Flush, Event.IdleGPU] (by simp [barriersOf])⟩
      rw [hcr] at hlog
      simp only [step, Terrain.Recreate, hcr, Result.engine] at hlog ⊢
      simp [hlog, Terrain.dropHandles]
  | Update =>
    cases hHM : t.m_HeightMap with
    | none =>
      exact ⟨[Event.BeginDebugGroup], by simp [step, Terrain.Update, hHM, Result.engine],
        by simp [barriersOf]⟩
    | some hm =>
      obtain ⟨e1, A, B, hok, hlog, hA, hB, _⟩ := t.Update_ok e hm hHM
      refine ⟨_, by simpa [step, hok, Result.engine] using hlog, ?_⟩
      simp [barriersOf_append, barriersOf_autoOnly hA, barriersOf_autoOnly hB, barriersOf]
  | BeforeDraw =>
    refine ⟨_, by simpa [step, Result.engine] using (t.BeforeDraw_spec e).2.1, ?_⟩
    simp [barriersOf, BarrierRecord.explicitOld]
  | Draw =>
    cases hIB : t.m_IB with
    | none =>
      refine ⟨[Event.BeginDebugGroup, Event.MapBuffer t.m_DrawConstants,
          Event.UnmapBuffer t.m_DrawConstants, Event.SetPipelineState t.m_DrawPSO,
          Event.CommitShaderResources t.m_DrawSRB RESOURCE_STATE_TRANSITION_MODE.NONE,
          Event.SetVertexBuffers t.m_VB RESOURCE_STATE_TRANSITION_MODE.NONE,
          Event.SetIndexBuffer none RESOURCE_STATE_TRANSITION_MODE.NONE], ?_, ?_⟩
      · simp [step, Terrain.Draw, hIB, Result.engine, Engine.CommitShaderResources,
          Engine.SetVertexBuffers, Engine.SetIndexBuffer]
      · simp [barriersOf]
    | some ib =>
      obtain ⟨e1, hok, hlog, _⟩ := t.Draw_ok e ib hIB
      refine ⟨_, by simpa [step, hok, Result.engine] using hlog, ?_⟩
      simp [barriersOf]
  | AfterDraw =>
    refine ⟨_, by simpa [step, Result.engine] using (t.AfterDraw_spec e).2.1, ?_⟩
    simp [barriersOf, BarrierRecord.explicitOld]

/-- The conclusion of `step_explicitOld` for a whole run. -/
theorem run_explicitOld (cfg : EngineCfg) (hcfg : cfg.texture ≠ RESOURCE_STATE.UNKNOWN)
    (ops : List Op) (t : Terrain) (e : Engine) :
    ∃ F, (run cfg ops t e).engine.log = e.log ++ F ∧ ∀ b ∈ barriersOf F, b.explicitOld := by
  induction ops generalizing t e with
  | nil => exact ⟨[], by simp [run, Result.engine], by simp [barriersOf]⟩
  | cons op ops ih =>
    obtain ⟨F, hlog, hF⟩ := step_explicitOld cfg hcfg op t e
    cases hs : step cfg op t e with
    | crash e1 =>
      rw [hs] at hlog
      exact ⟨F, by simpa [run, hs] using hlog, hF⟩
    | ok t1 e1 =>
      rw [hs] at hlog
      simp only [Result.engine] at hlog
      obtain ⟨G, hlog2, hG⟩ := ih t1 e1
      refine ⟨F ++ G, by simp [run, hs, hlog2, hlog], ?_⟩
      intro b hb
      rw [barriersOf_append] at hb
      rcases List.mem_append.mp hb with h | h
      · exact hF b h
      · exact hG b h

/-- C10: for an engine that creates textures with a tracked state other than
`UNKNOWN`, in every sequence of calls of `CreateResources`, `Update`,
`BeforeDraw`, `Draw`, `AfterDraw` and `Recreate` from every state, every
explicit barrier submitted while the tracked state of its resource is `UNKNOWN`
names an old state different from `RESOURCE_STATE_UNKNOWN`.  The two barriers
of `CreateResources` that name `RESOURCE_STATE_UNKNOWN` are submitted before
`SetState(RESOURCE_STATE_UNKNOWN)`, on textures that still have their creation
state. -/
theorem C10_unknown_has_explicit_old (cfg : EngineCfg)
    (hcfg : cfg.texture ≠ RESOURCE_STATE.UNKNOWN) (ops : List Op) (t : Terrain) (e : Engine) :
    ∀ b ∈ barriersOf (e.since (run cfg ops t e).engine),
      b.tracked = some RESOURCE_STATE.UNKNOWN → b.desc.OldState ≠ RESOURCE_STATE.UNKNOWN := by
  obtain ⟨F, hlog, hF⟩ := run_explicitOld cfg hcfg ops t e
  rw [Engine.since_append e _ F hlog]
  exact hF

/-- Witness of C10: the barrier that `BeforeDraw` submits on the height map
(object 5) after `CreateResources` and `Update` on the initial terrain is
submitted while the tracked state is `UNKNOWN`, and names `UNORDERED_ACCESS`. -/
theorem C10_unknown_has_explicit_old_witness :
    BarrierRecord.sample ∈
        barriersOf (Engine.initial.since
          (run EngineCfg.sample [Op.CreateResources, Op.Update, Op.BeforeDraw]
            Terrain.initial Engine.initial).engine)
      ∧ BarrierRecord.sample.desc.OldState ≠ RESOURCE_STATE.UNKNOWN := by
  have hmem : BarrierRecord.sample ∈
      barriersOf (Engine.initial.since
        (run EngineCfg.sample [Op.CreateResources, Op.Update, Op.BeforeDraw]
          Terrain.initial Engine.initial).engine) := by decide
  exact ⟨hmem, C10_unknown_has_explicit_old EngineCfg.sample (by decide)
    [Op.CreateResources, Op.Update, Op.BeforeDraw] Terrain.initial Engine.initial _ hmem rfl⟩

/-! ### Terrain arithmetic: grid size, group size, vertex and index loops -/

/-! ### Terrain: vertex and index generation -/

/-- A fill that started at index 0 and has written positions `0 .. n-1`, each
once and in this order. -/
theorem Fill.push_seq {α : Type} (f : Fill α) (x : α) (n : Nat)
    (hn : f.next = n) (hw : f.writes.map Prod.fst = List.range n) (hlt : n + 1 < UINT32_RANGE) :
    (f.push x).next = n + 1 ∧ (f.push x).writes.map Prod.fst = List.range (n + 1) := by
  constructor
  · simp [Fill.push, hn, Nat.mod_eq_of_lt hlt]
  · simp [Fill.push, hw, hn, List.range_succ]

/-- A loop whose body appends `k` consecutive writes appends `k * length`
consecutive writes. -/
theorem Fill.foldl_seq {α β : Type} (step : Fill α → β → Fill α) (k : Nat) (bound : Nat)
    (hstep : ∀ f b n, f.next = n → f.writes.map Prod.fst = List.range n → n + k ≤ bound →
      (step f b).next = n + k ∧ (step f b).writes.map Prod.fst = List.range (n + k))
    (l : List β) (f : Fill α) (n : Nat)
    (hn : f.next = n) (hw : f.writes.map Prod.fst = List.range n)
    (hb : n + k * l.length ≤ bound) :
    (l.foldl step f).next = n + k * l.length
      ∧ (l.foldl step f).writes.map Prod.fst = List.range (n + k * l.length) := by
  induction l generalizing f n with
  | nil => simpa using ⟨hn, hw⟩
  | cons b bs ih =>
    have hlen : (b :: bs).length = bs.length + 1 := rfl
    rw [hlen, Nat.mul_succ] at hb
    obtain ⟨h1, h2⟩ := hstep f b n hn hw (by omega)
    have := ih (step f b) (n + k) h1 h2 (by omega)
    rw [hlen, Nat.mul_succ]
    simpa [List.foldl, Nat.add_assoc, Nat.add_comm k] using this

theorem Terrain.pushCell_seq (GridSize : Nat) (f : Fill Nat) (x y n : Nat)
    (hn : f.next = n) (hw : f.writes.map Prod.fst = List.range n)
    (hlt : n + 6 < UINT32_RANGE) :
    (Terrain.pushCell GridSize f x y).next = n + 6
      ∧ (Terrain.pushCell GridSize f x y).writes.map Prod.fst = List.range (n + 6) := by
  obtain ⟨a1, b1⟩ := Fill.push_seq f (((x - 1) + y * GridSize) % UINT32_RANGE) n hn hw (by omega)
  obtain ⟨a2, b2⟩ := Fill.push_seq _ ((x + (y - 1) * GridSize) % UINT32_RANGE) _ a1 b1 (by omega)
  obtain ⟨a3, b3⟩ :=
    Fill.push_seq _ (((x - 1) + (y - 1) * GridSize) % UINT32_RANGE) _ a2 b2 (by omega)
  obtain ⟨a4, b4⟩ := Fill.push_seq _ (((x - 1) + y * GridSize) % UINT32_RANGE) _ a3 b3 (by omega)
  obtain ⟨a5, b5⟩ := Fill.push_seq _ ((x + y * GridSize) % UINT32_RANGE) _ a4 b4 (by omega)
  exact Fill.push_seq _ ((x + (y - 1) * GridSize) % UINT32_RANGE) _ a5 b5 (by omega)

/-- The vertex loops write positions `0 .. GridSize * GridSize - 1` in order. -/
theorem Terrain.fillVertices_seq (GridSize : Nat) (hv : GridSize * GridSize < UINT32_RANGE) :
    (Terrain.fillVertices GridSize).next = GridSize * GridSize
      ∧ (Terrain.fillVertices GridSize).writes.map Prod.fst =
          List.range (GridSize * GridSize) := by
  have h := Fill.foldl_seq (α := Nat × Nat)
    (fun f y => (List.range GridSize).foldl (fun f x => f.push (x, y)) f)
    GridSize (GridSize * GridSize)
    (fun f y n hn hw hb => by
      have := Fill.foldl_seq (α := Nat × Nat) (fun f x => f.push (x, y)) 1
        (GridSize * GridSize)
        (fun f x n hn hw hb => Fill.push_seq f (x, y) n hn hw (by omega))
        (List.range GridSize) f n hn hw (by simpa using hb)
      simpa using this)
    (List.range GridSize) { next := 0, writes := [] } 0 rfl rfl (by simp)
  simpa [Terrain.fillVertices] using h

/-- The index loops write positions `0 .. 6 (GridSize - 1)^2 - 1` in order. -/
theorem Terrain.fillIndices_seq (GridSize : Nat)
    (hi : 6 * (GridSize - 1) * (GridSize - 1) < UINT32_RANGE) :
    (Terrain.fillIndices GridSize).next = 6 * (GridSize - 1) * (GridSize - 1)
      ∧ (Terrain.fillIndices GridSize).writes.map Prod.fst =
          List.range (6 * (GridSize - 1) * (GridSize - 1)) := by
  have h := Fill.foldl_seq (α := Nat)
    (fun f y => (List.range' 1 (GridSize - 1)).foldl
      (fun f x => Terrain.pushCell GridSize f x y) f)
    (6 * (GridSize - 1)) (6 * (GridSize - 1) * (GridSize - 1))
    (fun f y n hn hw hb => by
      have := Fill.foldl_seq (α := Nat) (fun f x => Terrain.pushCell GridSize f x y) 6
        (6 * (GridSize - 1) * (GridSize - 1))
        (fun f x n hn hw hb => Terrain.pushCell_seq GridSize f x y n hn hw (by omega))
        (List.range' 1 (GridSize - 1)) f n hn hw (by simpa using hb)
      simpa using this)
    (List.range' 1 (GridSize - 1)) { next := 0, writes := [] } 0 rfl rfl (by simp)
  simpa [Terrain.fillIndices] using h

/-- C13: for every `GridSize >= 1` whose vertex and index counts fit in 32
bits, the vertex loops of `Terrain::CreateResources` write the positions
`0 .. GridSize * GridSize - 1` of `Vertices`, each exactly once, and the index
loops write the positions `0 .. 6 (GridSize - 1)^2 - 1` of `Indices`, each
exactly once; the final counters equal the sizes of the vectors (both
`VERIFY_EXPR` hold) and every write is inside its vector. -/
theorem C13_vertex_index_loops (GridSize : Nat) (h1 : 1 ≤ GridSize)
    (hv : GridSize * GridSize < 2 ^ 32)
    (hi : 6 * (GridSize - 1) * (GridSize - 1) < 2 ^ 32) :
    (Terrain.fillVertices GridSize).writes.map Prod.fst = List.range (GridSize * GridSize)
      ∧ (Terrain.fillVertices GridSize).next = GridSize * GridSize
      ∧ Terrain.verticesSize GridSize = GridSize * GridSize
      ∧ (Terrain.fillIndices GridSize).writes.map Prod.fst =
          List.range (6 * (GridSize - 1) * (GridSize - 1))
      ∧ (Terrain.fillIndices GridSize).next = 6 * (GridSize - 1) * (GridSize - 1)
      ∧ Terrain.indicesSize GridSize = 6 * (GridSize - 1) * (GridSize - 1)
      ∧ Terrain.fillAssertions GridSize = true
      ∧ (∀ w ∈ (Terrain.fillVertices GridSize).writes, w.1 < Terrain.verticesSize GridSize)
      ∧ (∀ w ∈ (Terrain.fillIndices GridSize).writes, w.1 < Terrain.indicesSize GridSize) := by
  obtain ⟨hvn, hvw⟩ := Terrain.fillVertices_seq GridSize hv
  obtain ⟨hin, hiw⟩ := Terrain.fillIndices_seq GridSize hi
  have hvs : Terrain.verticesSize GridSize = GridSize * GridSize := by
    simp only [Terrain.verticesSize, UINT32_RANGE]
    exact Nat.mod_eq_of_lt hv
  have hG : GridSize < 2 ^ 32 := by nlinarith
  have his : Terrain.indicesSize GridSize = 6 * (GridSize - 1) * (GridSize - 1) := by
    have e1 : (GridSize + 2 ^ 32 - 1) % 2 ^ 32 = GridSize - 1 := by omega
    have e2 : (GridSize - 1) * (GridSize - 1) < 2 ^ 32 := by nlinarith
    simp only [Terrain.indicesSize, UINT32_RANGE, e1, Nat.mod_eq_of_lt e2]
    rw [Nat.mod_eq_of_lt] <;> nlinarith
  refine ⟨hvw, hvn, hvs, hiw, hin, his, ?_, ?_, ?_⟩
  · simp [Terrain.fillAssertions, hvn, hvs, hin, his]
  · intro w hw
    have : w.1 ∈ (Terrain.fillVertices GridSize).writes.map Prod.fst :=
      List.mem_map_of_mem _ hw
    rw [hvw] at this
    rw [hvs]
    exact List.mem_range.mp this
  · intro w hw
    have : w.1 ∈ (Terrain.fillIndices GridSize).writes.map Prod.fst :=
      List.mem_map_of_mem _ hw
    rw [hiw] at this
    rw [his]
    exact List.mem_range.mp this

/-- Witness of C13 for a grid of 3 by 3 vertices. -/
theorem C13_vertex_index_loops_witness :
    (Terrain.fillVertices 3).next = 9 ∧ (Terrain.fillIndices 3).next = 24
      ∧ Terrain.fillAssertions 3 = true := by
  obtain ⟨_, h2, _, _, h5, _, h7, _⟩ :=
    C13_vertex_index_loops 3 (by decide) (by decide) (by decide)
  exact ⟨h2, h5, h7⟩

/-- Without wrap-around the grid size is the largest multiple of the group
size that is at most `2 ^ TerrainSize`. -/
theorem Terrain.GridSize_eq (TerrainSize g : Nat) (hT : TerrainSize < 32) :
    Terrain.GridSize TerrainSize g = 2 ^ TerrainSize / g * g := by
  have hp : 2 ^ TerrainSize < 2 ^ 32 := Nat.pow_lt_pow_right (by decide) hT
  have hle : 2 ^ TerrainSize / g * g ≤ 2 ^ TerrainSize := Nat.div_mul_le_self _ _
  simp only [Terrain.GridSize, UINT32_RANGE]
  rw [Nat.mod_eq_of_lt hp, Nat.mod_eq_of_lt (by omega)]

/-- C14: for every `TerrainSize < 32` and every group size `g >= 1` the grid
size computed in `Terrain::CreateResources` is a multiple of `g` with
`2 ^ TerrainSize - g < GridSize <= 2 ^ TerrainSize`, it is at least 2 when
`g <= 2 ^ TerrainSize` and `TerrainSize >= 1`, and for the height map of
`GridSize x GridSize` texels both assertions of `Terrain::Update` hold. -/
theorem C14_GridSize_multiple (TerrainSize g : Nat) (hT : TerrainSize < 32) (hg : 1 ≤ g) :
    g ∣ Terrain.GridSize TerrainSize g
      ∧ (2 ^ TerrainSize : Int) - g < Terrain.GridSize TerrainSize g
      ∧ Terrain.GridSize TerrainSize g ≤ 2 ^ TerrainSize
      ∧ (g ≤ 2 ^ TerrainSize → 1 ≤ TerrainSize → 2 ≤ Terrain.GridSize TerrainSize g)
      ∧ (Terrain.dispatchAttrs (Terrain.heightMapDesc TerrainSize g) g).ThreadGroupCountX * g
          % UINT32_RANGE = (Terrain.heightMapDesc TerrainSize g).Width
      ∧ (Terrain.dispatchAttrs (Terrain.heightMapDesc TerrainSize g) g).ThreadGroupCountY * g
          % UINT32_RANGE = (Terrain.heightMapDesc TerrainSize g).Height
      ∧ Terrain.updateAssertions (Terrain.heightMapDesc TerrainSize g) g = true := by
  have hG := Terrain.GridSize_eq TerrainSize g hT
  have hp : 2 ^ TerrainSize < 2 ^ 32 := Nat.pow_lt_pow_right (by decide) hT
  have hle : 2 ^ TerrainSize / g * g ≤ 2 ^ TerrainSize := Nat.div_mul_le_self _ _
  have hdm := Nat.div_add_mod (2 ^ TerrainSize) g
  have hmod : 2 ^ TerrainSize % g < g := Nat.mod_lt _ (by omega)
  have hdiv : 2 ^ TerrainSize / g * g / g = 2 ^ TerrainSize / g :=
    Nat.mul_div_cancel _ (by omega)
  have hcount : 2 ^ TerrainSize / g * g / g * g % UINT32_RANGE = 2 ^ TerrainSize / g * g := by
    rw [hdiv]
    exact Nat.mod_eq_of_lt (by simp only [UINT32_RANGE]; omega)
  refine ⟨?_, ?_, ?_, ?_, ?_, ?_, ?_⟩
  · rw [hG]
    exact Dvd.intro_left _ rfl
  · rw [hG]
    have : 2 ^ TerrainSize < 2 ^ TerrainSize / g * g + g := by
      have h2 : g * (2 ^ TerrainSize / g) = 2 ^ TerrainSize / g * g := Nat.mul_comm _ _
      omega
    have hc : ((2 ^ TerrainSize : Nat) : Int) < ((2 ^ TerrainSize / g * g + g : Nat) : Int) :=
      Int.ofNat_lt.mpr this
    push_cast at hc ⊢
    linarith
  · rw [hG]
    exact hle
  · intro hgle hT1
    rw [hG]
    have h1 : 1 ≤ 2 ^ TerrainSize / g := (Nat.one_le_div_iff (by omega)).mpr hgle
    have h2 : 2 ≤ 2 ^ TerrainSize := by
      calc 2 = 2 ^ 1 := rfl
        _ ≤ 2 ^ TerrainSize := Nat.pow_le_pow_right (by decide) hT1
    rcases Nat.lt_or_ge g 2 with hlt | hge
    · have hg1 : g = 1 := by omega
      subst hg1
      simpa using h2
    · calc 2 ≤ g := hge
        _ = 1 * g := (Nat.one_mul g).symm
        _ ≤ 2 ^ TerrainSize / g * g := Nat.mul_le_mul_right g h1
  · simp only [Terrain.dispatchAttrs, Terrain.heightMapDesc, hG]
    exact hcount
  · simp only [Terrain.dispatchAttrs, Terrain.heightMapDesc, hG]
    exact hcount
  · simp only [Terrain.updateAssertions, Terrain.dispatchAttrs, Terrain.heightMapDesc, hG,
      hcount, decide_True, Bool.and_self]

/-- Witness of C14 for `TerrainSize = 10` and a compute group of 30 threads
per side: the grid has 1020 vertices per side. -/
theorem C14_GridSize_multiple_witness :
    Terrain.GridSize 10 30 = 1020 ∧ 30 ∣ Terrain.GridSize 10 30
      ∧ Terrain.updateAssertions (Terrain.heightMapDesc 10 30) 30 = true :=
  ⟨by decide, (C14_GridSize_multiple 10 30 (by decide) (by decide)).1,
    (C14_GridSize_multiple 10 30 (by decide) (by decide)).2.2.2.2.2.2⟩

/-- The rounded square root `k` of `M >= 1` is positive and satisfies
`(2 k - 1)^2 <= 4 M < (2 k + 1)^2`. -/
theorem Terrain.GroupSize_bounds (M : Nat) (hM : 1 ≤ M) :
    0 < Terrain.GroupSize M
      ∧ (2 * Terrain.GroupSize M - 1) * (2 * Terrain.GroupSize M - 1) ≤ 4 * (M : Int)
      ∧ 4 * (M : Int) < (2 * Terrain.GroupSize M + 1) * (2 * Terrain.GroupSize M + 1) := by
  have hs1 : Nat.sqrt (4 * M) * Nat.sqrt (4 * M) ≤ 4 * M := Nat.sqrt_le (4 * M)
  have hs2 : 4 * M < (Nat.sqrt (4 * M) + 1) * (Nat.sqrt (4 * M) + 1) := Nat.lt_succ_sqrt (4 * M)
  have hs0 : 1 ≤ Nat.sqrt (4 * M) := Nat.le_sqrt.mpr (by omega)
  obtain ⟨k, hk⟩ : ∃ k : Nat, k = (Nat.sqrt (4 * M) + 1) / 2 := ⟨_, rfl⟩
  obtain ⟨s, hs⟩ : ∃ s : Nat, s = Nat.sqrt (4 * M) := ⟨_, rfl⟩
  rw [← hs] at hs1 hs2 hs0
  rw [← hs] at hk
  have hG : Terrain.GroupSize M = (k : Int) := by
    simp only [Terrain.GroupSize, ← hs, ← hk]
  have hk1 : 2 * k ≤ s + 1 := by omega
  have hk2 : s ≤ 2 * k := by omega
  have hk0 : 1 ≤ k := by omega
  have c1 : ((s * s : Nat) : Int) ≤ ((4 * M : Nat) : Int) := Int.ofNat_le.mpr hs1
  have c2 : ((4 * M : Nat) : Int) < (((s + 1) * (s + 1) : Nat) : Int) := Int.ofNat_lt.mpr hs2
  have c3 : ((2 * k : Nat) : Int) ≤ ((s + 1 : Nat) : Int) := Int.ofNat_le.mpr hk1
  have c4 : ((s : Nat) : Int) ≤ ((2 * k : Nat) : Int) := Int.ofNat_le.mpr hk2
  have c5 : ((1 : Nat) : Int) ≤ (k : Int) := Int.ofNat_le.mpr hk0
  push_cast at c1 c2 c3 c4 c5
  rw [hG]
  refine ⟨by linarith, ?_, ?_⟩
  · nlinarith
  · nlinarith

/-- C15: for every `MaxThreadGroupInvocations = M >= 1` and every border size
`b` with `1 <= b <= GroupSize`, where `GroupSize` is `sqrt M + 0.5` rounded
down in exact arithmetic, both assertions of `Terrain::CreatePSO` hold
(`GroupSize > 0` and `m_ComputeGroupSize * m_ComputeGroupSize <= M` for
`m_ComputeGroupSize = GroupSize - b`), and the `GROUP_SIZE_WITH_BORDER` value
passed to the shader equals `m_ComputeGroupSize + b`. -/
theorem C15_CreatePSO_assertions (M : Nat) (b : Int) (hM : 1 ≤ M) (hb1 : 1 ≤ b)
    (hb2 : b ≤ Terrain.GroupSize M) :
    (Terrain.GroupSize M : ℝ) = ⌊Real.sqrt M + 1 / 2⌋
      ∧ Terrain.GroupSize M > 0
      ∧ 0 ≤ Terrain.ComputeGroupSize M b
      ∧ Terrain.ComputeGroupSize M b * Terrain.ComputeGroupSize M b ≤ M
      ∧ Terrain.createPSOAssertions M b = true
      ∧ Terrain.GROUP_SIZE_WITH_BORDER M = Terrain.ComputeGroupSize M b + b := by
  obtain ⟨h0, h1, h2⟩ := Terrain.GroupSize_bounds M hM
  have hsq : Terrain.ComputeGroupSize M b * Terrain.ComputeGroupSize M b ≤ M := by
    simp only [Terrain.ComputeGroupSize]
    nlinarith
  refine ⟨?_, h0, ?_, hsq, ?_, ?_⟩
  · have hfl : ⌊Real.sqrt M + 1 / 2⌋ = Terrain.GroupSize M := by
      rw [Int.floor_eq_iff]
      have hMr : (0 : ℝ) ≤ (M : ℝ) := Nat.cast_nonneg M
      have hsq0 : 0 ≤ Real.sqrt M := Real.sqrt_nonneg _
      have hsqq : Real.sqrt M * Real.sqrt M = M := Real.mul_self_sqrt hMr
      have r0 : (0 : ℝ) < (Terrain.GroupSize M : ℝ) := by exact_mod_cast h0
      have r1 : (2 * (Terrain.GroupSize M : ℝ) - 1) * (2 * (Terrain.GroupSize M : ℝ) - 1)
          ≤ 4 * (M : ℝ) := by exact_mod_cast h1
      have r2 : 4 * (M : ℝ)
          < (2 * (Terrain.GroupSize M : ℝ) + 1) * (2 * (Terrain.GroupSize M : ℝ) + 1) := by
        exact_mod_cast h2
      have r3 : (1 : ℝ) ≤ (Terrain.GroupSize M : ℝ) := by exact_mod_cast h0
      constructor
      · by_contra hlt
        push_neg at hlt
        nlinarith
      · by_contra hge
        push_neg at hge
        nlinarith
    rw [hfl]
  · simp only [Terrain.ComputeGroupSize]
    linarith
  · simp only [Terrain.createPSOAssertions, Bool.and_eq_true, decide_eq_true_eq]
    exact ⟨h0, hsq⟩
  · simp only [Terrain.GROUP_SIZE_WITH_BORDER, Terrain.ComputeGroupSize]
    ring

/-- The group size for 1024 invocations is 32. -/
theorem Terrain.GroupSize_1024 : Terrain.GroupSize 1024 = 32 := by
  have h : Nat.sqrt (4 * 1024) = 64 := Nat.sqrt_eq 64
  simp only [Terrain.GroupSize, h]
  rfl

/-- Witness of C15 for `M = 1024` and a border of one texel: the group is
32 threads per side and the compute group 31. -/
theorem C15_CreatePSO_assertions_witness :
    Terrain.GroupSize 1024 = 32 ∧ Terrain.ComputeGroupSize 1024 1 = 31
      ∧ Terrain.createPSOAssertions 1024 1 = true :=
  ⟨Terrain.GroupSize_1024, by simp [Terrain.ComputeGroupSize, Terrain.GroupSize_1024],
    (C15_CreatePSO_assertions 1024 1 (by decide) (by decide)
      (by simp [Terrain.GroupSize_1024])).2.2.2.2.1⟩

/-! ### Tutorial11: the strip pattern generator -/

/-- A fold of stores whose values agree wherever two offsets coincide leaves
at each written offset the value written there and every other byte as it was. -/
theorem Tutorial11_ResourceUpdates.foldl_store {β : Type} (off val : β → Nat) (l : List β)
    (m : Tutorial11_ResourceUpdates.Bytes)
    (hcons : ∀ x ∈ l, ∀ y ∈ l, off x = off y → val x = val y) (a : Nat) :
    (∀ x ∈ l, off x = a →
        l.foldl (fun m x => Tutorial11_ResourceUpdates.store m (off x) (val x)) m a = val x)
      ∧ ((∀ x ∈ l, off x ≠ a) →
        l.foldl (fun m x => Tutorial11_ResourceUpdates.store m (off x) (val x)) m a = m a) := by
  induction l using List.reverseRecOn with
  | nil => simp
  | append_singleton l y ih =>
    have ih := ih (fun x hx z hz => hcons x (by simp [hx]) z (by simp [hz]))
    simp only [List.foldl_append, List.foldl_cons, List.foldl_nil, List.mem_append,
      List.mem_singleton, Tutorial11_ResourceUpdates.store]
    constructor
    · intro x hx hxa
      by_cases hya : a = off y
      · rw [if_pos hya]
        exact hcons y (by simp) x (by rcases hx with h | h <;> simp [h]) (by rw [hxa, hya])
      · rw [if_neg hya]
        rcases hx with h | h
        · exact ih.1 x h hxa
        · exact absurd (by rw [← hxa, h]) hya
    · intro hne
      have hya : a ≠ off y := fun h => hne y (Or.inr rfl) h.symm
      rw [if_neg hya]
      exact ih.2 (fun x hx => hne x (Or.inl hx))

/-- A fold over a concatenation of per-element lists is the nested fold. -/
theorem Tutorial11_ResourceUpdates.foldl_flatMap_eq {α β γ : Type} (f : α → β → α)
    (g : γ → List β) (l : List γ) (a : α) :
    (l.flatMap g).foldl f a = l.foldl (fun a x => (g x).foldl f a) a := by
  induction l generalizing a with
  | nil => rfl
  | cons x xs ih => simp [List.flatMap_cons, List.foldl_append, ih]

/-- The three nested loops of `WriteStripPattern` perform the stores of the
triples `(j, i, c)` in lexicographic order. -/
theorem Tutorial11_ResourceUpdates.WriteStripPattern_flat (x_scale y_scale c_scale : Nat)
    (pData : Tutorial11_ResourceUpdates.Bytes) (Width Height Stride : Nat) :
    Tutorial11_ResourceUpdates.WriteStripPattern x_scale y_scale c_scale pData Width Height Stride
      = (((List.range Height).flatMap fun j => (List.range Width).flatMap fun i =>
            (List.range 4).map fun c => (j, i, c))).foldl
          (fun m (x : Nat × Nat × Nat) => Tutorial11_ResourceUpdates.store m
            (Tutorial11_ResourceUpdates.stripOffset x.2.1 x.2.2 x.1 Stride)
            (Tutorial11_ResourceUpdates.stripValue x_scale y_scale c_scale x.2.1 x.1 x.2.2))
          pData := by
  simp only [Tutorial11_ResourceUpdates.WriteStripPattern,
    Tutorial11_ResourceUpdates.foldl_flatMap_eq, List.foldl_map]

/-- The masked 32-bit value is the unbounded sum modulo 256. -/
theorem Tutorial11_ResourceUpdates.stripValue_eq (x_scale y_scale c_scale i j c : Nat) :
    Tutorial11_ResourceUpdates.stripValue x_scale y_scale c_scale i j c
      = (i * x_scale + j * y_scale + c * c_scale) % 256 := by
  have hand : ∀ x : Nat, x &&& 0xFF = x % 256 := fun x =>
    Nat.and_pow_two_sub_one_eq_mod x 8
  have hd : (256 : Nat) ∣ 2 ^ 32 := ⟨2 ^ 24, by norm_num⟩
  simp only [Tutorial11_ResourceUpdates.stripValue, UINT32_RANGE, hand,
    Nat.mod_mod_of_dvd _ hd]
  omega

/-- Without wrap-around the offset is `j * Stride + 4 * i + c`. -/
theorem Tutorial11_ResourceUpdates.stripOffset_eq (i c j Stride : Nat)
    (h : j * Stride + 4 * i + c < 2 ^ 32) :
    Tutorial11_ResourceUpdates.stripOffset i c j Stride = j * Stride + 4 * i + c := by
  simp only [Tutorial11_ResourceUpdates.stripOffset, UINT32_RANGE]
  have h1 : i * 4 % 2 ^ 32 = i * 4 := Nat.mod_eq_of_lt (by omega)
  have h2 : j * Stride % 2 ^ 32 = j * Stride := Nat.mod_eq_of_lt (by omega)
  rw [h1, h2, Nat.mod_eq_of_lt (by omega), Nat.mod_eq_of_lt (by omega)]
  omega

/-- C20 (counterexample): with `Width = 1`, `Height = 3`, `Stride = 2 ^ 31`
(so `Stride >= 4 * Width`), all three scales 1 and a zeroed buffer, the
offset of row 2 wraps around to row 0: the byte at offset `0 * Stride + 4 * 0 + 0`
ends as 2 and not as `(0 * 1 + 0 * 1 + 0 * 1) mod 256 = 0`, and the byte at
offset `2 * Stride + 4 * 0 + 0` is not written. -/
theorem C20_strip_offset_wraps :
    4 * 1 ≤ 2 ^ 31 ∧ (0 < 1 ∧ 0 < 3 ∧ 0 < 4)
      ∧ Tutorial11_ResourceUpdates.WriteStripPattern 1 1 1 (fun _ => 0) 1 3 (2 ^ 31)
          (0 * 2 ^ 31 + 4 * 0 + 0) = 2
      ∧ (0 * 1 + 0 * 1 + 0 * 1) % 256 = 0
      ∧ Tutorial11_ResourceUpdates.WriteStripPattern 1 1 1 (fun _ => 0) 1 3 (2 ^ 31)
          (2 * 2 ^ 31 + 4 * 0 + 0) = 0
      ∧ (0 * 1 + 2 * 1 + 0 * 1) % 256 = 2 := by
  refine ⟨by decide, by decide, ?_, by decide, ?_, by decide⟩
  · decide
  · decide

/-- C20 (amended): for every buffer, `Width`, `Height` and `Stride` with
`Stride >= 4 * Width` and `(Height - 1) * Stride + 4 * Width <= 2 ^ 32` (no
32-bit offset wraps around), and for all scales, `WriteStripPattern` leaves
the buffer such that for all `i < Width`, `j < Height`, `c < 4` the byte at
offset `j * Stride + 4 * i + c` equals `(i * x_scale + j * y_scale + c * c_scale)
mod 256` computed in unbounded integers, and every other byte is unchanged. -/
theorem C20_WriteStripPattern_bytes (x_scale y_scale c_scale : Nat)
    (pData : Tutorial11_ResourceUpdates.Bytes) (Width Height Stride : Nat)
    (hS : 4 * Width ≤ Stride) (hwrap : (Height - 1) * Stride + 4 * Width ≤ 2 ^ 32) :
    (∀ i j c, i < Width → j < Height → c < 4 →
        Tutorial11_ResourceUpdates.WriteStripPattern x_scale y_scale c_scale pData
            Width Height Stride (j * Stride + 4 * i + c)
          = (i * x_scale + j * y_scale + c * c_scale) % 256)
      ∧ (∀ a, (∀ i j c, i < Width → j < Height → c < 4 → a ≠ j * Stride + 4 * i + c) →
        Tutorial11_ResourceUpdates.WriteStripPattern x_scale y_scale c_scale pData
            Width Height Stride a = pData a) := by
  have hlt : ∀ i j c, i < Width → j < Height → c < 4 → j * Stride + 4 * i + c < 2 ^ 32 := by
    intro i j c hi hj hc
    have : j * Stride ≤ (Height - 1) * Stride := Nat.mul_le_mul_right _ (by omega)
    omega
  have hoff : ∀ i j c, i < Width → j < Height → c < 4 →
      Tutorial11_ResourceUpdates.stripOffset i c j Stride = j * Stride + 4 * i + c :=
    fun i j c hi hj hc => Tutorial11_ResourceUpdates.stripOffset_eq i c j Stride (hlt i j c hi hj hc)
  have hmem : ∀ x : Nat × Nat × Nat,
      x ∈ ((List.range Height).flatMap fun j => (List.range Width).flatMap fun i =>
            (List.range 4).map fun c => (j, i, c)) ↔ x.1 < Height ∧ x.2.1 < Width ∧ x.2.2 < 4 := by
    rintro ⟨j, i, c⟩
    simp only [List.mem_flatMap, List.mem_range, List.mem_map, Prod.mk.injEq]
    constructor
    · rintro ⟨j', hj, i', hi, c', hc, rfl, rfl, rfl⟩
      exact ⟨hj, hi, hc⟩
    · rintro ⟨hj, hi, hc⟩
      exact ⟨j, hj, i, hi, c, hc, rfl, rfl, rfl⟩
  have hinj : ∀ i j c i' j' c', i < Width → j < Height → c < 4 → i' < Width → j' < Height →
      c' < 4 → j * Stride + 4 * i + c = j' * Stride + 4 * i' + c' → i = i' ∧ j = j' ∧ c = c' := by
    intro i j c i' j' c' hi hj hc hi' hj' hc' h
    have hjj : j = j' := by
      rcases Nat.lt_trichotomy j j' with hl | he | hg
      · have : (j + 1) * Stride ≤ j' * Stride := Nat.mul_le_mul_right _ hl
        rw [Nat.add_mul] at this
        omega
      · exact he
      · have : (j' + 1) * Stride ≤ j * Stride := Nat.mul_le_mul_right _ hg
        rw [Nat.add_mul] at this
        omega
    subst hjj
    omega
  have key := fun a => Tutorial11_ResourceUpdates.foldl_store
    (fun x : Nat × Nat × Nat => Tutorial11_ResourceUpdates.stripOffset x.2.1 x.2.2 x.1 Stride)
    (fun x : Nat × Nat × Nat =>
      Tutorial11_ResourceUpdates.stripValue x_scale y_scale c_scale x.2.1 x.1 x.2.2)
    ((List.range Height).flatMap fun j => (List.range Width).flatMap fun i =>
            (List.range 4).map fun c => (j, i, c))
    pData
    (by
      rintro ⟨j, i, c⟩ hx ⟨j', i', c'⟩ hy h
      obtain ⟨hj, hi, hc⟩ := (hmem _).mp hx
      obtain ⟨hj', hi', hc'⟩ := (hmem _).mp hy
      simp only at hj hi hc hj' hi' hc' h
      rw [hoff i j c hi hj hc, hoff i' j' c' hi' hj' hc'] at h
      obtain ⟨e1, e2, e3⟩ := hinj i j c i' j' c' hi hj hc hi' hj' hc' h
      subst e1 e2 e3
      rfl) a
  constructor
  · intro i j c hi hj hc
    rw [Tutorial11_ResourceUpdates.WriteStripPattern_flat]
    have := (key (j * Stride + 4 * i + c)).1 (j, i, c) ((hmem _).mpr ⟨hj, hi, hc⟩)
      (hoff i j c hi hj hc)
    rw [this]
    exact Tutorial11_ResourceUpdates.stripValue_eq x_scale y_scale c_scale i j c
  · intro a ha
    rw [Tutorial11_ResourceUpdates.WriteStripPattern_flat]
    apply (key a).2
    rintro ⟨j, i, c⟩ hx
    obtain ⟨hj, hi, hc⟩ := (hmem _).mp hx
    simp only at hj hi hc ⊢
    rw [hoff i j c hi hj hc]
    exact fun h => ha i j c hi hj hc h.symm

/-- Witness of C20 (amended) for a 2 by 2 region with a stride of 8 bytes
written over a zeroed buffer with scales 3, 5 and 7: the byte of texel
`(1, 1)`, channel 2 is `3 + 5 + 14 = 22`. -/
theorem C20_WriteStripPattern_bytes_witness :
    4 * 2 ≤ 8 ∧ (2 - 1) * 8 + 4 * 2 ≤ 2 ^ 32
      ∧ Tutorial11_ResourceUpdates.WriteStripPattern 3 5 7 (fun _ => 0) 2 2 8 (1 * 8 + 4 * 1 + 2)
          = 22 :=
  ⟨by decide, by decide,
    (C20_WriteStripPattern_bytes 3 5 7 (fun _ => 0) 2 2 8 (by decide) (by decide)).1 1 1 2
      (by decide) (by decide) (by decide)⟩

/-! ### Tutorial03 and Tutorial11: vertex layout and cube geometry -/

/-- C16: in both Tutorial03 and Tutorial11 (whose `LayoutElement` constructor
leaves the frequency at the engine default, per vertex) the input layout
declares exactly two per-vertex attributes in buffer slot 0, input index 0
with 3 and input index 1 with 2 `VT_FLOAT32` components, neither normalised,
in the order and arity of the members `pos` (3 floats) and `uv` (2 floats) of
`Vertex`; the attributes total 5 floats = 20 bytes = the size of one `Vertex`. -/
theorem C16_layout_matches_Vertex (defaultFrequency : INPUT_ELEMENT_FREQUENCY)
    (hdef : defaultFrequency = .INPUT_ELEMENT_FREQUENCY_PER_VERTEX) :
    ∀ p ∈ [(Tutorial03_Texturing.LayoutElems, Tutorial03_Texturing.VertexFields),
        (Tutorial11_ResourceUpdates.LayoutElems defaultFrequency,
          Tutorial11_ResourceUpdates.VertexFields)],
      p.1.length = 2
        ∧ (∀ e ∈ p.1, e.BufferSlot = 0
            ∧ e.Frequency = .INPUT_ELEMENT_FREQUENCY_PER_VERTEX
            ∧ e.ValueType = .VT_FLOAT32 ∧ e.IsNormalized = false)
        ∧ p.1.map (fun e => e.InputIndex) = [0, 1]
        ∧ p.1.map (fun e => e.NumComponents) = [3, 2]
        ∧ p.2.map (fun f => f.name) = ["pos", "uv"]
        ∧ p.1.map (fun e => e.NumComponents) = p.2.map (fun f => f.floats)
        ∧ (p.1.map (fun e => e.NumComponents)).sum = 5
        ∧ (p.1.map LayoutElement.size).sum = 20
        ∧ sizeofFields p.2 = 20 := by
  subst hdef
  intro p hp
  simp only [List.mem_cons, List.mem_singleton, List.not_mem_nil, or_false] at hp
  rcases hp with rfl | rfl
  · decide
  · decide

/-- Witness of C16 with the per-vertex default frequency: the Tutorial11
layout reads 20 bytes per vertex. -/
theorem C16_layout_matches_Vertex_witness :
    ((Tutorial11_ResourceUpdates.LayoutElems .INPUT_ELEMENT_FREQUENCY_PER_VERTEX).map
        LayoutElement.size).sum = 20
      ∧ sizeofFields Tutorial11_ResourceUpdates.VertexFields = 20 :=
  ⟨(C16_layout_matches_Vertex .INPUT_ELEMENT_FREQUENCY_PER_VERTEX rfl _
      (List.mem_cons_of_mem _ (List.mem_singleton.mpr rfl))).2.2.2.2.2.2.2.1,
   (C16_layout_matches_Vertex .INPUT_ELEMENT_FREQUENCY_PER_VERTEX rfl _
      (List.mem_cons_of_mem _ (List.mem_singleton.mpr rfl))).2.2.2.2.2.2.2.2⟩

/-- C17: the cube vertex table, identical in Tutorial03 and Tutorial11, has
24 entries in 6 consecutive groups of four; the four positions of a group are
four distinct corners of one cube face (one coordinate equal to the same +1 or
-1) and the six groups are the six distinct faces; every position coordinate
is +1 or -1; the four uv pairs of a group are the four distinct corners
(0,0), (0,1), (1,0), (1,1); each of the 8 cube corners occurs exactly 3 times. -/
theorem C17_cube_table :
    Tutorial03_Texturing.CubeVerts = Tutorial11_ResourceUpdates.CubeVerts
      ∧ Tutorial11_ResourceUpdates.CubeVerts.length = 24
      ∧ (cubeFaceGroups Tutorial11_ResourceUpdates.CubeVerts).flatten
          = Tutorial11_ResourceUpdates.CubeVerts
      ∧ (∀ g ∈ cubeFaceGroups Tutorial11_ResourceUpdates.CubeVerts,
          g.length = 4 ∧ (g.map fun v => v.pos).Nodup
            ∧ (g.map fun v => v.uv).Perm [(0, 0), (0, 1), (1, 0), (1, 1)])
      ∧ List.Forall₂ (fun g face => onFace face g = true)
          (cubeFaceGroups Tutorial11_ResourceUpdates.CubeVerts)
          [(2, -1), (1, -1), (0, 1), (1, 1), (0, -1), (2, 1)]
      ∧ [((2 : Nat), (-1 : Int)), (1, -1), (0, 1), (1, 1), (0, -1), (2, 1)].Nodup
      ∧ (∀ v ∈ Tutorial11_ResourceUpdates.CubeVerts, ∀ axis ∈ [0, 1, 2],
          coord axis v.pos = 1 ∨ coord axis v.pos = -1)
      ∧ cubeCorners.Nodup ∧ cubeCorners.length = 8
      ∧ (∀ c ∈ cubeCorners,
          (Tutorial11_ResourceUpdates.CubeVerts.map fun v => v.pos).count c = 3) := by
  refine ⟨by decide, by decide, by decide, by decide, ?_, by decide, by decide, by decide,
    by decide, by decide⟩
  simp only [cubeFaceGroups, Tutorial11_ResourceUpdates.CubeVerts]
  decide

/-! ### Tutorial03: the world-view-projection matrix -/

/-- Reading back the bytes of `n` floats gives the floats. -/
theorem Tutorial03_Texturing.readFloats_floatsBytes (fs : List Tutorial03_Texturing.FloatBits)
    (hfs : ∀ f ∈ fs, f < 2 ^ 32) (rest : List Tutorial03_Texturing.Byte) :
    Tutorial03_Texturing.readFloats fs.length (Tutorial03_Texturing.floatsBytes fs ++ rest)
      = fs := by
  induction fs with
  | nil => cases rest <;> rfl
  | cons f fs ih =>
    have hf : f < 2 ^ 32 := hfs f (List.mem_cons_self _ _)
    have ih := ih (fun g hg => hfs g (List.mem_cons_of_mem _ hg))
    have hb : Tutorial03_Texturing.floatsBytes (f :: fs) ++ rest
        = (f % 256) :: (f / 256 % 256) :: (f / 65536 % 256) :: (f / 16777216 % 256)
            :: (Tutorial03_Texturing.floatsBytes fs ++ rest) := by
      simp [Tutorial03_Texturing.floatsBytes, Tutorial03_Texturing.floatBytes]
    have hv : ∀ n : Nat, n < 2 ^ 32 →
        n % 256 + 256 * (n / 256 % 256) + 65536 * (n / 65536 % 256)
          + 16777216 * (n / 16777216 % 256) = n := by
      intro n hn
      omega
    rw [hb, List.length_cons, Tutorial03_Texturing.readFloats, ih, hv f hf]

/-- The bytes of `n` floats are `4 n` bytes. -/
theorem Tutorial03_Texturing.floatsBytes_length (fs : List Tutorial03_Texturing.FloatBits) :
    (Tutorial03_Texturing.floatsBytes fs).length = 4 * fs.length := by
  induction fs with
  | nil => rfl
  | cons f fs ih =>
    simp only [Tutorial03_Texturing.floatsBytes, List.flatMap_cons, List.length_append,
      Tutorial03_Texturing.floatBytes, List.length_cons, List.length_nil] at ih ⊢
    omega

/-- C18: for every 16-float matrix `M` passed to `Update`, after any earlier
updates, the next `Render` writes into the mapped constant buffer (of
`sizeof(g_WorldViewProj)` = 64 bytes) exactly the 64 bytes of `M`: reading 16
floats back gives `M`, unchanged and in the same order.  The earlier updates
have no influence: the matrix uploaded is that of the most recent `Update`. -/
theorem C18_Render_uploads_matrix (s0 : Tutorial03_Texturing.MatrixState)
    (earlier : List (List Tutorial03_Texturing.Byte)) (M : List Tutorial03_Texturing.FloatBits)
    (rest pCBData : List Tutorial03_Texturing.Byte)
    (hM : M.length = 16) (hbits : ∀ f ∈ M, f < 2 ^ 32)
    (hbuf : pCBData.length = Tutorial03_Texturing.sizeof_g_WorldViewProj) :
    (Tutorial03_Texturing.Render
        (Tutorial03_Texturing.Update (earlier.foldl Tutorial03_Texturing.Update s0)
          (Tutorial03_Texturing.floatsBytes M ++ rest)) pCBData).VSConstants
        = Tutorial03_Texturing.floatsBytes M
      ∧ (Tutorial03_Texturing.floatsBytes M).length = 64
      ∧ Tutorial03_Texturing.readFloats 16
          (Tutorial03_Texturing.Render
            (Tutorial03_Texturing.Update (earlier.foldl Tutorial03_Texturing.Update s0)
              (Tutorial03_Texturing.floatsBytes M ++ rest)) pCBData).VSConstants = M := by
  have hlen : (Tutorial03_Texturing.floatsBytes M).length = 64 := by
    rw [Tutorial03_Texturing.floatsBytes_length, hM]
  have hup : (Tutorial03_Texturing.Render
        (Tutorial03_Texturing.Update (earlier.foldl Tutorial03_Texturing.Update s0)
          (Tutorial03_Texturing.floatsBytes M ++ rest)) pCBData).VSConstants
        = Tutorial03_Texturing.floatsBytes M := by
    simp only [Tutorial03_Texturing.Render, Tutorial03_Texturing.Update,
      Tutorial03_Texturing.memcpy, Tutorial03_Texturing.sizeof_g_WorldViewProj] at hbuf ⊢
    have h1 : List.take (16 * 4) (Tutorial03_Texturing.floatsBytes M ++ rest)
        = Tutorial03_Texturing.floatsBytes M := by
      rw [List.take_append_of_le_length (by omega), List.take_of_length_le (by omega)]
    have h2 : List.drop (16 * 4) pCBData = [] := List.drop_eq_nil_of_le (by omega)
    rw [h1, List.take_append_of_le_length (by omega), List.take_of_length_le (by omega), h2,
      List.append_nil]
  refine ⟨hup, hlen, ?_⟩
  rw [hup]
  have := Tutorial03_Texturing.readFloats_floatsBytes M hbits []
  rwa [List.append_nil, hM] at this

/-- Witness of C18: the matrix with the bit patterns 0 .. 15, uploaded after
an earlier update with 64 bytes of value 255. -/
theorem C18_Render_uploads_matrix_witness :
    (Tutorial03_Texturing.Render
        (Tutorial03_Texturing.Update
          ([List.replicate 64 255].foldl Tutorial03_Texturing.Update
            ⟨List.replicate 64 0, List.replicate 64 0⟩)
          (Tutorial03_Texturing.floatsBytes (List.range 16) ++ [7, 7]))
        (List.replicate 64 9)).VSConstants
      = Tutorial03_Texturing.floatsBytes (List.range 16) :=
  (C18_Render_uploads_matrix ⟨List.replicate 64 0, List.replicate 64 0⟩
    [List.replicate 64 255] (List.range 16) [7, 7] (List.replicate 64 9)
    (by decide) (by decide) (by decide)).1

/-! ### Tutorial01: depth buffer -/

/-- C19 (counterexample): `Render` records
`ClearDepthStencil(nullptr, CLEAR_DEPTH_FLAG, 1.f)` (line 136), a command that
clears the depth-stencil buffer, whatever the colour format of the swap chain
(here format 1). -/
theorem C19_Render_clears_depth :
    Tutorial01_HelloTriangle.Command.ClearDepthStencil none .CLEAR_DEPTH_FLAG 1
        ∈ Tutorial01_HelloTriangle.Render
            (Tutorial01_HelloTriangle.PSODesc (.other 1))
      ∧ Tutorial01_HelloTriangle.Command.touchesDepth
          (Tutorial01_HelloTriangle.PSODesc (.other 1))
          (.ClearDepthStencil none .CLEAR_DEPTH_FLAG 1) = true := by
  constructor
  · decide
  · rfl

/-- C19 (amended): the pipeline of Tutorial01 does not use the depth buffer:
it is created with `DSVFormat = TEX_FORMAT_UNKNOWN` and `DepthEnable = False`,
and the only command recorded by `Render` that reads, writes or clears a
depth-stencil buffer is the `ClearDepthStencil` of the default depth buffer;
the draw does not touch it. -/
theorem C19_pipeline_without_depth (ColorBufferFormat : Tutorial01_HelloTriangle.TEXTURE_FORMAT) :
    (Tutorial01_HelloTriangle.PSODesc ColorBufferFormat).DSVFormat = .TEX_FORMAT_UNKNOWN
      ∧ (Tutorial01_HelloTriangle.PSODesc ColorBufferFormat).DepthEnable = false
      ∧ (Tutorial01_HelloTriangle.Render (Tutorial01_HelloTriangle.PSODesc ColorBufferFormat)).filter
          (Tutorial01_HelloTriangle.Command.touchesDepth
            (Tutorial01_HelloTriangle.PSODesc ColorBufferFormat))
          = [.ClearDepthStencil none .CLEAR_DEPTH_FLAG 1]
      ∧ Tutorial01_HelloTriangle.Command.touchesDepth
          (Tutorial01_HelloTriangle.PSODesc ColorBufferFormat) (.Draw 3) = false := by
  refine ⟨rfl, rfl, ?_, rfl⟩
  simp [Tutorial01_HelloTriangle.Render, Tutorial01_HelloTriangle.Command.touchesDepth,
    Tutorial01_HelloTriangle.PSODesc, List.filter]

/-! ### Tutorial11: usage classes and update strategies -/

/-- Membership in the list of creations of `Initialize`. -/
theorem Tutorial11_ResourceUpdates.mem_Initialize (numVertexBuffers numTextures : Nat)
    (c : Tutorial11_ResourceUpdates.Creation) :
    c ∈ Tutorial11_ResourceUpdates.Initialize numVertexBuffers numTextures ↔
      (∃ i, i < numVertexBuffers ∧ c = Tutorial11_ResourceUpdates.createVertexBuffer i)
        ∨ c = Tutorial11_ResourceUpdates.createIndexBuffer
        ∨ (∃ i, i < numTextures ∧ c = Tutorial11_ResourceUpdates.createTexture i)
        ∨ c = Tutorial11_ResourceUpdates.createTextureUpdateBuffer := by
  simp only [Tutorial11_ResourceUpdates.Initialize, List.mem_append, List.mem_map,
    List.mem_range, List.mem_singleton, or_assoc]
  constructor
  · rintro (⟨i, hi, rfl⟩ | h | ⟨i, hi, rfl⟩ | h)
    · exact Or.inl ⟨i, hi, rfl⟩
    · exact Or.inr (Or.inl h)
    · exact Or.inr (Or.inr (Or.inl ⟨i, hi, rfl⟩))
    · exact Or.inr (Or.inr (Or.inr h))
  · rintro (⟨i, hi, rfl⟩ | h | ⟨i, hi, rfl⟩ | h)
    · exact Or.inl ⟨i, hi, rfl⟩
    · exact Or.inr (Or.inl h)
    · exact Or.inr (Or.inr (Or.inl ⟨i, hi, rfl⟩))
    · exact Or.inr (Or.inr (Or.inr h))

/-- Every operation of `Update` is one of the four kinds the sample uses. -/
theorem Tutorial11_ResourceUpdates.mem_Update (bufferDue textureDue mapDue : Bool)
    (deviceType : Tutorial11_ResourceUpdates.DeviceType)
    (op : Tutorial11_ResourceUpdates.UpdateOp)
    (h : op ∈ Tutorial11_ResourceUpdates.Update bufferDue textureDue mapDue deviceType) :
    op = .UpdateData (.CubeVertexBuffer 1) ∨ op = .Map (.CubeVertexBuffer 2)
      ∨ op = .Unmap (.CubeVertexBuffer 2) ∨ op = .UpdateData (.Texture 2)
      ∨ op = .Map (.Texture 3) ∨ op = .Unmap (.Texture 3) := by
  revert h
  cases bufferDue <;> cases textureDue <;> cases mapDue <;> cases deviceType <;>
    simp [Tutorial11_ResourceUpdates.Update, Tutorial11_ResourceUpdates.UpdateBuffer,
      Tutorial11_ResourceUpdates.MapDynamicBuffer, Tutorial11_ResourceUpdates.UpdateTexture,
      Tutorial11_ResourceUpdates.MapTexture] <;>
    tauto

/-- The resource of every creation of `Initialize` determines the creation:
no resource is created twice. -/
theorem Tutorial11_ResourceUpdates.Initialize_resource_inj (numVertexBuffers numTextures : Nat)
    (c d : Tutorial11_ResourceUpdates.Creation)
    (hc : c ∈ Tutorial11_ResourceUpdates.Initialize numVertexBuffers numTextures)
    (hd : d ∈ Tutorial11_ResourceUpdates.Initialize numVertexBuffers numTextures)
    (h : c.resource = d.resource) : c = d := by
  rw [Tutorial11_ResourceUpdates.mem_Initialize] at hc hd
  rcases hc with ⟨i, _, rfl⟩ | rfl | ⟨i, _, rfl⟩ | rfl <;>
    rcases hd with ⟨j, _, rfl⟩ | rfl | ⟨j, _, rfl⟩ | rfl <;>
    simp_all [Tutorial11_ResourceUpdates.createVertexBuffer,
      Tutorial11_ResourceUpdates.createIndexBuffer, Tutorial11_ResourceUpdates.createTexture,
      Tutorial11_ResourceUpdates.createTextureUpdateBuffer]

/-- C11: in Tutorial11 (with at least three vertex buffers and four textures)
every operation `Update` performs suits the usage class its target was created
with: `UpdateBuffer` targets vertex buffer 1 and `UpdateTexture` texture 2,
both created `USAGE_DEFAULT`; `MapDynamicBuffer` targets vertex buffer 2 and
`MapTexture` texture 3, both created `USAGE_DYNAMIC` with `CPU_ACCESS_WRITE`
(the buffer without initial data); vertex buffer 0, the index buffer and
textures 0 and 1 are created `USAGE_STATIC`, and no resource created
`USAGE_STATIC` is the target of an operation of `Update`. -/
theorem C11_update_matches_usage (numVertexBuffers numTextures : Nat)
    (hVB : 3 ≤ numVertexBuffers) (hTex : 4 ≤ numTextures)
    (bufferDue textureDue mapDue : Bool) (deviceType : Tutorial11_ResourceUpdates.DeviceType) :
    (∀ op ∈ Tutorial11_ResourceUpdates.Update bufferDue textureDue mapDue deviceType,
        ∃ c ∈ Tutorial11_ResourceUpdates.Initialize numVertexBuffers numTextures,
          c.resource = op.target ∧ op.suits c = true)
      ∧ (∀ c ∈ Tutorial11_ResourceUpdates.Initialize numVertexBuffers numTextures,
          c.Usage = .USAGE_STATIC →
          ∀ op ∈ Tutorial11_ResourceUpdates.Update bufferDue textureDue mapDue deviceType,
            op.target ≠ c.resource)
      ∧ (Tutorial11_ResourceUpdates.UpdateBuffer 1).map (fun op => op.target)
          = [.CubeVertexBuffer 1]
      ∧ (∀ op ∈ Tutorial11_ResourceUpdates.UpdateTexture 2, op = .UpdateData (.Texture 2))
      ∧ (∀ c ∈ Tutorial11_ResourceUpdates.Initialize numVertexBuffers numTextures,
          (c.resource = .CubeVertexBuffer 1 ∨ c.resource = .Texture 2) →
            c.Usage = .USAGE_DEFAULT)
      ∧ (Tutorial11_ResourceUpdates.MapDynamicBuffer 2).map (fun op => op.target)
          = [.CubeVertexBuffer 2, .CubeVertexBuffer 2]
      ∧ (∀ b, (Tutorial11_ResourceUpdates.MapTexture 3 b).map (fun op => op.target)
          = [.Texture 3, .Texture 3])
      ∧ (∀ c ∈ Tutorial11_ResourceUpdates.Initialize numVertexBuffers numTextures,
          (c.resource = .CubeVertexBuffer 2 ∨ c.resource = .Texture 3) →
            c.Usage = .USAGE_DYNAMIC ∧ c.CPUAccessFlags = some .CPU_ACCESS_WRITE)
      ∧ (∀ c ∈ Tutorial11_ResourceUpdates.Initialize numVertexBuffers numTextures,
          c.resource = .CubeVertexBuffer 2 → c.hasInitialData = false)
      ∧ (∀ c ∈ Tutorial11_ResourceUpdates.Initialize numVertexBuffers numTextures,
          (c.resource = .CubeVertexBuffer 0 ∨ c.resource = .CubeIndexBuffer
            ∨ c.resource = .Texture 0 ∨ c.resource = .Texture 1) → c.Usage = .USAGE_STATIC)
      ∧ (∀ r ∈ [Tutorial11_ResourceUpdates.Resource.CubeVertexBuffer 0, .CubeVertexBuffer 1,
            .CubeVertexBuffer 2, .CubeIndexBuffer, .Texture 0, .Texture 1, .Texture 2,
            .Texture 3],
          ∃ c ∈ Tutorial11_ResourceUpdates.Initialize numVertexBuffers numTextures,
            c.resource = r) := by
  have hmem := Tutorial11_ResourceUpdates.mem_Initialize numVertexBuffers numTextures
  have hvb : ∀ i, i < 3 → Tutorial11_ResourceUpdates.createVertexBuffer i
      ∈ Tutorial11_ResourceUpdates.Initialize numVertexBuffers numTextures :=
    fun i hi => (hmem _).mpr (Or.inl ⟨i, by omega, rfl⟩)
  have htx : ∀ i, i < 4 → Tutorial11_ResourceUpdates.createTexture i
      ∈ Tutorial11_ResourceUpdates.Initialize numVertexBuffers numTextures :=
    fun i hi => (hmem _).mpr (Or.inr (Or.inr (Or.inl ⟨i, by omega, rfl⟩)))
  have hib : Tutorial11_ResourceUpdates.createIndexBuffer
      ∈ Tutorial11_ResourceUpdates.Initialize numVertexBuffers numTextures :=
    (hmem _).mpr (Or.inr (Or.inl rfl))
  have hof : ∀ c ∈ Tutorial11_ResourceUpdates.Initialize numVertexBuffers numTextures,
      ∀ d ∈ Tutorial11_ResourceUpdates.Initialize numVertexBuffers numTextures,
        c.resource = d.resource → c = d :=
    fun c hc d hd => Tutorial11_ResourceUpdates.Initialize_resource_inj _ _ c d hc hd
  refine ⟨?_, ?_, rfl, by decide, ?_, rfl, fun _ => rfl, ?_, ?_, ?_, ?_⟩
  · intro op hop
    rcases Tutorial11_ResourceUpdates.mem_Update _ _ _ _ op hop with
      rfl | rfl | rfl | rfl | rfl | rfl
    · exact ⟨_, hvb 1 (by decide), rfl, by decide⟩
    · exact ⟨_, hvb 2 (by decide), rfl, by decide⟩
    · exact ⟨_, hvb 2 (by decide), rfl, by decide⟩
    · exact ⟨_, htx 2 (by decide), rfl, by decide⟩
    · exact ⟨_, htx 3 (by decide), rfl, by decide⟩
    · exact ⟨_, htx 3 (by decide), rfl, by decide⟩
  · intro c hc hst op hop heq
    rcases Tutorial11_ResourceUpdates.mem_Update _ _ _ _ op hop with
      rfl | rfl | rfl | rfl | rfl | rfl
    · rw [hof c hc _ (hvb 1 (by decide)) heq.symm] at hst
      exact absurd hst (by decide)
    · rw [hof c hc _ (hvb 2 (by decide)) heq.symm] at hst
      exact absurd hst (by decide)
    · rw [hof c hc _ (hvb 2 (by decide)) heq.symm] at hst
      exact absurd hst (by decide)
    · rw [hof c hc _ (htx 2 (by decide)) heq.symm] at hst
      exact absurd hst (by decide)
    · rw [hof c hc _ (htx 3 (by decide)) heq.symm] at hst
      exact absurd hst (by decide)
    · rw [hof c hc _ (htx 3 (by decide)) heq.symm] at hst
      exact absurd hst (by decide)
  · rintro c hc (h | h)
    · rw [hof c hc _ (hvb 1 (by decide)) h]
      rfl
    · rw [hof c hc _ (htx 2 (by decide)) h]
      rfl
  · rintro c hc (h | h)
    · rw [hof c hc _ (hvb 2 (by decide)) h]
      exact ⟨rfl, rfl⟩
    · rw [hof c hc _ (htx 3 (by decide)) h]
      exact ⟨rfl, rfl⟩
  · intro c hc h
    rw [hof c hc _ (hvb 2 (by decide)) h]
    rfl
  · rintro c hc (h | h | h | h)
    · rw [hof c hc _ (hvb 0 (by decide)) h]
      rfl
    · rw [hof c hc _ hib h]
      rfl
    · rw [hof c hc _ (htx 0 (by decide)) h]
      rfl
    · rw [hof c hc _ (htx 1 (by decide)) h]
      rfl
  · intro r hr
    simp only [List.mem_cons, List.mem_singleton, List.not_mem_nil, or_false] at hr
    rcases hr with rfl | rfl | rfl | rfl | rfl | rfl | rfl | rfl
    · exact ⟨_, hvb 0 (by decide), rfl⟩
    · exact ⟨_, hvb 1 (by decide), rfl⟩
    · exact ⟨_, hvb 2 (by decide), rfl⟩
    · exact ⟨_, hib, rfl⟩
    · exact ⟨_, htx 0 (by decide), rfl⟩
    · exact ⟨_, htx 1 (by decide), rfl⟩
    · exact ⟨_, htx 2 (by decide), rfl⟩
    · exact ⟨_, htx 3 (by decide), rfl⟩

/-- Witness of C11 for three vertex buffers and four textures on a Vulkan
device with every update due: the update operations of one frame. -/
theorem C11_update_matches_usage_witness :
    Tutorial11_ResourceUpdates.Update true true true .Vulkan
        = [.UpdateData (.CubeVertexBuffer 1), .Map (.CubeVertexBuffer 2),
           .Unmap (.CubeVertexBuffer 2), .UpdateData (.Texture 2), .UpdateData (.Texture 2),
           .UpdateData (.Texture 2), .Map (.Texture 3), .Unmap (.Texture 3)]
      ∧ ∃ c ∈ Tutorial11_ResourceUpdates.Initialize 3 4,
          c.resource = .Texture 3
            ∧ Tutorial11_ResourceUpdates.UpdateOp.suits c (.Map (.Texture 3)) = true :=
  ⟨by decide,
    (C11_update_matches_usage 3 4 (by decide) (by decide) true true true .Vulkan).1
      (.Map (.Texture 3)) (by decide)⟩

/-! ### Tutorial03: manual reference counting -/

/-- The reference-count operations of `CreateResources` from the start state. -/
theorem Tutorial03_Texturing.CreateResources_refs (n pDevice pSwapChain : Handle) :
    (Tutorial03_Texturing.CreateResources (Tutorial03_Texturing.App.start n)
        (some pDevice) (some pSwapChain)).log
      = [.AddRef (some pDevice), .AddRef (some pSwapChain),
         .Create n, .Create (n + 1), .Create (n + 2), .Create (n + 3), .Create (n + 4),
         .Create (n + 5),
         .Release (some (n + 3)), .Release (some (n + 1)), .Release (some n),
         .Create (n + 6), .Create (n + 7), .Create (n + 8), .Release (some (n + 8))] := by
  rfl

/-- The guards of `ReleaseResources`: it releases exactly the globals that
are not `NULL`, in the order of the source. -/
theorem Tutorial03_Texturing.ReleaseResources_refs (a : Tutorial03_Texturing.App) :
    (Tutorial03_Texturing.ReleaseResources a).log
      = a.log ++ ([a.g_pCubeIndexBuffer, a.g_pCubeVertexBuffer, a.g_pSRB, a.g_pPSO,
          a.g_pVSConstants, a.g_pSwapChain, a.g_pDevice].filter Option.isSome).map
            Tutorial03_Texturing.RefEvent.Release := by
  rcases a with ⟨d, sc, vc, pso, srb, vb, ib, next, log⟩
  cases d <;> cases sc <;> cases vc <;> cases pso <;> cases srb <;> cases vb <;> cases ib <;>
    simp [Tutorial03_Texturing.ReleaseResources, Tutorial03_Texturing.releaseIfSet,
      Tutorial03_Texturing.IObject_Release]

/-- The device, the swap chain and nine new objects are pairwise distinct. -/
theorem Tutorial03_Texturing.objects_nodup (n pDevice pSwapChain : Handle)
    (hd : pDevice < n) (hs : pSwapChain < n) (hds : pDevice ≠ pSwapChain) :
    [pDevice, pSwapChain, n, n + 1, n + 2, n + 3, n + 4, n + 5, n + 6, n + 7, n + 8].Nodup := by
  unfold Handle at *
  simp only [List.nodup_cons, List.mem_cons, List.mem_singleton, List.not_mem_nil,
    List.nodup_nil, and_true, or_false, not_false_eq_true]
  omega

/-- The pointers released are a rearrangement of the objects acquired. -/
theorem Tutorial03_Texturing.released_perm (n pDevice pSwapChain : Handle)
    (hd : pDevice < n) (hs : pSwapChain < n) (hds : pDevice ≠ pSwapChain) :
    [some (n + 3), some (n + 1), some n, some (n + 8), some (n + 7), some (n + 6),
        some (n + 5), some (n + 4), some (n + 2), some pSwapChain, some pDevice].Perm
      ([pDevice, pSwapChain, n, n + 1, n + 2, n + 3, n + 4, n + 5, n + 6, n + 7, n + 8].map
        some) := by
  have hnd := Tutorial03_Texturing.objects_nodup n pDevice pSwapChain hd hs hds
  have hrnd : [some (n + 3), some (n + 1), some n, some (n + 8), some (n + 7), some (n + 6),
      some (n + 5), some (n + 4), some (n + 2), some pSwapChain, some pDevice].Nodup := by
    unfold Handle at *
    simp only [List.nodup_cons, List.mem_cons, List.mem_singleton, List.not_mem_nil,
      List.nodup_nil, and_true, or_false, not_false_eq_true, Option.some.injEq]
    omega
  refine (List.perm_ext_iff_of_nodup hrnd (hnd.map (Option.some_injective _))).mpr ?_
  clear hnd hrnd hd hs hds
  intro p
  simp only [List.map_cons, List.map_nil, List.mem_cons, List.mem_singleton,
    List.not_mem_nil, or_false]
  tauto

/-- C12: starting with all seven globals `NULL` and every creation call
succeeding (new objects distinct from each other, from the device and from
the swap chain), `CreateResources` followed by `ReleaseResources` releases
every reference it acquired exactly once: the seven globals are released
once each, in reverse order of acquisition; the locals
`pShaderSourceFactory`, `pVS`, `pPS` and `pTex` are released once inside the
function that created them; and `ReleaseResources` never releases a global
that is `NULL`. -/
theorem C12_references_balanced (n pDevice pSwapChain : Handle)
    (hd : pDevice < n) (hs : pSwapChain < n) (hds : pDevice ≠ pSwapChain) :
    -- the eleven references acquired, in order of acquisition
    Tutorial03_Texturing.acquired
        (Tutorial03_Texturing.ReleaseResources
          (Tutorial03_Texturing.CreateResources (Tutorial03_Texturing.App.start n)
            (some pDevice) (some pSwapChain))).log
        = [pDevice, pSwapChain, n, n + 1, n + 2, n + 3, n + 4, n + 5, n + 6, n + 7, n + 8]
      ∧ (Tutorial03_Texturing.acquired
          (Tutorial03_Texturing.ReleaseResources
            (Tutorial03_Texturing.CreateResources (Tutorial03_Texturing.App.start n)
              (some pDevice) (some pSwapChain))).log).Nodup
      -- every one of them is released exactly once, and nothing else is released
      ∧ (Tutorial03_Texturing.released
            (Tutorial03_Texturing.ReleaseResources
              (Tutorial03_Texturing.CreateResources (Tutorial03_Texturing.App.start n)
                (some pDevice) (some pSwapChain))).log).Perm
          ((Tutorial03_Texturing.acquired
            (Tutorial03_Texturing.ReleaseResources
              (Tutorial03_Texturing.CreateResources (Tutorial03_Texturing.App.start n)
                (some pDevice) (some pSwapChain))).log).map some)
      -- the globals after `CreateResources`, in order of acquisition
      ∧ (Tutorial03_Texturing.CreateResources (Tutorial03_Texturing.App.start n)
            (some pDevice) (some pSwapChain)).globals
          = [some pDevice, some pSwapChain, some (n + 2), some (n + 4), some (n + 5),
              some (n + 6), some (n + 7)]
      -- `ReleaseResources` releases the globals in reverse order of acquisition
      ∧ (Tutorial03_Texturing.ReleaseResources
            (Tutorial03_Texturing.CreateResources (Tutorial03_Texturing.App.start n)
              (some pDevice) (some pSwapChain))).log
          = (Tutorial03_Texturing.CreateResources (Tutorial03_Texturing.App.start n)
              (some pDevice) (some pSwapChain)).log
            ++ ((Tutorial03_Texturing.CreateResources (Tutorial03_Texturing.App.start n)
              (some pDevice) (some pSwapChain)).globals.reverse).map
                Tutorial03_Texturing.RefEvent.Release
      -- the locals are created and released inside their function
      ∧ (∀ a : Tutorial03_Texturing.App,
          (Tutorial03_Texturing.CreatePipelineState a).log
            = a.log ++ [.Create a.next, .Create (a.next + 1), .Create (a.next + 2),
                .Create (a.next + 3), .Create (a.next + 4), .Create (a.next + 5),
                .Release (some (a.next + 3)), .Release (some (a.next + 1)),
                .Release (some a.next)])
      ∧ (∀ a : Tutorial03_Texturing.App,
          (Tutorial03_Texturing.LoadTexture a).log
            = a.log ++ [.Create a.next, .Release (some a.next)])
      -- no `NULL` global is released, whatever the state
      ∧ (∀ a : Tutorial03_Texturing.App,
          none ∉ Tutorial03_Texturing.released
            ((Tutorial03_Texturing.ReleaseResources a).log.drop a.log.length)) := by
  have hrel := Tutorial03_Texturing.ReleaseResources_refs
    (Tutorial03_Texturing.CreateResources (Tutorial03_Texturing.App.start n)
      (some pDevice) (some pSwapChain))
  have hcre := Tutorial03_Texturing.CreateResources_refs n pDevice pSwapChain
  have hglob : (Tutorial03_Texturing.CreateResources (Tutorial03_Texturing.App.start n)
        (some pDevice) (some pSwapChain)).globals
      = [some pDevice, some pSwapChain, some (n + 2), some (n + 4), some (n + 5),
          some (n + 6), some (n + 7)] := rfl
  have hlog : (Tutorial03_Texturing.ReleaseResources
        (Tutorial03_Texturing.CreateResources (Tutorial03_Texturing.App.start n)
          (some pDevice) (some pSwapChain))).log
      = [.AddRef (some pDevice), .AddRef (some pSwapChain),
         .Create n, .Create (n + 1), .Create (n + 2), .Create (n + 3), .Create (n + 4),
         .Create (n + 5),
         .Release (some (n + 3)), .Release (some (n + 1)), .Release (some n),
         .Create (n + 6), .Create (n + 7), .Create (n + 8), .Release (some (n + 8)),
         .Release (some (n + 7)), .Release (some (n + 6)), .Release (some (n + 5)),
         .Release (some (n + 4)), .Release (some (n + 2)), .Release (some pSwapChain),
         .Release (some pDevice)] := by
    rw [hrel, hcre]
    rfl
  have hacq : Tutorial03_Texturing.acquired
        (Tutorial03_Texturing.ReleaseResources
          (Tutorial03_Texturing.CreateResources (Tutorial03_Texturing.App.start n)
            (some pDevice) (some pSwapChain))).log
        = [pDevice, pSwapChain, n, n + 1, n + 2, n + 3, n + 4, n + 5, n + 6, n + 7, n + 8] := by
    rw [hlog]
    rfl
  have hrl : Tutorial03_Texturing.released
        (Tutorial03_Texturing.ReleaseResources
          (Tutorial03_Texturing.CreateResources (Tutorial03_Texturing.App.start n)
            (some pDevice) (some pSwapChain))).log
        = [some (n + 3), some (n + 1), some n, some (n + 8), some (n + 7), some (n + 6),
            some (n + 5), some (n + 4), some (n + 2), some pSwapChain, some pDevice] := by
    rw [hlog]
    rfl
  refine ⟨hacq, ?_, ?_, hglob, ?_, ?_, ?_, ?_⟩
  · rw [hacq]
    exact Tutorial03_Texturing.objects_nodup n pDevice pSwapChain hd hs hds
  · rw [hacq, hrl]
    exact Tutorial03_Texturing.released_perm n pDevice pSwapChain hd hs hds
  · rw [hlog, hcre, hglob]
    rfl
  · intro a
    simp [Tutorial03_Texturing.CreatePipelineState, Tutorial03_Texturing.App.create,
      Tutorial03_Texturing.IObject_Release]
  · intro a
    simp [Tutorial03_Texturing.LoadTexture, Tutorial03_Texturing.App.create,
      Tutorial03_Texturing.IObject_Release]
  · intro a
    rw [Tutorial03_Texturing.ReleaseResources_refs, List.drop_left]
    simp [Tutorial03_Texturing.released, List.filterMap_map]

/-- Witness of C12 with the device as object 0, the swap chain as object 1
and new objects numbered from 2: the pointers released, in order. -/
theorem C12_references_balanced_witness :
    Tutorial03_Texturing.acquired
        (Tutorial03_Texturing.ReleaseResources
          (Tutorial03_Texturing.CreateResources (Tutorial03_Texturing.App.start 2)
            (some 0) (some 1))).log
        = [0, 1, 2, 3, 4, 5, 6, 7, 8, 9, 10]
      ∧ Tutorial03_Texturing.released
        (Tutorial03_Texturing.ReleaseResources
          (Tutorial03_Texturing.CreateResources (Tutorial03_Texturing.App.start 2)
            (some 0) (some 1))).log
        = [some 5, some 3, some 2, some 10, some 9, some 8, some 7, some 6, some 4, some 1,
            some 0] :=
  ⟨(C12_references_balanced 2 0 1 (by decide) (by decide) (by decide)).1, by decide⟩

/-! ### Terrain: the indices of one cell and the index count drawn -/

/-- The values a cell appends to the index vector do not depend on what was
written before. -/
theorem Terrain.pushCell_values (GridSize : Nat) (f : Fill Nat) (x y : Nat) :
    (Terrain.pushCell GridSize f x y).writes.map Prod.snd
      = f.writes.map Prod.snd ++ Terrain.cellIndices GridSize x y := by
  simp [Terrain.pushCell, Terrain.cellIndices, Fill.push]

/-- A fold whose step appends values appends the values of all steps. -/
theorem Fill.foldl_values {α β : Type} (step : Fill α → β → Fill α) (vals : β → List α)
    (hstep : ∀ f b, (step f b).writes.map Prod.snd = f.writes.map Prod.snd ++ vals b)
    (l : List β) (f : Fill α) :
    (l.foldl step f).writes.map Prod.snd = f.writes.map Prod.snd ++ l.flatMap vals := by
  induction l generalizing f with
  | nil => simp
  | cons b bs ih => simp [List.foldl_cons, ih, hstep, List.flatMap_cons]

/-- The index vector is the concatenation of the six indices of every cell,
row after row. -/
theorem Terrain.fillIndices_values (GridSize : Nat) :
    (Terrain.fillIndices GridSize).writes.map Prod.snd
      = (List.range' 1 (GridSize - 1)).flatMap fun y =>
          (List.range' 1 (GridSize - 1)).flatMap fun x => Terrain.cellIndices GridSize x y := by
  have h := Fill.foldl_values (α := Nat)
    (fun f y => (List.range' 1 (GridSize - 1)).foldl
      (fun f x => Terrain.pushCell GridSize f x y) f)
    (fun y => (List.range' 1 (GridSize - 1)).flatMap fun x => Terrain.cellIndices GridSize x y)
    (fun f y => Fill.foldl_values (fun f x => Terrain.pushCell GridSize f x y)
      (fun x => Terrain.cellIndices GridSize x y)
      (fun f x => Terrain.pushCell_values GridSize f x y) _ f)
    (List.range' 1 (GridSize - 1)) { next := 0, writes := [] }
  simpa [Terrain.fillIndices] using h

/-- Without wrap-around the six indices of a cell are the indices of its
corners. -/
theorem Terrain.cellIndices_eq (GridSize x y : Nat) (hx : x < GridSize) (hy : y < GridSize)
    (hv : GridSize * GridSize < 2 ^ 32) :
    Terrain.cellIndices GridSize x y
      = [(x - 1) + y * GridSize, x + (y - 1) * GridSize, (x - 1) + (y - 1) * GridSize,
         (x - 1) + y * GridSize, x + y * GridSize, x + (y - 1) * GridSize] := by
  have h1 : y * GridSize + GridSize ≤ GridSize * GridSize := by
    have : (y + 1) * GridSize ≤ GridSize * GridSize := Nat.mul_le_mul_right _ hy
    rw [Nat.add_mul, Nat.one_mul] at this
    exact this
  have h2 : (y - 1) * GridSize ≤ y * GridSize := Nat.mul_le_mul_right _ (Nat.sub_le _ _)
  have e1 : ((x - 1) + y * GridSize) % UINT32_RANGE = (x - 1) + y * GridSize :=
    Nat.mod_eq_of_lt (by simp only [UINT32_RANGE]; omega)
  have e2 : (x + (y - 1) * GridSize) % UINT32_RANGE = x + (y - 1) * GridSize :=
    Nat.mod_eq_of_lt (by simp only [UINT32_RANGE]; omega)
  have e3 : ((x - 1) + (y - 1) * GridSize) % UINT32_RANGE = (x - 1) + (y - 1) * GridSize :=
    Nat.mod_eq_of_lt (by simp only [UINT32_RANGE]; omega)
  have e4 : (x + y * GridSize) % UINT32_RANGE = x + y * GridSize :=
    Nat.mod_eq_of_lt (by simp only [UINT32_RANGE]; omega)
  simp [Terrain.cellIndices, Terrain.pushCell, Fill.push, e1, e2, e3, e4]

/-- A loop of `k` pushes starting at counter `n` writes the positions
`n .. n + k - 1` in order. -/
theorem Fill.foldl_range_push {α : Type} (g : Nat → α) (k : Nat) (f : Fill α) (n : Nat)
    (hn : f.next = n) (hb : n + k < UINT32_RANGE) :
    ((List.range k).foldl (fun f x => f.push (g x)) f).next = n + k
      ∧ ((List.range k).foldl (fun f x => f.push (g x)) f).writes
          = f.writes ++ (List.range k).map fun x => (n + x, g x) := by
  induction k with
  | zero => simp [hn]
  | succ k ih =>
    obtain ⟨h1, h2⟩ := ih (by omega)
    rw [List.range_succ, List.foldl_append, List.foldl_cons, List.foldl_nil]
    generalize List.foldl (fun f x => f.push (g x)) f (List.range k) = F at h1 h2 ⊢
    constructor
    · simp only [Fill.push, h1]
      rw [Nat.mod_eq_of_lt (by omega)]
      omega
    · simp only [Fill.push, h1, h2, List.map_append, List.map_cons, List.map_nil,
        List.append_assoc]

/-- The vertex vector: position `x + y * GridSize` holds the vertex of the
grid position `(x, y)`. -/
theorem Terrain.fillVertices_writes (GridSize : Nat) (hv : GridSize * GridSize < 2 ^ 32) :
    (Terrain.fillVertices GridSize).writes
      = (List.range GridSize).flatMap fun y =>
          (List.range GridSize).map fun x => (y * GridSize + x, (x, y)) := by
  have key : ∀ k, k ≤ GridSize →
      ((List.range k).foldl
          (fun f y => (List.range GridSize).foldl (fun f x => f.push (x, y)) f)
          ({ next := 0, writes := [] } : Fill (Nat × Nat))).next = k * GridSize
        ∧ ((List.range k).foldl
          (fun f y => (List.range GridSize).foldl (fun f x => f.push (x, y)) f)
          ({ next := 0, writes := [] } : Fill (Nat × Nat))).writes
          = (List.range k).flatMap fun y =>
              (List.range GridSize).map fun x => (y * GridSize + x, (x, y)) := by
    intro k
    induction k with
    | zero => intro _; simp
    | succ k ih =>
      intro hk
      obtain ⟨h1, h2⟩ := ih (by omega)
      have hle : (k + 1) * GridSize ≤ GridSize * GridSize := Nat.mul_le_mul_right _ hk
      rw [Nat.add_mul, Nat.one_mul] at hle
      obtain ⟨g1, g2⟩ := Fill.foldl_range_push (fun x => (x, k)) GridSize _ (k * GridSize) h1
        (by simp only [UINT32_RANGE]; omega)
      rw [List.range_succ, List.foldl_append, List.foldl_cons, List.foldl_nil]
      constructor
      · rw [g1, Nat.add_mul, Nat.one_mul]
      · rw [g2, h2, List.flatMap_append]
        simp
  exact (key GridSize (Nat.le_refl _)).2

/-- Position `x + y * GridSize` decodes to the grid position `(x, y)`. -/
theorem Terrain.gridPos_eq (GridSize x y : Nat) (hx : x < GridSize) :
    Terrain.gridPos GridSize (x + y * GridSize) = (x, y) := by
  have hG : 0 < GridSize := by omega
  simp only [Terrain.gridPos, Nat.add_mul_mod_self_right, Nat.mod_eq_of_lt hx,
    Nat.add_mul_div_right _ _ hG, Nat.div_eq_of_lt hx, Nat.zero_add]

/-- The size of the index vector without wrap-around. -/
theorem Terrain.indicesSize_eq (GridSize : Nat) (h1 : 1 ≤ GridSize)
    (hi : 6 * (GridSize - 1) * (GridSize - 1) < 2 ^ 32) :
    Terrain.indicesSize GridSize = 6 * (GridSize - 1) * (GridSize - 1) := by
  have h6 : 6 * (GridSize - 1) * (GridSize - 1) = 6 * ((GridSize - 1) * (GridSize - 1)) :=
    Nat.mul_assoc _ _ _
  have hG : GridSize < 2 ^ 32 := by
    rcases Nat.lt_or_ge GridSize 2 with h | h
    · omega
    · have : 1 * (GridSize - 1) ≤ (GridSize - 1) * (GridSize - 1) :=
        Nat.mul_le_mul_right _ (by omega)
      omega
  have e1 : (GridSize + 2 ^ 32 - 1) % 2 ^ 32 = GridSize - 1 := by omega
  have e2 : (GridSize - 1) * (GridSize - 1) < 2 ^ 32 := by omega
  simp only [Terrain.indicesSize, UINT32_RANGE, e1, Nat.mod_eq_of_lt e2]
  rw [Nat.mod_eq_of_lt (by omega)]
  omega

/-- C22 (counterexample): for `GridSize = 65537` and the cell `(1, 65536)`
(so `GridSize >= 2` and `1 <= x, y < GridSize`) the 32-bit index arithmetic
wraps around: the six indices emitted are 65536, 0, 4294967295, 65536, 65537
and 0.  The first one decodes to the grid position `(65536, 0)`, which is not
the corner `(x - 1, y) = (0, 65536)`, and the index `0 + 65536 * 65537` of that
corner is not among the six. -/
theorem C22_cell_indices_wrap :
    2 ≤ 65537 ∧ (1 ≤ 1 ∧ 1 < 65537) ∧ (1 ≤ 65536 ∧ 65536 < 65537)
      ∧ Terrain.cellIndices 65537 1 65536 = [65536, 0, 4294967295, 65536, 65537, 0]
      ∧ Terrain.gridPos 65537 65536 = (65536, 0)
      ∧ (65536, 0) ≠ ((1 : Nat) - 1, (65536 : Nat))
      ∧ ((1 - 1) + 65536 * 65537) ∉ Terrain.cellIndices 65537 1 65536 := by
  refine ⟨by decide, by decide, by decide, ?_, ?_, by decide, ?_⟩
  · decide
  · decide
  · decide

/-- C22 (amended): for every `GridSize >= 2` with `GridSize * GridSize` below
`2 ^ 32` and every cell `(x, y)` with `1 <= x, y < GridSize`, the six indices
that `Terrain::CreateResources` emits for the cell are all below
`GridSize * GridSize`, the size of the vertex vector, where index
`x + y * GridSize` is the vertex at grid position `(x, y)`; they form two
triangles of three distinct vertices each that share the diagonal
`(x-1, y) - (x, y-1)` and together use exactly the four corners of the cell;
both triangles have the same orientation (2D cross product -1). -/
theorem C22_cell_triangles (GridSize x y : Nat) (hG : 2 ≤ GridSize)
    (hv : GridSize * GridSize < 2 ^ 32)
    (hx1 : 1 ≤ x) (hx : x < GridSize) (hy1 : 1 ≤ y) (hy : y < GridSize) :
    -- the cell is one of the cells of the index loops, whose output is the
    -- concatenation of the six indices of every cell
    (y ∈ List.range' 1 (GridSize - 1) ∧ x ∈ List.range' 1 (GridSize - 1))
      ∧ (Terrain.fillIndices GridSize).writes.map Prod.snd
          = ((List.range' 1 (GridSize - 1)).flatMap fun y =>
              (List.range' 1 (GridSize - 1)).flatMap fun x => Terrain.cellIndices GridSize x y)
      -- the six indices
      ∧ Terrain.cellIndices GridSize x y
          = [(x - 1) + y * GridSize, x + (y - 1) * GridSize, (x - 1) + (y - 1) * GridSize,
             (x - 1) + y * GridSize, x + y * GridSize, x + (y - 1) * GridSize]
      -- they are valid positions of the vertex vector
      ∧ (∀ k ∈ Terrain.cellIndices GridSize x y,
          k < GridSize * GridSize ∧ k < Terrain.verticesSize GridSize)
      -- the vertices they select
      ∧ (Terrain.cellIndices GridSize x y).map (Terrain.gridPos GridSize)
          = [(x - 1, y), (x, y - 1), (x - 1, y - 1), (x - 1, y), (x, y), (x, y - 1)]
      ∧ (∀ k ∈ Terrain.cellIndices GridSize x y,
          (k, Terrain.gridPos GridSize k) ∈ (Terrain.fillVertices GridSize).writes)
      -- two triangles of three distinct vertices
      ∧ ((Terrain.cellIndices GridSize x y).take 3).Nodup
      ∧ ((Terrain.cellIndices GridSize x y).drop 3).Nodup
      -- sharing the diagonal
      ∧ (∀ k ∈ [(x - 1) + y * GridSize, x + (y - 1) * GridSize],
          k ∈ (Terrain.cellIndices GridSize x y).take 3
            ∧ k ∈ (Terrain.cellIndices GridSize x y).drop 3)
      -- together exactly the four corners
      ∧ (∀ k, k ∈ Terrain.cellIndices GridSize x y ↔
          k ∈ [(x - 1) + (y - 1) * GridSize, x + (y - 1) * GridSize,
               (x - 1) + y * GridSize, x + y * GridSize])
      ∧ [(x - 1) + (y - 1) * GridSize, x + (y - 1) * GridSize,
          (x - 1) + y * GridSize, x + y * GridSize].Nodup
      -- same orientation
      ∧ cross2 (x - 1, y) (x, y - 1) (x - 1, y - 1) = -1
      ∧ cross2 (x - 1, y) (x, y) (x, y - 1) = -1 := by
  have hidx := Terrain.cellIndices_eq GridSize x y hx hy hv
  have hrow : y * GridSize + GridSize ≤ GridSize * GridSize := by
    have : (y + 1) * GridSize ≤ GridSize * GridSize := Nat.mul_le_mul_right _ hy
    rw [Nat.add_mul, Nat.one_mul] at this
    exact this
  have hprev : (y - 1) * GridSize + GridSize = y * GridSize := by
    have : (y - 1 + 1) * GridSize = y * GridSize := by rw [Nat.sub_add_cancel hy1]
    rw [Nat.add_mul, Nat.one_mul] at this
    exact this
  have hvs : Terrain.verticesSize GridSize = GridSize * GridSize := by
    simp only [Terrain.verticesSize, UINT32_RANGE]
    exact Nat.mod_eq_of_lt hv
  have hpos : (Terrain.cellIndices GridSize x y).map (Terrain.gridPos GridSize)
      = [(x - 1, y), (x, y - 1), (x - 1, y - 1), (x - 1, y), (x, y), (x, y - 1)] := by
    rw [hidx]
    simp only [List.map_cons, List.map_nil,
      Terrain.gridPos_eq GridSize (x - 1) y (by omega),
      Terrain.gridPos_eq GridSize x (y - 1) hx,
      Terrain.gridPos_eq GridSize (x - 1) (y - 1) (by omega),
      Terrain.gridPos_eq GridSize x y hx]
  have hvert : ∀ a b, a < GridSize → b < GridSize →
      (a + b * GridSize, Terrain.gridPos GridSize (a + b * GridSize))
        ∈ (Terrain.fillVertices GridSize).writes := by
    intro a b ha hb
    rw [Terrain.fillVertices_writes GridSize hv, Terrain.gridPos_eq GridSize a b ha]
    simp only [List.mem_flatMap, List.mem_map, List.mem_range, Prod.mk.injEq]
    exact ⟨b, hb, a, ha, Nat.add_comm _ _, rfl, rfl⟩
  refine ⟨?_, Terrain.fillIndices_values GridSize, hidx, ?_, hpos, ?_, ?_, ?_, ?_, ?_, ?_, ?_, ?_⟩
  · simp only [List.mem_range'_1]
    omega
  · intro k hk
    rw [hidx] at hk
    rw [hvs]
    simp only [List.mem_cons, List.mem_singleton, List.not_mem_nil, or_false] at hk
    omega
  · intro k hk
    rw [hidx] at hk
    simp only [List.mem_cons, List.mem_singleton, List.not_mem_nil, or_false] at hk
    rcases hk with rfl | rfl | rfl | rfl | rfl | rfl
    · exact hvert (x - 1) y (by omega) hy
    · exact hvert x (y - 1) hx (by omega)
    · exact hvert (x - 1) (y - 1) (by omega) (by omega)
    · exact hvert (x - 1) y (by omega) hy
    · exact hvert x y hx hy
    · exact hvert x (y - 1) hx (by omega)
  · rw [hidx]
    simp only [List.take, List.nodup_cons, List.mem_cons, List.mem_singleton,
      List.not_mem_nil, List.nodup_nil, and_true, or_false, not_false_eq_true]
    omega
  · rw [hidx]
    simp only [List.drop, List.nodup_cons, List.mem_cons, List.mem_singleton,
      List.not_mem_nil, List.nodup_nil, and_true, or_false, not_false_eq_true]
    omega
  · intro k hk
    rw [hidx]
    simp only [List.mem_cons, List.mem_singleton, List.not_mem_nil, or_false] at hk
    simp only [List.take, List.drop, List.mem_cons, List.mem_singleton, List.not_mem_nil,
      or_false]
    omega
  · intro k
    rw [hidx]
    simp only [List.mem_cons, List.mem_singleton, List.not_mem_nil, or_false]
    omega
  · simp only [List.nodup_cons, List.mem_cons, List.mem_singleton,
      List.not_mem_nil, List.nodup_nil, and_true, or_false, not_false_eq_true]
    omega
  · simp only [cross2]
    have e1 : ((y - 1 : Nat) : Int) = (y : Int) - 1 := by omega
    have e2 : ((x - 1 : Nat) : Int) = (x : Int) - 1 := by omega
    rw [e1, e2]
    ring
  · simp only [cross2]
    have e1 : ((y - 1 : Nat) : Int) = (y : Int) - 1 := by omega
    have e2 : ((x - 1 : Nat) : Int) = (x : Int) - 1 := by omega
    rw [e1, e2]
    ring

/-- Witness of C22 (amended) for the cell `(1, 2)` of a grid of 3 by 3
vertices: the indices 6, 4, 3, 6, 7, 4. -/
theorem C22_cell_triangles_witness :
    Terrain.cellIndices 3 1 2 = [(1 - 1) + 2 * 3, 1 + (2 - 1) * 3, (1 - 1) + (2 - 1) * 3,
        (1 - 1) + 2 * 3, 1 + 2 * 3, 1 + (2 - 1) * 3]
      ∧ Terrain.cellIndices 3 1 2 = [6, 4, 3, 6, 7, 4] :=
  ⟨(C22_cell_triangles 3 1 2 (by decide) (by decide) (by decide) (by decide) (by decide)
      (by decide)).2.2.1, by decide⟩

/-- C23: for every `GridSize >= 1` with `4 * 6 * (GridSize - 1)^2` below
`2 ^ 32`, the number of indices drawn by `Terrain::Draw`, the size of the
index buffer in bytes divided by `sizeof(Uint32)`, equals the number of
indices generated by `CreateResources`, `6 * (GridSize - 1)^2`. -/
theorem C23_draw_index_count (GridSize : Nat) (h1 : 1 ≤ GridSize)
    (hb : 4 * 6 * (GridSize - 1) * (GridSize - 1) < 2 ^ 32) :
    Terrain.drawNumIndices (Terrain.indexBufferSizeInBytes GridSize)
        = 6 * (GridSize - 1) * (GridSize - 1)
      ∧ Terrain.indexBufferSizeInBytes GridSize = 4 * (6 * (GridSize - 1) * (GridSize - 1))
      ∧ (Terrain.fillIndices GridSize).next = 6 * (GridSize - 1) * (GridSize - 1)
      ∧ (Terrain.fillIndices GridSize).writes.length = 6 * (GridSize - 1) * (GridSize - 1)
      ∧ Terrain.indicesSize GridSize = 6 * (GridSize - 1) * (GridSize - 1) := by
  have hassoc : 4 * 6 * (GridSize - 1) * (GridSize - 1)
      = 4 * (6 * (GridSize - 1) * (GridSize - 1)) := by ring
  have hi : 6 * (GridSize - 1) * (GridSize - 1) < 2 ^ 32 := by omega
  have hsz := Terrain.indicesSize_eq GridSize h1 hi
  obtain ⟨hn, hw⟩ := Terrain.fillIndices_seq GridSize hi
  have hbytes : Terrain.indexBufferSizeInBytes GridSize
      = 4 * (6 * (GridSize - 1) * (GridSize - 1)) := by
    simp only [Terrain.indexBufferSizeInBytes, hsz, Terrain.sizeofIndexType, UINT32_RANGE]
    rw [Nat.mod_eq_of_lt (by omega)]
    omega
  refine ⟨?_, hbytes, hn, ?_, hsz⟩
  · rw [hbytes]
    simp only [Terrain.drawNumIndices, Terrain.sizeofIndexType]
    omega
  · have := congrArg List.length hw
    simpa using this

/-- Witness of C23 for a grid of 3 by 3 vertices: 24 indices in 96 bytes. -/
theorem C23_draw_index_count_witness :
    Terrain.drawNumIndices (Terrain.indexBufferSizeInBytes 3) = 24
      ∧ Terrain.indexBufferSizeInBytes 3 = 96 :=
  ⟨(C23_draw_index_count 3 (by decide) (by decide)).1, by decide⟩

/-! ### Tutorial11: the diamond pattern generator and the stores of both generators -/

/-- Membership in the list of stores of a pattern generator. -/
theorem Tutorial11_ResourceUpdates.mem_patternStores (val : Nat → Nat → Nat → Nat)
    (Width Height Stride : Nat) (s : Nat × Nat) :
    s ∈ Tutorial11_ResourceUpdates.patternStores val Width Height Stride ↔
      ∃ j, j < Height ∧ ∃ i, i < Width ∧ ∃ c, c < 4 ∧
        s = (Tutorial11_ResourceUpdates.stripOffset i c j Stride, val i j c) := by
  simp only [Tutorial11_ResourceUpdates.patternStores, List.mem_flatMap, List.mem_range,
    List.mem_map]
  constructor
  · rintro ⟨j, hj, i, hi, c, hc, rfl⟩
    exact ⟨j, hj, i, hi, c, hc, rfl⟩
  · rintro ⟨j, hj, i, hi, c, hc, rfl⟩
    exact ⟨j, hj, i, hi, c, hc, rfl⟩

/-- The buffer `WriteStripPattern` leaves is the result of its stores. -/
theorem Tutorial11_ResourceUpdates.WriteStripPattern_stores (x_scale y_scale c_scale : Nat)
    (pData : Tutorial11_ResourceUpdates.Bytes) (Width Height Stride : Nat) :
    Tutorial11_ResourceUpdates.WriteStripPattern x_scale y_scale c_scale pData Width Height Stride
      = (Tutorial11_ResourceUpdates.stripStores x_scale y_scale c_scale Width Height
          Stride).foldl (fun m s => Tutorial11_ResourceUpdates.store m s.1 s.2) pData := by
  simp only [Tutorial11_ResourceUpdates.WriteStripPattern,
    Tutorial11_ResourceUpdates.stripStores, Tutorial11_ResourceUpdates.patternStores,
    Tutorial11_ResourceUpdates.foldl_flatMap_eq, List.foldl_map]

/-- The buffer `WriteDiamondPattern` leaves is the result of its stores. -/
theorem Tutorial11_ResourceUpdates.WriteDiamondPattern_stores (x_scale y_scale c_scale : Nat)
    (pData : Tutorial11_ResourceUpdates.Bytes) (Width Height Stride : Nat) :
    Tutorial11_ResourceUpdates.WriteDiamondPattern x_scale y_scale c_scale pData Width Height
        Stride
      = (Tutorial11_ResourceUpdates.diamondStores x_scale y_scale c_scale Width Height
          Stride).foldl (fun m s => Tutorial11_ResourceUpdates.store m s.1 s.2) pData := by
  simp only [Tutorial11_ResourceUpdates.WriteDiamondPattern,
    Tutorial11_ResourceUpdates.diamondStores, Tutorial11_ResourceUpdates.patternStores,
    Tutorial11_ResourceUpdates.foldl_flatMap_eq, List.foldl_map]

/-- Offsets of distinct pixels and channels are distinct when rows do not
overlap. -/
theorem Tutorial11_ResourceUpdates.offset_inj (Width Stride i j c i' j' c' : Nat)
    (hS : 4 * Width ≤ Stride) (hi : i < Width) (hc : c < 4) (hi' : i' < Width) (hc' : c' < 4)
    (h : j * Stride + 4 * i + c = j' * Stride + 4 * i' + c') : i = i' ∧ j = j' ∧ c = c' := by
  have hjj : j = j' := by
    rcases Nat.lt_trichotomy j j' with hl | he | hg
    · have : (j + 1) * Stride ≤ j' * Stride := Nat.mul_le_mul_right _ hl
      rw [Nat.add_mul] at this
      omega
    · exact he
    · have : (j' + 1) * Stride ≤ j * Stride := Nat.mul_le_mul_right _ hg
      rw [Nat.add_mul] at this
      omega
  subst hjj
  omega

/-- When rows do not overlap and no offset wraps around, the stores of a
pattern generator leave `val i j c` at offset `j * Stride + 4 * i + c` and
every other byte as it was. -/
theorem Tutorial11_ResourceUpdates.patternStores_bytes (val : Nat → Nat → Nat → Nat)
    (pData : Tutorial11_ResourceUpdates.Bytes) (Width Height Stride : Nat)
    (hS : 4 * Width ≤ Stride) (hwrap : (Height - 1) * Stride + 4 * Width ≤ 2 ^ 32) :
    (∀ i j c, i < Width → j < Height → c < 4 →
        (Tutorial11_ResourceUpdates.patternStores val Width Height Stride).foldl
            (fun m s => Tutorial11_ResourceUpdates.store m s.1 s.2) pData
            (j * Stride + 4 * i + c) = val i j c)
      ∧ (∀ a, (∀ i j c, i < Width → j < Height → c < 4 → a ≠ j * Stride + 4 * i + c) →
        (Tutorial11_ResourceUpdates.patternStores val Width Height Stride).foldl
            (fun m s => Tutorial11_ResourceUpdates.store m s.1 s.2) pData a = pData a) := by
  have hoff : ∀ i j c, i < Width → j < Height → c < 4 →
      Tutorial11_ResourceUpdates.stripOffset i c j Stride = j * Stride + 4 * i + c := by
    intro i j c hi hj hc
    apply Tutorial11_ResourceUpdates.stripOffset_eq
    have : j * Stride ≤ (Height - 1) * Stride := Nat.mul_le_mul_right _ (by omega)
    omega
  have hmem := Tutorial11_ResourceUpdates.mem_patternStores val Width Height Stride
  have key := fun a => Tutorial11_ResourceUpdates.foldl_store
    (fun s : Nat × Nat => s.1) (fun s : Nat × Nat => s.2)
    (Tutorial11_ResourceUpdates.patternStores val Width Height Stride) pData
    (by
      intro s hs t ht h
      obtain ⟨j, hj, i, hi, c, hc, rfl⟩ := (hmem s).mp hs
      obtain ⟨j', hj', i', hi', c', hc', rfl⟩ := (hmem t).mp ht
      simp only at h ⊢
      rw [hoff i j c hi hj hc, hoff i' j' c' hi' hj' hc'] at h
      obtain ⟨e1, e2, e3⟩ :=
        Tutorial11_ResourceUpdates.offset_inj Width Stride i j c i' j' c' hS hi hc hi' hc' h
      subst e1 e2 e3
      rfl) a
  constructor
  · intro i j c hi hj hc
    exact (key (j * Stride + 4 * i + c)).1 _
      ((hmem _).mpr ⟨j, hj, i, hi, c, hc, rfl⟩) (hoff i j c hi hj hc)
  · intro a ha
    apply (key a).2
    intro s hs
    obtain ⟨j, hj, i, hi, c, hc, rfl⟩ := (hmem s).mp hs
    simp only
    rw [hoff i j c hi hj hc]
    exact fun h => ha i j c hi hj hc h.symm

/-- Below `2 ^ 31` the absolute difference computed through `int` is the
absolute difference of the numbers. -/
theorem Tutorial11_ResourceUpdates.absDiff_eq (i w : Nat) (hi : i < 2 ^ 31) (hw : w < 2 ^ 31) :
    Tutorial11_ResourceUpdates.toUint32
        (Tutorial11_ResourceUpdates.absInt
          (Tutorial11_ResourceUpdates.toInt i - Tutorial11_ResourceUpdates.toInt w))
      = Int.natAbs ((i : Int) - (w : Int)) := by
  simp only [Tutorial11_ResourceUpdates.toInt, if_pos hi, if_pos hw,
    Tutorial11_ResourceUpdates.absInt, Tutorial11_ResourceUpdates.toUint32]
  split_ifs with h
  · omega
  · omega

/-- The masked 32-bit value of the diamond pattern is the unbounded
expression modulo 256. -/
theorem Tutorial11_ResourceUpdates.diamondValue_eq (x_scale y_scale c_scale Width Height i j c : Nat)
    (hW : Width < 2 ^ 31) (hH : Height < 2 ^ 31) (hi : i < Width) (hj : j < Height) :
    Tutorial11_ResourceUpdates.diamondValue x_scale y_scale c_scale Width Height i j c
      = (Int.natAbs ((i : Int) - ((Width / 2 : Nat) : Int)) * x_scale
          + Int.natAbs ((j : Int) - ((Height / 2 : Nat) : Int)) * y_scale
          + c * c_scale) % 256 := by
  have hand : ∀ x : Nat, x &&& 0xFF = x % 256 := fun x =>
    Nat.and_pow_two_sub_one_eq_mod x 8
  have hd : (256 : Nat) ∣ 2 ^ 32 := ⟨2 ^ 24, by norm_num⟩
  rw [Tutorial11_ResourceUpdates.diamondValue,
    Tutorial11_ResourceUpdates.absDiff_eq i (Width / 2) (by omega) (by omega),
    Tutorial11_ResourceUpdates.absDiff_eq j (Height / 2) (by omega) (by omega)]
  simp only [UINT32_RANGE, hand, Nat.mod_mod_of_dvd _ hd]
  omega

/-- C21: for every `Width` and `Height` below `2 ^ 31` and fixed scales,
`WriteDiamondPattern` stores for pixel `(i, j)`, channel `c`, the value
`(|i - Width/2| * x_scale + |j - Height/2| * y_scale + c * c_scale) mod 256`
(integer division) at the offset of that pixel and channel; hence the pattern
is mirror-symmetric about the centre: the pixels `(Width/2 + d, j)` and
`(Width/2 - d, j)` receive identical bytes whenever both are in range,
likewise `(i, Height/2 + d)` and `(i, Height/2 - d)`, and channel 0 of the
centre pixel is 0.  When the rows do not overlap and no offset wraps around,
these values are the content of the buffer after the call. -/
theorem C21_diamond_symmetric (x_scale y_scale c_scale Width Height : Nat)
    (hW : Width < 2 ^ 31) (hH : Height < 2 ^ 31) :
    -- the value stored for every pixel and channel
    (∀ i j c, i < Width → j < Height → c < 4 →
        Tutorial11_ResourceUpdates.diamondValue x_scale y_scale c_scale Width Height i j c
          = (Int.natAbs ((i : Int) - ((Width / 2 : Nat) : Int)) * x_scale
              + Int.natAbs ((j : Int) - ((Height / 2 : Nat) : Int)) * y_scale
              + c * c_scale) % 256)
      -- the call performs exactly these stores
      ∧ (∀ pData Stride,
          Tutorial11_ResourceUpdates.WriteDiamondPattern x_scale y_scale c_scale pData Width
              Height Stride
            = (Tutorial11_ResourceUpdates.diamondStores x_scale y_scale c_scale Width Height
                Stride).foldl (fun m s => Tutorial11_ResourceUpdates.store m s.1 s.2) pData)
      ∧ (∀ Stride s,
          s ∈ Tutorial11_ResourceUpdates.diamondStores x_scale y_scale c_scale Width Height Stride
            ↔ ∃ j, j < Height ∧ ∃ i, i < Width ∧ ∃ c, c < 4 ∧
                s = (Tutorial11_ResourceUpdates.stripOffset i c j Stride,
                  Tutorial11_ResourceUpdates.diamondValue x_scale y_scale c_scale Width Height
                    i j c))
      -- mirror symmetry about the centre column and the centre row
      ∧ (∀ d j c, d ≤ Width / 2 → Width / 2 + d < Width → j < Height → c < 4 →
          Tutorial11_ResourceUpdates.diamondValue x_scale y_scale c_scale Width Height
              (Width / 2 + d) j c
            = Tutorial11_ResourceUpdates.diamondValue x_scale y_scale c_scale Width Height
                (Width / 2 - d) j c)
      ∧ (∀ d i c, d ≤ Height / 2 → Height / 2 + d < Height → i < Width → c < 4 →
          Tutorial11_ResourceUpdates.diamondValue x_scale y_scale c_scale Width Height
              i (Height / 2 + d) c
            = Tutorial11_ResourceUpdates.diamondValue x_scale y_scale c_scale Width Height
                i (Height / 2 - d) c)
      -- the centre pixel
      ∧ (0 < Width → 0 < Height →
          Tutorial11_ResourceUpdates.diamondValue x_scale y_scale c_scale Width Height
            (Width / 2) (Height / 2) 0 = 0)
      -- the buffer after the call
      ∧ (∀ pData Stride, 4 * Width ≤ Stride → (Height - 1) * Stride + 4 * Width ≤ 2 ^ 32 →
          ∀ i j c, i < Width → j < Height → c < 4 →
            Tutorial11_ResourceUpdates.WriteDiamondPattern x_scale y_scale c_scale pData Width
                Height Stride (j * Stride + 4 * i + c)
              = (Int.natAbs ((i : Int) - ((Width / 2 : Nat) : Int)) * x_scale
                  + Int.natAbs ((j : Int) - ((Height / 2 : Nat) : Int)) * y_scale
                  + c * c_scale) % 256) := by
  have hval := fun i j c (hi : i < Width) (hj : j < Height) =>
    Tutorial11_ResourceUpdates.diamondValue_eq x_scale y_scale c_scale Width Height i j c
      hW hH hi hj
  refine ⟨fun i j c hi hj _ => hval i j c hi hj,
    fun pData Stride => Tutorial11_ResourceUpdates.WriteDiamondPattern_stores _ _ _ _ _ _ _,
    fun Stride s => Tutorial11_ResourceUpdates.mem_patternStores _ _ _ _ s, ?_, ?_, ?_, ?_⟩
  · intro d j c hd hlt hj _
    rw [hval _ j c hlt hj, hval _ j c (by omega) hj]
    have e1 : Int.natAbs (((Width / 2 + d : Nat) : Int) - ((Width / 2 : Nat) : Int)) = d := by
      omega
    have e2 : Int.natAbs (((Width / 2 - d : Nat) : Int) - ((Width / 2 : Nat) : Int)) = d := by
      omega
    rw [e1, e2]
  · intro d i c hd hlt hi _
    rw [hval i _ c hi hlt, hval i _ c hi (by omega)]
    have e1 : Int.natAbs (((Height / 2 + d : Nat) : Int) - ((Height / 2 : Nat) : Int)) = d := by
      omega
    have e2 : Int.natAbs (((Height / 2 - d : Nat) : Int) - ((Height / 2 : Nat) : Int)) = d := by
      omega
    rw [e1, e2]
  · intro h0 h1
    rw [hval _ _ 0 (by omega) (by omega)]
    simp
  · intro pData Stride hS hwrap i j c hi hj hc
    rw [Tutorial11_ResourceUpdates.WriteDiamondPattern_stores,
      Tutorial11_ResourceUpdates.diamondStores,
      (Tutorial11_ResourceUpdates.patternStores_bytes _ pData Width Height Stride hS hwrap).1
        i j c hi hj hc]
    exact hval i j c hi hj

/-- Witness of C21 for a 4 by 4 region with scales 3, 5 and 7: the pixels
`(3, 1)` and `(1, 1)`, one step to either side of the centre column, receive
the same byte in channel 2. -/
theorem C21_diamond_symmetric_witness :
    Tutorial11_ResourceUpdates.diamondValue 3 5 7 4 4 (4 / 2 + 1) 1 2
      = Tutorial11_ResourceUpdates.diamondValue 3 5 7 4 4 (4 / 2 - 1) 1 2 :=
  (C21_diamond_symmetric 3 5 7 4 4 (by decide) (by decide)).2.2.2.1 1 1 2
    (by decide) (by decide) (by decide) (by decide)

/-! ### Tutorial11: texture update regions, vertex buffer updates, cube indices -/

/-- Blocks of `k` consecutive numbers, one after the other, count up. -/
theorem Tutorial11_ResourceUpdates.flatMap_range_block (n k : Nat) :
    (List.range n).flatMap (fun i => (List.range k).map fun c => k * i + c)
      = List.range (n * k) := by
  induction n with
  | zero => simp
  | succ n ih =>
    rw [List.range_succ, List.flatMap_append, ih, Nat.succ_mul, List.range_add]
    simp [Nat.mul_comm k n]

/-- Functions that agree on the elements of a list give the same
concatenation. -/
theorem Tutorial11_ResourceUpdates.flatMap_congr_mem {α β : Type} (l : List α)
    (f g : α → List β) (h : ∀ a ∈ l, f a = g a) : l.flatMap f = l.flatMap g := by
  induction l with
  | nil => rfl
  | cons a as ih =>
    rw [List.flatMap_cons, List.flatMap_cons, h a (List.mem_cons_self _ _),
      ih (fun b hb => h b (List.mem_cons_of_mem _ hb))]

/-- With the stride `4 * Width` and no wrap-around, a pattern generator
stores at the offsets `0 .. 4 * Width * Height - 1`, in order. -/
theorem Tutorial11_ResourceUpdates.patternStores_tight (val : Nat → Nat → Nat → Nat)
    (Width Height : Nat) (hb : Height * (Width * 4) ≤ 2 ^ 32) :
    (Tutorial11_ResourceUpdates.patternStores val Width Height (Width * 4)).map Prod.fst
      = List.range (Height * (Width * 4)) := by
  have hoff : ∀ j, j < Height → ∀ i, i < Width → ∀ c, c < 4 →
      Tutorial11_ResourceUpdates.stripOffset i c j (Width * 4)
        = Width * 4 * j + (4 * i + c) := by
    intro j hj i hi c hc
    have h1 : (j + 1) * (Width * 4) ≤ Height * (Width * 4) := Nat.mul_le_mul_right _ hj
    rw [Nat.add_mul, Nat.one_mul] at h1
    rw [Tutorial11_ResourceUpdates.stripOffset_eq i c j (Width * 4) (by omega),
      Nat.mul_comm j (Width * 4)]
    omega
  have hrow : ∀ j, j < Height →
      ((List.range Width).flatMap fun i => (List.range 4).map fun c =>
          Tutorial11_ResourceUpdates.stripOffset i c j (Width * 4))
        = (List.range (Width * 4)).map fun t => Width * 4 * j + t := by
    intro j hj
    rw [← Tutorial11_ResourceUpdates.flatMap_range_block Width 4, List.map_flatMap]
    apply Tutorial11_ResourceUpdates.flatMap_congr_mem
    intro i hi
    rw [List.map_map]
    apply List.map_congr_left
    intro c hc
    exact hoff j hj i (List.mem_range.mp hi) c (List.mem_range.mp hc)
  rw [← Tutorial11_ResourceUpdates.flatMap_range_block Height (Width * 4)]
  simp only [Tutorial11_ResourceUpdates.patternStores, List.map_flatMap, List.map_map]
  apply Tutorial11_ResourceUpdates.flatMap_congr_mem
  intro j hj
  have := hrow j (List.mem_range.mp hj)
  simpa [Function.comp_def] using this

/-- C25: in `UpdateTexture`, for a texture whose width and height are at least
`MaxUpdateRegionSize` (a constant of the class with
`4 * MaxUpdateRegionSize^2 < 2^32`), each of the 3 updates uses a box with
`MaxX - MinX = Width`, `MaxY - MinY = Height`, `MaxX <= ` texture width and
`MaxY <= ` texture height, for `Width` and `Height` in
`[2, MaxUpdateRegionSize]`; the data vector has exactly `Width * Height * 4`
bytes and, with stride `Width * 4`, `WriteStripPattern` stores at the offsets
`0 .. Width * Height * 4 - 1`, each exactly once, and nowhere else. -/
theorem C25_UpdateTexture_regions (MaxUpdateRegionSize TexWidth TexHeight : Nat)
    (draws : Nat → Tutorial11_ResourceUpdates.UpdateDraw)
    (hMax : 4 * MaxUpdateRegionSize * MaxUpdateRegionSize < 2 ^ 32)
    (hTW : MaxUpdateRegionSize ≤ TexWidth) (hTH : MaxUpdateRegionSize ≤ TexHeight)
    (hTW32 : TexWidth < 2 ^ 32) (hTH32 : TexHeight < 2 ^ 32)
    (hdraws : ∀ update, update < Tutorial11_ResourceUpdates.NumUpdates →
      (draws update).inRange MaxUpdateRegionSize TexWidth TexHeight) :
    (Tutorial11_ResourceUpdates.UpdateTextureRegions draws).length = 3
      ∧ ∀ update, update < 3 →
          ∃ upd, (Tutorial11_ResourceUpdates.UpdateTextureRegions draws)[update]? = some upd
            ∧ (2 ≤ (draws update).Width ∧ (draws update).Width ≤ MaxUpdateRegionSize)
            ∧ (2 ≤ (draws update).Height ∧ (draws update).Height ≤ MaxUpdateRegionSize)
            ∧ upd.UpdateBox.MinX + (draws update).Width = upd.UpdateBox.MaxX
            ∧ upd.UpdateBox.MinY + (draws update).Height = upd.UpdateBox.MaxY
            ∧ upd.UpdateBox.MaxX ≤ TexWidth
            ∧ upd.UpdateBox.MaxY ≤ TexHeight
            ∧ upd.DataSize = (draws update).Width * (draws update).Height * 4
            ∧ upd.Stride = (draws update).Width * 4
            ∧ upd.stores = Tutorial11_ResourceUpdates.stripStores (draws update).x_scale
                (draws update).y_scale (draws update).c_scale (draws update).Width
                (draws update).Height upd.Stride
            ∧ upd.stores.map Prod.fst = List.range upd.DataSize := by
  refine ⟨by simp [Tutorial11_ResourceUpdates.UpdateTextureRegions,
    Tutorial11_ResourceUpdates.NumUpdates], ?_⟩
  intro update hu
  obtain ⟨⟨hW2, hWM⟩, ⟨hH2, hHM⟩, hX, hY⟩ := hdraws update hu
  have hget : (Tutorial11_ResourceUpdates.UpdateTextureRegions draws)[update]?
      = some (Tutorial11_ResourceUpdates.updateTextureOnce (draws update)) := by
    simp [Tutorial11_ResourceUpdates.UpdateTextureRegions,
      Tutorial11_ResourceUpdates.NumUpdates, List.getElem?_range hu]
  have hWH : (draws update).Width * (draws update).Height
      ≤ MaxUpdateRegionSize * MaxUpdateRegionSize := Nat.mul_le_mul hWM hHM
  have hassoc : 4 * MaxUpdateRegionSize * MaxUpdateRegionSize
      = 4 * (MaxUpdateRegionSize * MaxUpdateRegionSize) := Nat.mul_assoc _ _ _
  have hM1 : MaxUpdateRegionSize ≤ MaxUpdateRegionSize * MaxUpdateRegionSize :=
    Nat.le_mul_of_pos_right _ (by omega)
  have hsize : ((draws update).Width * (draws update).Height % UINT32_RANGE * 4) % UINT32_RANGE
      = (draws update).Width * (draws update).Height * 4 := by
    simp only [UINT32_RANGE]
    rw [Nat.mod_eq_of_lt (by omega), Nat.mod_eq_of_lt (by omega)]
  have hstride : ((draws update).Width * 4) % UINT32_RANGE = (draws update).Width * 4 := by
    simp only [UINT32_RANGE]
    exact Nat.mod_eq_of_lt (by omega)
  have hXle : (draws update).MinX + (draws update).Width ≤ TexWidth := by
    simp only [UINT32_RANGE] at hX
    omega
  have hYle : (draws update).MinY + (draws update).Height ≤ TexHeight := by
    simp only [UINT32_RANGE] at hY
    omega
  have hmaxX : ((draws update).MinX + (draws update).Width) % UINT32_RANGE
      = (draws update).MinX + (draws update).Width := by
    simp only [UINT32_RANGE]
    exact Nat.mod_eq_of_lt (by omega)
  have hmaxY : ((draws update).MinY + (draws update).Height) % UINT32_RANGE
      = (draws update).MinY + (draws update).Height := by
    simp only [UINT32_RANGE]
    exact Nat.mod_eq_of_lt (by omega)
  have hcomm : (draws update).Height * ((draws update).Width * 4)
      = (draws update).Width * (draws update).Height * 4 := by ring
  refine ⟨_, hget, ⟨hW2, hWM⟩, ⟨hH2, hHM⟩, ?_, ?_, ?_, ?_, ?_, ?_, ?_, ?_⟩
  · simp only [Tutorial11_ResourceUpdates.updateTextureOnce, hmaxX]
  · simp only [Tutorial11_ResourceUpdates.updateTextureOnce, hmaxY]
  · simp only [Tutorial11_ResourceUpdates.updateTextureOnce, hmaxX]
    exact hXle
  · simp only [Tutorial11_ResourceUpdates.updateTextureOnce, hmaxY]
    exact hYle
  · simp only [Tutorial11_ResourceUpdates.updateTextureOnce, hsize]
  · simp only [Tutorial11_ResourceUpdates.updateTextureOnce, hstride]
  · simp only [Tutorial11_ResourceUpdates.updateTextureOnce]
  · simp only [Tutorial11_ResourceUpdates.updateTextureOnce, hsize, hstride,
      Tutorial11_ResourceUpdates.stripStores]
    rw [Tutorial11_ResourceUpdates.patternStores_tight _ _ _ (by omega), hcomm]

/-- Witness of C25 for `MaxUpdateRegionSize = 128` and a texture of 256 by
256 texels, every update drawing a region of 2 by 3 texels at `(5, 7)`: the
24 bytes of the data vector are written in order. -/
theorem C25_UpdateTexture_regions_witness :
    ∃ upd, (Tutorial11_ResourceUpdates.UpdateTextureRegions
          fun _ => ⟨2, 3, 1, 1, 1, 5, 7⟩)[0]? = some upd
      ∧ upd.DataSize = 24 ∧ upd.stores.map Prod.fst = List.range 24 := by
  obtain ⟨upd, h1, _, _, _, _, _, _, h8, _, _, h11⟩ :=
    (C25_UpdateTexture_regions 128 256 256 (fun _ => ⟨2, 3, 1, 1, 1, 5, 7⟩)
      (by decide) (by decide) (by decide) (by decide) (by decide)
      (fun _ _ => (by decide :
        Tutorial11_ResourceUpdates.UpdateDraw.inRange 128 256 256 ⟨2, 3, 1, 1, 1, 5, 7⟩))).2
      0 (by decide)
  have h24 : upd.DataSize = 24 := h8
  exact ⟨upd, h1, h24, by rw [h11, h24]⟩


/-- The loop of `UpdateBuffer` after `k` iterations: the first `k` entries of
the local array hold the scaled copies of the source vertices. -/
theorem Tutorial11_ResourceUpdates.UpdateBuffer_loop (scale : Nat → ℚ)
    (FirstVertToUpdate k : Nat)
    (hk : FirstVertToUpdate + k ≤ Tutorial11_ResourceUpdates.countofCubeVerts) :
    (List.range k).foldl
        (fun (acc : Option (Nat → Option Tutorial11_ResourceUpdates.FloatVertex)) v =>
          acc.bind fun Vertices =>
            let SrcInd := (FirstVertToUpdate + v) % UINT32_RANGE
            match Tutorial11_ResourceUpdates.CubeVerts[SrcInd]? with
            | none => none
            | some SrcVert =>
              if v < Tutorial11_ResourceUpdates.countofCubeVerts then
                some (Function.update Vertices v
                  (some (Tutorial11_ResourceUpdates.scaledVertex (scale SrcInd) SrcVert)))
              else none)
        (some fun _ => none)
      = some fun v =>
          if v < k then
            (Tutorial11_ResourceUpdates.CubeVerts[FirstVertToUpdate + v]?).map
              (Tutorial11_ResourceUpdates.scaledVertex (scale (FirstVertToUpdate + v)))
          else none := by
  have h24 : Tutorial11_ResourceUpdates.countofCubeVerts = 24 := rfl
  induction k with
  | zero => simp
  | succ k ih =>
    have ih := ih (by omega)
    have hlt : FirstVertToUpdate + k < Tutorial11_ResourceUpdates.CubeVerts.length := by
      have : Tutorial11_ResourceUpdates.CubeVerts.length = 24 := rfl
      omega
    have hmod : (FirstVertToUpdate + k) % UINT32_RANGE = FirstVertToUpdate + k := by
      simp only [UINT32_RANGE]
      omega
    have hsrc : Tutorial11_ResourceUpdates.CubeVerts[FirstVertToUpdate + k]?
        = some (Tutorial11_ResourceUpdates.CubeVerts[FirstVertToUpdate + k]) :=
      List.getElem?_eq_getElem hlt
    have hkc : k < Tutorial11_ResourceUpdates.countofCubeVerts := by omega
    rw [List.range_succ, List.foldl_append, ih]
    simp only [List.foldl_cons, List.foldl_nil, Option.some_bind, hmod, hsrc, if_pos hkc]
    congr 1
    funext v
    by_cases hv : v = k
    · subst hv
      simp [hsrc]
    · rw [Function.update_noteq hv]
      by_cases hvk : v < k
      · simp [hvk, Nat.lt_succ_of_lt hvk]
      · have : ¬ v < k + 1 := by omega
        simp [hvk, this]

/-- C24: in `UpdateBuffer`, for every `NumVertsToUpdate` in `[2, 8]` and
`FirstVertToUpdate` in `[0, 24 - NumVertsToUpdate]`, every source index
`FirstVertToUpdate + v` is below 24, the updated byte range
`[FirstVertToUpdate * 20, (FirstVertToUpdate + NumVertsToUpdate) * 20)` lies
inside the 480-byte vertex buffer, and the vertex written to buffer slot
`FirstVertToUpdate + v`, entry `v` of the data, has exactly the uv of
`CubeVerts[FirstVertToUpdate + v]` and the position of that vertex multiplied
by a scalar. -/
theorem C24_UpdateBuffer_range (scale : Nat → ℚ) (NumVertsToUpdate FirstVertToUpdate : Nat)
    (hN2 : 2 ≤ NumVertsToUpdate) (hN8 : NumVertsToUpdate ≤ 8)
    (hF : FirstVertToUpdate ≤ 24 - NumVertsToUpdate) :
    ∃ call, Tutorial11_ResourceUpdates.UpdateBufferData scale NumVertsToUpdate
          FirstVertToUpdate = some call
      ∧ Tutorial11_ResourceUpdates.sizeofVertex = 20
      ∧ Tutorial11_ResourceUpdates.sizeofCubeVerts = 480
      ∧ call.Offset = FirstVertToUpdate * 20
      ∧ call.Size = NumVertsToUpdate * 20
      ∧ call.Offset + call.Size = (FirstVertToUpdate + NumVertsToUpdate) * 20
      ∧ call.Offset + call.Size ≤ Tutorial11_ResourceUpdates.sizeofCubeVerts
      ∧ ∀ v, v < NumVertsToUpdate →
          FirstVertToUpdate + v < 24
            ∧ call.Offset + v * Tutorial11_ResourceUpdates.sizeofVertex
                = (FirstVertToUpdate + v) * Tutorial11_ResourceUpdates.sizeofVertex
            ∧ ∃ SrcVert written,
                Tutorial11_ResourceUpdates.CubeVerts[FirstVertToUpdate + v]? = some SrcVert
                  ∧ call.Vertices v = some written
                  ∧ written.uv = ((SrcVert.uv.1 : ℚ), (SrcVert.uv.2 : ℚ))
                  ∧ written.pos
                      = (scale (FirstVertToUpdate + v) * (SrcVert.pos.1 : ℚ),
                         scale (FirstVertToUpdate + v) * (SrcVert.pos.2.1 : ℚ),
                         scale (FirstVertToUpdate + v) * (SrcVert.pos.2.2 : ℚ)) := by
  have h24 : Tutorial11_ResourceUpdates.countofCubeVerts = 24 := rfl
  have h20 : Tutorial11_ResourceUpdates.sizeofVertex = 20 := rfl
  have h480 : Tutorial11_ResourceUpdates.sizeofCubeVerts = 480 := rfl
  have hloop := Tutorial11_ResourceUpdates.UpdateBuffer_loop scale FirstVertToUpdate
    NumVertsToUpdate (by omega)
  have hoff : (FirstVertToUpdate * 20) % UINT32_RANGE = FirstVertToUpdate * 20 := by
    simp only [UINT32_RANGE]
    omega
  have hsz : (NumVertsToUpdate * 20) % UINT32_RANGE = NumVertsToUpdate * 20 := by
    simp only [UINT32_RANGE]
    omega
  refine ⟨{ Offset := (FirstVertToUpdate * Tutorial11_ResourceUpdates.sizeofVertex)
              % UINT32_RANGE
            Size := (NumVertsToUpdate * Tutorial11_ResourceUpdates.sizeofVertex) % UINT32_RANGE
            Vertices := fun v =>
              if v < NumVertsToUpdate then
                (Tutorial11_ResourceUpdates.CubeVerts[FirstVertToUpdate + v]?).map
                  (Tutorial11_ResourceUpdates.scaledVertex (scale (FirstVertToUpdate + v)))
              else none }, ?_, h20, h480, ?_, ?_, ?_, ?_, ?_⟩
  · simp only [Tutorial11_ResourceUpdates.UpdateBufferData]
    rw [hloop]
    rfl
  · simp only [h20, hoff]
  · simp only [h20, hsz]
  · simp only [h20, hoff, hsz]
    omega
  · simp only [h20, hoff, hsz, h480]
    omega
  · intro v hv
    have hlt : FirstVertToUpdate + v < Tutorial11_ResourceUpdates.CubeVerts.length := by
      have : Tutorial11_ResourceUpdates.CubeVerts.length = 24 := rfl
      omega
    refine ⟨by omega, ?_, Tutorial11_ResourceUpdates.CubeVerts[FirstVertToUpdate + v],
      Tutorial11_ResourceUpdates.scaledVertex (scale (FirstVertToUpdate + v))
        (Tutorial11_ResourceUpdates.CubeVerts[FirstVertToUpdate + v]),
      List.getElem?_eq_getElem hlt, ?_, rfl, ?_⟩
    · simp only [h20, hoff]
      omega
    · simp only [if_pos hv, List.getElem?_eq_getElem hlt, Option.map_some']
    · simp only [Tutorial11_ResourceUpdates.scaledVertex, mul_comm]

/-- Witness of C24 for 2 vertices starting at vertex 22, the last admissible
start: the call updates the bytes 440 .. 479. -/
theorem C24_UpdateBuffer_range_witness :
    ∃ call, Tutorial11_ResourceUpdates.UpdateBufferData (fun _ => 1) 2 22 = some call
      ∧ call.Offset = 22 * 20 ∧ call.Size = 2 * 20 := by
  obtain ⟨call, h1, _, _, h4, h5, _⟩ :=
    C24_UpdateBuffer_range (fun _ => 1) 2 22 (by decide) (by decide) (by decide)
  exact ⟨call, h1, h4, h5⟩


/-- C26: the cube index table, identical in Tutorial03 and Tutorial11, has 36
entries, the `NumIndices` drawn; for every face `k` in 0..5 the six indices at
positions `6k .. 6k+5` all lie in `4k .. 4k+3` (hence below 24), form two
triangles of three distinct vertices that together use all four vertices of
face `k`, and for each of the two triangles `(a, b, c)` the cross product
`(b - a) x (c - a)` of the vertex positions is 4 times the outward unit normal
of the face, so all twelve triangles have the same winding seen from outside. -/
theorem C26_cube_indices :
    Tutorial03_Texturing.Indices = Tutorial11_ResourceUpdates.Indices
      ∧ Tutorial11_ResourceUpdates.Indices.length = 36
      ∧ Tutorial11_ResourceUpdates.NumIndices = Tutorial11_ResourceUpdates.Indices.length
      ∧ Tutorial03_Texturing.NumIndices = Tutorial03_Texturing.Indices.length
      ∧ ((List.range 6).flatMap (faceIndices Tutorial11_ResourceUpdates.Indices))
          = Tutorial11_ResourceUpdates.Indices
      ∧ (∀ k ∈ List.range 6,
          (∀ i ∈ faceIndices Tutorial11_ResourceUpdates.Indices k,
              4 * k ≤ i ∧ i < 4 * k + 4 ∧ i < 24)
            ∧ ((faceIndices Tutorial11_ResourceUpdates.Indices k).take 3).Nodup
            ∧ ((faceIndices Tutorial11_ResourceUpdates.Indices k).drop 3).Nodup
            ∧ ((faceIndices Tutorial11_ResourceUpdates.Indices k).take 3).length = 3
            ∧ ((faceIndices Tutorial11_ResourceUpdates.Indices k).drop 3).length = 3
            ∧ (∀ v ∈ [4 * k, 4 * k + 1, 4 * k + 2, 4 * k + 3],
                v ∈ faceIndices Tutorial11_ResourceUpdates.Indices k))
      ∧ List.Forall₂
          (fun k face =>
            onFace face ((Tutorial11_ResourceUpdates.CubeVerts.drop (4 * k)).take 4) = true
              ∧ triangleCross Tutorial11_ResourceUpdates.CubeVerts
                  ((faceIndices Tutorial11_ResourceUpdates.Indices k).take 3)
                = (4 * (faceNormal face).1, 4 * (faceNormal face).2.1, 4 * (faceNormal face).2.2)
              ∧ triangleCross Tutorial11_ResourceUpdates.CubeVerts
                  ((faceIndices Tutorial11_ResourceUpdates.Indices k).drop 3)
                = (4 * (faceNormal face).1, 4 * (faceNormal face).2.1, 4 * (faceNormal face).2.2))
          (List.range 6) cubeFaces := by
  refine ⟨by decide, by decide, by decide, by decide, by decide, by decide, ?_⟩
  decide

end Diligent
